import Mathlib

/-!
Verification of the Cuttle rules engine, legal-move generator, heuristic
scorer and MCTS backpropagation, shallowly embedded from the Python source
(`cuttle_engine/cards.py`, `state.py`, `moves.py`, `move_generator.py`,
`executor.py`, `strategies/heuristic.py`, `strategies/mcts.py`).

Conventions of the embedding:
* A `Card` is a pair of numeric rank (Ace = 1 .. King = 13, following the
  `Rank` IntEnum) and numeric suit (Clubs = 0 .. Spades = 3, following the
  `Suit` IntEnum).
* Player indices are `Fin 2`, matching the source's 0/1 ints; `1 - i` in the
  source becomes `other i`.
* Python tuples of cards become `List Card`; `tuple(c for c in xs if c != y)`
  becomes `xs.filter (fun c => c != y)` (removing every equal element, exactly
  as the Python generator expression does).
* Fallible execution (`IllegalMoveError` and other runtime exceptions) is
  modelled by `Except String`.
-/

namespace Cuttle

/-- A playing card: numeric rank (1..13) and suit (0..3), after `cards.Card`. -/
structure Card where
  rank : Nat
  suit : Nat
deriving DecidableEq, Repr

/-- Points the card is worth when played for points: rank for A-10, else 0. -/
def Card.point_value (c : Card) : Nat :=
  if c.rank ≤ 10 then c.rank else 0

/-- Whether the card can be played face-up for points (A-10). -/
def Card.can_play_for_points (c : Card) : Bool :=
  c.rank ≤ 10

/-- Whether the card can be played as a one-off (A-9). -/
def Card.can_play_as_one_off (c : Card) : Bool :=
  c.rank ≤ 9

/-- Whether the card can be played as a permanent (8, J, Q, K). -/
def Card.can_play_as_permanent (c : Card) : Bool :=
  8 ≤ c.rank && c.rank ≠ 9 && c.rank ≠ 10

/-- Scuttle relation: both point-playable, and higher rank, or same rank and
higher suit. -/
def Card.can_scuttle (c target : Card) : Bool :=
  if ¬ c.can_play_for_points ∨ ¬ target.can_play_for_points then false
  else if target.rank < c.rank then true
  else if c.rank = target.rank ∧ target.suit < c.suit then true
  else false

/-- The 52-card deck in suit-major, rank-minor order, after `create_deck`. -/
def create_deck : List Card :=
  (List.range 4).flatMap fun s => (List.range 13).map fun r => Card.mk (r + 1) s

/-- A player index, 0 or 1. -/
abbrev Player := Fin 2

/-- The other player, the source's `1 - i`. -/
def other (p : Player) : Player := 1 - p

/-- Game phase, after `state.GamePhase`. -/
inductive GamePhase
  | MAIN
  | COUNTER
  | RESOLVE_SEVEN
  | DISCARD_FOUR
  | GAME_OVER
deriving DecidableEq, Repr

/-- Win reason, after `state.WinReason`. -/
inductive WinReason
  | POINTS
  | EMPTY_DECK_POINTS
  | OPPONENT_EMPTY_HAND
deriving DecidableEq, Repr

/-- Move tag, after `moves.MoveType` (also used as the `play_as` field of a
ResolveSeven move). -/
inductive MoveType
  | DRAW
  | PLAY_POINTS
  | SCUTTLE
  | PLAY_ONE_OFF
  | PLAY_PERMANENT
  | COUNTER
  | DECLINE_COUNTER
  | RESOLVE_SEVEN
  | DISCARD
  | PASS
deriving DecidableEq, Repr

/-- One-off effect tag, after `moves.OneOffEffect`. -/
inductive OneOffEffect
  | ACE_SCRAP_ALL_POINTS
  | TWO_COUNTER
  | TWO_DESTROY_PERMANENT
  | THREE_REVIVE
  | FOUR_DISCARD
  | FIVE_DRAW_TWO
  | SIX_SCRAP_ALL_PERMANENTS
  | SEVEN_PLAY_FROM_DECK
  | NINE_RETURN_PERMANENT
deriving DecidableEq, Repr

/-- A move, after the tagged dataclasses of `moves.py`. -/
inductive Move
  | Draw
  | PlayPoints (card : Card)
  | Scuttle (card target : Card)
  | PlayOneOff (card : Card) (effect : OneOffEffect)
      (target_card : Option Card) (target_player : Option Player)
  | PlayPermanent (card : Card) (target_card : Option Card)
  | Counter (card : Card)
  | DeclineCounter
  | ResolveSeven (card : Card) (play_as : MoveType) (target_card : Option Card)
  | Discard (card : Card)
  | Pass
deriving DecidableEq, Repr

/-- A single player's state, after `state.PlayerState`. -/
structure PlayerState where
  hand : List Card
  points_field : List Card
  permanents : List Card
  jacks : List (Card × Card)
deriving DecidableEq, Repr

/-- Total of point values over the points field and Jack-stolen cards. -/
def PlayerState.point_total (p : PlayerState) : Nat :=
  (p.points_field.map Card.point_value).sum
    + (p.jacks.map fun js => js.2.point_value).sum

/-- Number of Queens among the player's permanents. -/
def PlayerState.queens_count (p : PlayerState) : Nat :=
  (p.permanents.filter fun c => c.rank = 12).length

/-- Number of Kings among the player's permanents. -/
def PlayerState.kings_count (p : PlayerState) : Nat :=
  (p.permanents.filter fun c => c.rank = 13).length

def PlayerState.with_hand (p : PlayerState) (hand : List Card) : PlayerState :=
  { p with hand := hand }

def PlayerState.with_points_field (p : PlayerState) (pf : List Card) : PlayerState :=
  { p with points_field := pf }

def PlayerState.with_permanents (p : PlayerState) (pe : List Card) : PlayerState :=
  { p with permanents := pe }

def PlayerState.with_jacks (p : PlayerState) (js : List (Card × Card)) : PlayerState :=
  { p with jacks := js }

/-- Pending one-off state, after `state.CounterState`. -/
structure CounterState where
  one_off_card : Card
  one_off_player : Player
  target_card : Option Card
  target_player : Option Player
  counter_chain : List Card
deriving DecidableEq, Repr

/-- Number of Twos in the counter chain. -/
def CounterState.counter_count (cs : CounterState) : Nat :=
  cs.counter_chain.length

/-- Whether the one-off resolves (even number of counters). -/
def CounterState.resolves (cs : CounterState) : Bool :=
  cs.counter_count % 2 = 0

/-- Which player may counter next; derived from chain parity. -/
def CounterState.waiting_for_player (cs : CounterState) : Player :=
  if cs.counter_count % 2 = 0 then other cs.one_off_player else cs.one_off_player

/-- Seven-resolution state, after `state.SevenState`. -/
structure SevenState where
  revealed_cards : List Card
  player : Player
deriving DecidableEq, Repr

/-- Four-discard state, after `state.FourState`. -/
structure FourState where
  player : Player
  cards_to_discard : Nat
deriving DecidableEq, Repr

/-- Complete game state, after `state.GameState`; the two-player tuple is
stored as the fields `p0` and `p1`. -/
structure GameState where
  p0 : PlayerState
  p1 : PlayerState
  deck : List Card
  scrap : List Card
  current_player : Player
  phase : GamePhase
  turn_number : Nat
  consecutive_passes : Nat
  counter_state : Option CounterState
  seven_state : Option SevenState
  four_state : Option FourState
  winner : Option Player
  win_reason : Option WinReason
deriving DecidableEq, Repr

/-- The source's `state.players[i]`. -/
def GameState.player (s : GameState) (i : Player) : PlayerState :=
  if i = 0 then s.p0 else s.p1

/-- Functional update of `state.players[i]`. -/
def GameState.set_player (s : GameState) (i : Player) (p : PlayerState) : GameState :=
  if i = 0 then { s with p0 := p } else { s with p1 := p }

/-- The source's `state.opponent`. -/
def GameState.opponent (s : GameState) : Player := other s.current_player

/-- The source's `state.current_player_state`. -/
def GameState.current_player_state (s : GameState) : PlayerState :=
  s.player s.current_player

/-- The source's `state.opponent_state`. -/
def GameState.opponent_state (s : GameState) : PlayerState :=
  s.player s.opponent

/-- Whether the game has ended (`winner is not None`). -/
def GameState.is_game_over (s : GameState) : Bool :=
  s.winner.isSome

/-- Point threshold for a player to win: max(21 - 7·kings, 7). -/
def GameState.point_threshold (s : GameState) (i : Player) : Nat :=
  max (21 - 7 * (s.player i).kings_count) 7

/-- The source's `check_winner`: threshold win for player 0 then player 1,
else empty-deck comparisons. -/
def GameState.check_winner (s : GameState) : Option Player × Option WinReason :=
  if (s.player 0).point_total ≥ s.point_threshold 0 then
    (some 0, some WinReason.POINTS)
  else if (s.player 1).point_total ≥ s.point_threshold 1 then
    (some 1, some WinReason.POINTS)
  else if s.deck.length = 0 ∧ (s.player 0).point_total ≠ (s.player 1).point_total then
    (if (s.player 0).point_total > (s.player 1).point_total then
      (some 0, some WinReason.EMPTY_DECK_POINTS)
     else (some 1, some WinReason.EMPTY_DECK_POINTS))
  else if s.deck.length = 0 ∧ (s.player 0).hand.length = 0 then
    (some 1, some WinReason.OPPONENT_EMPTY_HAND)
  else if s.deck.length = 0 ∧ (s.player 1).hand.length = 0 then
    (some 0, some WinReason.OPPONENT_EMPTY_HAND)
  else (none, none)

def GameState.with_deck (s : GameState) (deck : List Card) : GameState :=
  { s with deck := deck }

def GameState.with_scrap (s : GameState) (scrap : List Card) : GameState :=
  { s with scrap := scrap }

def GameState.with_current_player (s : GameState) (i : Player) : GameState :=
  { s with current_player := i }

def GameState.with_phase (s : GameState) (ph : GamePhase) : GameState :=
  { s with phase := ph }

def GameState.with_turn_number (s : GameState) (n : Nat) : GameState :=
  { s with turn_number := n }

def GameState.with_consecutive_passes (s : GameState) (n : Nat) : GameState :=
  { s with consecutive_passes := n }

def GameState.with_counter_state (s : GameState) (cs : Option CounterState) : GameState :=
  { s with counter_state := cs }

def GameState.with_seven_state (s : GameState) (ss : Option SevenState) : GameState :=
  { s with seven_state := ss }

def GameState.with_four_state (s : GameState) (fs : Option FourState) : GameState :=
  { s with four_state := fs }

/-- `with_winner` also moves the phase to GAME_OVER when a winner is set. -/
def GameState.with_winner (s : GameState) (w : Option Player) (r : Option WinReason) :
    GameState :=
  { s with winner := w, win_reason := r,
           phase := if w.isSome then GamePhase.GAME_OVER else s.phase }

/-- The deterministic part of `create_initial_state`: deal 5 cards to player 0
and 6 to player 1 from the front of the given deck. -/
def create_initial_state (deck : List Card) : GameState :=
  { p0 := { hand := deck.take 5, points_field := [], permanents := [], jacks := [] }
    p1 := { hand := (deck.drop 5).take 6, points_field := [], permanents := [], jacks := [] }
    deck := deck.drop 11
    scrap := []
    current_player := 0
    phase := GamePhase.MAIN
    turn_number := 1
    consecutive_passes := 0
    counter_state := none
    seven_state := none
    four_state := none
    winner := none
    win_reason := none }

/-! ## Move generator (`move_generator.py`) -/

/-- Whether a card of `player` is shadowed by a Queen: a Queen itself is never
protected; any other card is protected when the player has at least one Queen. -/
def is_card_protected_by_queen (player : PlayerState) (card : Card) : Bool :=
  if card.rank = 12 then false
  else player.queens_count > 0

/-- Opponent point cards (field and Jack-stolen) scuttleable by `card` and not
Queen-protected. -/
def get_scuttleable_targets (opponent : PlayerState) (card : Card) : List Card :=
  (opponent.points_field.filter fun t =>
      card.can_scuttle t && !(is_card_protected_by_queen opponent t))
    ++ ((opponent.jacks.map Prod.snd).filter fun st =>
      card.can_scuttle st && !(is_card_protected_by_queen opponent st))

/-- One-off moves for a card in the current player's hand, dispatching on rank. -/
def generate_one_off_moves (state : GameState) (card : Card) : List Move :=
  let opponent := state.opponent_state
  if ¬ card.can_play_as_one_off then []
  else match card.rank with
  | 1 =>
      let has_points :=
        (state.player 0).points_field.length > 0
          ∨ (state.player 1).points_field.length > 0
          ∨ (state.player 0).jacks.length > 0
          ∨ (state.player 1).jacks.length > 0
      if has_points then
        [Move.PlayOneOff card OneOffEffect.ACE_SCRAP_ALL_POINTS none none]
      else []
  | 2 =>
      ((opponent.permanents.filter fun t =>
          !(is_card_protected_by_queen opponent t)).map fun t =>
        Move.PlayOneOff card OneOffEffect.TWO_DESTROY_PERMANENT (some t)
          (some state.opponent))
      ++ (((opponent.jacks.map Prod.fst).filter fun j =>
          !(is_card_protected_by_queen opponent j)).map fun j =>
        Move.PlayOneOff card OneOffEffect.TWO_DESTROY_PERMANENT (some j)
          (some state.opponent))
  | 3 =>
      state.scrap.map fun t =>
        Move.PlayOneOff card OneOffEffect.THREE_REVIVE (some t) none
  | 4 =>
      if opponent.hand.length > 0 then
        [Move.PlayOneOff card OneOffEffect.FOUR_DISCARD none (some state.opponent)]
      else []
  | 5 =>
      if state.deck.length ≥ 1 then
        [Move.PlayOneOff card OneOffEffect.FIVE_DRAW_TWO none none]
      else []
  | 6 =>
      let has_permanents :=
        (state.player 0).permanents.length > 0
          ∨ (state.player 1).permanents.length > 0
          ∨ (state.player 0).jacks.length > 0
          ∨ (state.player 1).jacks.length > 0
      if has_permanents then
        [Move.PlayOneOff card OneOffEffect.SIX_SCRAP_ALL_PERMANENTS none none]
      else []
  | 7 =>
      if state.deck.length ≥ 1 then
        [Move.PlayOneOff card OneOffEffect.SEVEN_PLAY_FROM_DECK none none]
      else []
  | 9 =>
      let current := state.current_player_state
      ((opponent.permanents.filter fun t =>
          !(is_card_protected_by_queen opponent t)).map fun t =>
        Move.PlayOneOff card OneOffEffect.NINE_RETURN_PERMANENT (some t)
          (some state.opponent))
      ++ (((opponent.jacks.map Prod.fst).filter fun j =>
          !(is_card_protected_by_queen opponent j)).map fun j =>
        Move.PlayOneOff card OneOffEffect.NINE_RETURN_PERMANENT (some j)
          (some state.opponent))
      ++ (current.permanents.map fun t =>
        Move.PlayOneOff card OneOffEffect.NINE_RETURN_PERMANENT (some t)
          (some state.current_player))
      ++ ((current.jacks.map Prod.fst).map fun j =>
        Move.PlayOneOff card OneOffEffect.NINE_RETURN_PERMANENT (some j)
          (some state.current_player))
  | _ => []

/-- Permanent (8, J, Q, K) moves for a card in the current player's hand. -/
def generate_permanent_moves (state : GameState) (card : Card) : List Move :=
  let opponent := state.opponent_state
  if ¬ card.can_play_as_permanent then []
  else match card.rank with
  | 8 => [Move.PlayPermanent card none]
  | 11 =>
      ((opponent.points_field.filter fun t =>
          !(is_card_protected_by_queen opponent t)).map fun t =>
        Move.PlayPermanent card (some t))
      ++ (((opponent.jacks.map Prod.snd).filter fun st =>
          !(is_card_protected_by_queen opponent st)).map fun st =>
        Move.PlayPermanent card (some st))
  | 12 => [Move.PlayPermanent card none]
  | 13 => [Move.PlayPermanent card none]
  | _ => []

/-- Main-phase move enumeration: Draw or Pass, then per hand card the points,
scuttle, one-off and permanent options. -/
def generate_main_phase_moves (state : GameState) : List Move :=
  let player := state.current_player_state
  let opponent := state.opponent_state
  (if state.deck.length > 0 then [Move.Draw] else [])
    ++ (if state.deck.length = 0 then [Move.Pass] else [])
    ++ player.hand.flatMap fun card =>
      (if card.can_play_for_points then [Move.PlayPoints card] else [])
        ++ (if card.can_play_for_points then
              (get_scuttleable_targets opponent card).map fun t =>
                Move.Scuttle card t
            else [])
        ++ generate_one_off_moves state card
        ++ generate_permanent_moves state card

/-- Counter-phase moves: one Counter per Two in the waiting player's hand,
then DeclineCounter. -/
def generate_counter_phase_moves (state : GameState) : List Move :=
  match state.counter_state with
  | none => []
  | some cs =>
      let player_state := state.player cs.waiting_for_player
      ((player_state.hand.filter fun c => c.rank = 2).map fun c => Move.Counter c)
        ++ [Move.DeclineCounter]

/-- One-off options for a revealed Seven card. -/
def generate_seven_one_off_options (state : GameState) (card : Card) (player : Player) :
    List Move :=
  let opponent := state.player (other player)
  let current := state.player player
  match card.rank with
  | 1 =>
      let has_points :=
        (state.player 0).points_field.length > 0 ∨ (state.player 0).jacks.length > 0
          ∨ (state.player 1).points_field.length > 0 ∨ (state.player 1).jacks.length > 0
      if has_points then [Move.ResolveSeven card MoveType.PLAY_ONE_OFF none] else []
  | 2 =>
      ((opponent.permanents.filter fun t =>
          !(is_card_protected_by_queen opponent t)).map fun t =>
        Move.ResolveSeven card MoveType.PLAY_ONE_OFF (some t))
      ++ (((opponent.jacks.map Prod.fst).filter fun j =>
          !(is_card_protected_by_queen opponent j)).map fun j =>
        Move.ResolveSeven card MoveType.PLAY_ONE_OFF (some j))
  | 3 =>
      state.scrap.map fun t => Move.ResolveSeven card MoveType.PLAY_ONE_OFF (some t)
  | 4 =>
      if opponent.hand.length > 0 then
        [Move.ResolveSeven card MoveType.PLAY_ONE_OFF none]
      else []
  | 5 =>
      if state.deck.length ≥ 1 then
        [Move.ResolveSeven card MoveType.PLAY_ONE_OFF none]
      else []
  | 6 =>
      let has_permanents :=
        (state.player 0).permanents.length > 0 ∨ (state.player 0).jacks.length > 0
          ∨ (state.player 1).permanents.length > 0 ∨ (state.player 1).jacks.length > 0
      if has_permanents then [Move.ResolveSeven card MoveType.PLAY_ONE_OFF none] else []
  | 7 =>
      if state.deck.length ≥ 1 then
        [Move.ResolveSeven card MoveType.PLAY_ONE_OFF none]
      else []
  | 9 =>
      ((opponent.permanents.filter fun t =>
          !(is_card_protected_by_queen opponent t)).map fun t =>
        Move.ResolveSeven card MoveType.PLAY_ONE_OFF (some t))
      ++ (((opponent.jacks.map Prod.fst).filter fun j =>
          !(is_card_protected_by_queen opponent j)).map fun j =>
        Move.ResolveSeven card MoveType.PLAY_ONE_OFF (some j))
      ++ (current.permanents.map fun t =>
        Move.ResolveSeven card MoveType.PLAY_ONE_OFF (some t))
      ++ ((current.jacks.map Prod.fst).map fun j =>
        Move.ResolveSeven card MoveType.PLAY_ONE_OFF (some j))
  | _ => []

/-- Permanent options for a revealed Seven card. -/
def generate_seven_permanent_options (state : GameState) (card : Card) (player : Player) :
    List Move :=
  let opponent := state.player (other player)
  match card.rank with
  | 8 => [Move.ResolveSeven card MoveType.PLAY_PERMANENT none]
  | 11 =>
      ((opponent.points_field.filter fun t =>
          !(is_card_protected_by_queen opponent t)).map fun t =>
        Move.ResolveSeven card MoveType.PLAY_PERMANENT (some t))
      ++ (((opponent.jacks.map Prod.snd).filter fun st =>
          !(is_card_protected_by_queen opponent st)).map fun st =>
        Move.ResolveSeven card MoveType.PLAY_PERMANENT (some st))
  | 12 => [Move.ResolveSeven card MoveType.PLAY_PERMANENT none]
  | 13 => [Move.ResolveSeven card MoveType.PLAY_PERMANENT none]
  | _ => []

/-- The ways one revealed Seven card can be played: points, scuttles, one-off
options, permanent options. -/
def seven_card_moves (state : GameState) (player : Player) (card : Card) :
    List Move :=
  let opponent := state.player (other player)
  (if card.can_play_for_points then
    [Move.ResolveSeven card MoveType.PLAY_POINTS none]
      ++ ((opponent.points_field.filter fun t =>
            card.can_scuttle t
              && !(is_card_protected_by_queen opponent t)).map fun t =>
        Move.ResolveSeven card MoveType.SCUTTLE (some t))
  else [])
  ++ (if card.can_play_as_one_off then
        generate_seven_one_off_options state card player
      else [])
  ++ (if card.can_play_as_permanent then
        generate_seven_permanent_options state card player
      else [])

/-- Seven-phase moves: every way to play each revealed card, with a
discard-to-scrap fallback per card that has no legal play. -/
def generate_seven_phase_moves (state : GameState) : List Move :=
  match state.seven_state with
  | none => []
  | some ss =>
      let player := ss.player
      ss.revealed_cards.flatMap fun card =>
        let card_moves := seven_card_moves state player card
        if card_moves.isEmpty then [Move.ResolveSeven card MoveType.DISCARD none]
        else card_moves

/-- Discard-phase moves: one Discard per card in the discarding player's hand. -/
def generate_discard_phase_moves (state : GameState) : List Move :=
  match state.four_state with
  | none => []
  | some fs => (state.player fs.player).hand.map fun c => Move.Discard c

/-- All legal moves for the state, dispatching on phase; empty when over. -/
def generate_legal_moves (state : GameState) : List Move :=
  if state.is_game_over then []
  else match state.phase with
  | GamePhase.MAIN => generate_main_phase_moves state
  | GamePhase.COUNTER => generate_counter_phase_moves state
  | GamePhase.RESOLVE_SEVEN => generate_seven_phase_moves state
  | GamePhase.DISCARD_FOUR => generate_discard_phase_moves state
  | GamePhase.GAME_OVER => []

/-! ## Executor (`executor.py`)

Failure (`IllegalMoveError`, `StopIteration`, missing-case errors) is an
`Except.error`; the message strings follow the source's reasons. The source's
early returns become nested conditionals. -/

/-- End the turn: flip `current_player`, bump `turn_number` on the 1 to 0 flip. -/
def end_turn (state : GameState) : GameState :=
  let new_turn := if state.current_player = 1 then state.turn_number + 1
                  else state.turn_number
  (state.with_current_player state.opponent).with_turn_number new_turn

/-- Apply `check_winner` and record a found winner on the state. -/
def check_win (state : GameState) : GameState :=
  match state.check_winner with
  | (some w, reason) => state.with_winner (some w) reason
  | (none, _) => state

/-- Draw the deck top into the current player's hand and end the turn. -/
def execute_draw (state : GameState) : Except String GameState :=
  if state.phase ≠ GamePhase.MAIN then Except.error "Can only draw during main phase"
  else match state.deck with
  | [] => Except.error "Deck is empty"
  | drawn_card :: new_deck =>
    let player := state.current_player_state
    let new_player := player.with_hand (player.hand ++ [drawn_card])
    let s := state.set_player state.current_player new_player
    Except.ok (end_turn ((s.with_deck new_deck).with_consecutive_passes 0))

/-- Play a card from hand into the points field; win-check then end turn. -/
def execute_play_points (state : GameState) (card : Card) : Except String GameState :=
  if state.phase ≠ GamePhase.MAIN then
    Except.error "Can only play for points during main phase"
  else
    let player := state.current_player_state
    if card ∉ player.hand then Except.error "Card not in hand"
    else if ¬ card.can_play_for_points then Except.error "Card cannot be played for points"
    else
      let new_player := (player.with_hand
        (player.hand.filter fun c => c != card)).with_points_field
          (player.points_field ++ [card])
      let new_state :=
        (state.set_player state.current_player new_player).with_consecutive_passes 0
      let new_state := check_win new_state
      if new_state.is_game_over then Except.ok new_state
      else Except.ok (end_turn new_state)

/-- Scuttle an opponent point card (field or Jack-stolen); both (plus the Jack,
in the stolen case) go to scrap. No win check is run on this path. -/
def execute_scuttle (state : GameState) (card target : Card) : Except String GameState :=
  if state.phase ≠ GamePhase.MAIN then
    Except.error "Can only scuttle during main phase"
  else
    let player := state.current_player_state
    let opponent := state.opponent_state
    if card ∉ player.hand then Except.error "Card not in hand"
    else if ¬ card.can_scuttle target then Except.error "Card cannot scuttle target"
    else
      let target_in_field := target ∈ opponent.points_field
      let target_in_jacks := opponent.jacks.any fun js => js.2 == target
      if ¬ target_in_field ∧ ¬ target_in_jacks then
        Except.error "Target not in opponent points"
      else
        let new_player := player.with_hand (player.hand.filter fun c => c != card)
        if target_in_field then
          let new_opponent := opponent.with_points_field
            (opponent.points_field.filter fun c => c != target)
          let new_scrap := state.scrap ++ [card, target]
          let s := (state.set_player state.current_player new_player).set_player
            state.opponent new_opponent
          Except.ok (end_turn ((s.with_scrap new_scrap).with_consecutive_passes 0))
        else
          match opponent.jacks.find? (fun js => js.2 == target) with
          | none => Except.error "StopIteration"
          | some jack_pair =>
            let new_jacks := opponent.jacks.filter fun js => js.2 != target
            let new_opponent := opponent.with_jacks new_jacks
            let new_scrap := state.scrap ++ [card, target, jack_pair.1]
            let s := (state.set_player state.current_player new_player).set_player
              state.opponent new_opponent
            Except.ok (end_turn ((s.with_scrap new_scrap).with_consecutive_passes 0))

/-- Cast a one-off: the card leaves the hand into a fresh CounterState and the
phase becomes COUNTER; `current_player` is unchanged. -/
def execute_play_one_off (state : GameState) (card : Card)
    (target_card : Option Card) (target_player : Option Player) :
    Except String GameState :=
  if state.phase ≠ GamePhase.MAIN then
    Except.error "Can only play one-off during main phase"
  else
    let player := state.current_player_state
    if card ∉ player.hand then Except.error "Card not in hand"
    else
      let new_player := player.with_hand (player.hand.filter fun c => c != card)
      let counter_state : CounterState :=
        { one_off_card := card, one_off_player := state.current_player,
          target_card := target_card, target_player := target_player,
          counter_chain := [] }
      let s := state.set_player state.current_player new_player
      Except.ok (((s.with_phase GamePhase.COUNTER).with_counter_state
        (some counter_state)).with_consecutive_passes 0)

/-- The shared tail of `_execute_play_permanent`: reset passes, win check, end
turn unless over. -/
def permanent_tail (new_state : GameState) : GameState :=
  let new_state := new_state.with_consecutive_passes 0
  let new_state := check_win new_state
  if new_state.is_game_over then new_state else end_turn new_state

/-- Play a permanent; a Jack steals its target (displacing an opposing Jack to
scrap when stealing a stolen card). Win-check then end turn. -/
def execute_play_permanent (state : GameState) (card : Card)
    (target_card : Option Card) : Except String GameState :=
  if state.phase ≠ GamePhase.MAIN then
    Except.error "Can only play permanent during main phase"
  else
    let player := state.current_player_state
    let opponent := state.opponent_state
    if card ∉ player.hand then Except.error "Card not in hand"
    else
      let new_hand := player.hand.filter fun c => c != card
      if card.rank = 11 then
        match target_card with
        | none => Except.error "Jack requires a target card"
        | some target =>
          let target_in_field := target ∈ opponent.points_field
          let target_in_jacks := opponent.jacks.any fun js => js.2 == target
          if ¬ target_in_field ∧ ¬ target_in_jacks then
            Except.error "Target not in opponent points"
          else if target_in_field then
            let new_opponent := opponent.with_points_field
              (opponent.points_field.filter fun c => c != target)
            let new_player := (player.with_hand new_hand).with_jacks
              (player.jacks ++ [(card, target)])
            Except.ok (permanent_tail
              ((state.set_player state.current_player new_player).set_player
                state.opponent new_opponent))
          else
            match opponent.jacks.find? (fun js => js.2 == target) with
            | none => Except.error "StopIteration"
            | some old_pair =>
              let new_opponent := opponent.with_jacks
                (opponent.jacks.filter fun js => js.2 != target)
              let state := state.with_scrap (state.scrap ++ [old_pair.1])
              let new_player := (player.with_hand new_hand).with_jacks
                (player.jacks ++ [(card, target)])
              Except.ok (permanent_tail
                ((state.set_player state.current_player new_player).set_player
                  state.opponent new_opponent))
      else
        let new_player := (player.with_hand new_hand).with_permanents
          (player.permanents ++ [card])
        Except.ok (permanent_tail (state.set_player state.current_player new_player))

/-- Counter with a Two: the Two moves from the waiting player's hand onto the
counter chain; the phase stays COUNTER. -/
def execute_counter (state : GameState) (card : Card) : Except String GameState :=
  if state.phase ≠ GamePhase.COUNTER then
    Except.error "Can only counter during counter phase"
  else match state.counter_state with
  | none => Except.error "No counter state"
  | some cs =>
    let waiting_player := cs.waiting_for_player
    let player := state.player waiting_player
    if card ∉ player.hand then Except.error "Card not in hand"
    else if card.rank ≠ 2 then Except.error "Can only counter with a Two"
    else
      let new_player := player.with_hand (player.hand.filter fun c => c != card)
      let new_counter_state := { cs with counter_chain := cs.counter_chain ++ [card] }
      Except.ok ((state.set_player waiting_player new_player).with_counter_state
        (some new_counter_state))

/-- Ace resolution: all points-field cards and all jack pairs go to scrap. -/
def resolve_ace (state : GameState) : GameState :=
  let scrap_of := fun (p : PlayerState) =>
    p.points_field ++ p.jacks.flatMap fun js => [js.1, js.2]
  let cards_to_scrap := scrap_of (state.player 0) ++ scrap_of (state.player 1)
  let s := state.set_player 0 (((state.player 0).with_points_field []).with_jacks [])
  let s := s.set_player 1 (((s.player 1).with_points_field []).with_jacks [])
  s.with_scrap (s.scrap ++ cards_to_scrap)

/-- Two resolution: destroy the target permanent; destroying a Jack also
scraps the stolen card. -/
def resolve_two (state : GameState) (target_card : Option Card)
    (target_player : Option Player) : Except String GameState :=
  match target_card, target_player with
  | some target, some tp =>
    let player := state.player tp
    if target ∈ player.permanents then
      let new_player := player.with_permanents
        (player.permanents.filter fun c => c != target)
      let s := state.set_player tp new_player
      Except.ok (s.with_scrap (s.scrap ++ [target]))
    else if player.jacks.any fun js => js.1 == target then
      match player.jacks.find? (fun js => js.1 == target) with
      | none => Except.error "StopIteration"
      | some pair =>
        let new_player := player.with_jacks
          (player.jacks.filter fun js => js.1 != target)
        let state := state.with_scrap (state.scrap ++ [pair.2])
        let s := state.set_player tp new_player
        Except.ok (s.with_scrap (s.scrap ++ [target]))
    else Except.error "Target not found"
  | _, _ => Except.error "Two requires a target"

/-- Three resolution: move the chosen scrap card to the caster's hand. -/
def resolve_three (state : GameState) (caster : Player) (target_card : Option Card) :
    Except String GameState :=
  match target_card with
  | none => Except.error "Three requires a target card from scrap"
  | some target =>
    if target ∉ state.scrap then Except.error "Card not in scrap"
    else
      let new_scrap := state.scrap.filter fun c => c != target
      let player := state.player caster
      let new_player := player.with_hand (player.hand ++ [target])
      Except.ok ((state.set_player caster new_player).with_scrap new_scrap)

/-- Four resolution: enter DISCARD_FOUR with min(2, hand size) to discard; a
no-op when the target hand is empty. -/
def resolve_four (state : GameState) (target_player : Option Player) :
    Except String GameState :=
  match target_player with
  | none => Except.error "Four requires a target player"
  | some tp =>
    let player := state.player tp
    let cards_to_discard := min 2 player.hand.length
    if cards_to_discard = 0 then Except.ok state
    else
      let four_state : FourState := { player := tp, cards_to_discard := cards_to_discard }
      Except.ok ((state.with_phase GamePhase.DISCARD_FOUR).with_four_state (some four_state))

/-- Five resolution: caster draws min(2, deck size) from the deck top. -/
def resolve_five (state : GameState) (caster : Player) : GameState :=
  let cards_to_draw := min 2 state.deck.length
  if cards_to_draw = 0 then state
  else
    let drawn := state.deck.take cards_to_draw
    let new_deck := state.deck.drop cards_to_draw
    let player := state.player caster
    let new_player := player.with_hand (player.hand ++ drawn)
    (state.set_player caster new_player).with_deck new_deck

/-- Six resolution: all permanents and all jack pairs go to scrap. -/
def resolve_six (state : GameState) : GameState :=
  let scrap_of := fun (p : PlayerState) =>
    p.permanents ++ p.jacks.flatMap fun js => [js.1, js.2]
  let cards_to_scrap := scrap_of (state.player 0) ++ scrap_of (state.player 1)
  let s := state.set_player 0 (((state.player 0).with_permanents []).with_jacks [])
  let s := s.set_player 1 (((s.player 1).with_permanents []).with_jacks [])
  s.with_scrap (s.scrap ++ cards_to_scrap)

/-- Seven resolution: reveal the deck top and enter RESOLVE_SEVEN. -/
def resolve_seven (state : GameState) (caster : Player) : Except String GameState :=
  match state.deck with
  | [] => Except.error "Deck is empty"
  | top :: new_deck =>
    let seven_state : SevenState := { revealed_cards := [top], player := caster }
    Except.ok (((state.with_deck new_deck).with_phase
      GamePhase.RESOLVE_SEVEN).with_seven_state (some seven_state))

/-- Nine resolution: return the target permanent to its owner's hand; a
returned Jack sends its stolen card back to the original owner's points. -/
def resolve_nine (state : GameState) (target_card : Option Card)
    (target_player : Option Player) : Except String GameState :=
  match target_card, target_player with
  | some target, some tp =>
    let player := state.player tp
    if target ∈ player.permanents then
      let new_player := (player.with_permanents
        (player.permanents.filter fun c => c != target)).with_hand
          (player.hand ++ [target])
      Except.ok (state.set_player tp new_player)
    else if player.jacks.any fun js => js.1 == target then
      match player.jacks.find? (fun js => js.1 == target) with
      | none => Except.error "StopIteration"
      | some pair =>
        let new_player := (player.with_jacks
          (player.jacks.filter fun js => js.1 != target)).with_hand
            (player.hand ++ [target])
        let opponent_idx := other tp
        let opponent := state.player opponent_idx
        let new_opponent := opponent.with_points_field
          (opponent.points_field ++ [pair.2])
        Except.ok ((state.set_player tp new_player).set_player opponent_idx new_opponent)
    else Except.error "Target not found"
  | _, _ => Except.error "Nine requires a target"

/-- Dispatch a resolving one-off on the cast card's rank. -/
def resolve_one_off (state : GameState) (cs : CounterState) : Except String GameState :=
  match cs.one_off_card.rank with
  | 1 => Except.ok (resolve_ace state)
  | 2 => resolve_two state cs.target_card cs.target_player
  | 3 => resolve_three state cs.one_off_player cs.target_card
  | 4 => resolve_four state cs.target_player
  | 5 => Except.ok (resolve_five state cs.one_off_player)
  | 6 => Except.ok (resolve_six state)
  | 7 => resolve_seven state cs.one_off_player
  | 9 => resolve_nine state cs.target_card cs.target_player
  | _ => Except.error "Invalid one-off card"

/-- The tail of `_execute_decline_counter` after the optional resolution. -/
def decline_tail (new_state : GameState) : GameState :=
  let new_state := new_state.with_counter_state none
  if new_state.phase = GamePhase.COUNTER then
    let new_state := new_state.with_phase GamePhase.MAIN
    let new_state := check_win new_state
    if ¬ new_state.is_game_over then end_turn new_state
    else new_state
  else new_state

/-- Decline to counter: the cast card and the chain go to scrap; apply the
effect when the chain length is even, else cancel; return to MAIN (with win
check and turn end) unless the effect entered another phase. -/
def execute_decline_counter (state : GameState) : Except String GameState :=
  if state.phase ≠ GamePhase.COUNTER then
    Except.error "Can only decline counter during counter phase"
  else match state.counter_state with
  | none => Except.error "No counter state"
  | some cs =>
    let new_scrap := state.scrap ++ [cs.one_off_card] ++ cs.counter_chain
    let new_state := state.with_scrap new_scrap
    match (if cs.resolves then resolve_one_off new_state cs else Except.ok new_state) with
    | Except.error e => Except.error e
    | Except.ok resolved => Except.ok (decline_tail resolved)

/-- The tail of `_execute_resolve_seven` after the play dispatch. -/
def seven_tail (new_state : GameState) : GameState :=
  if new_state.phase = GamePhase.COUNTER then new_state
  else
    let new_state := check_win new_state
    if ¬ new_state.is_game_over then end_turn new_state
    else new_state

/-- Execute the resolution of a Seven: commit the chosen revealed card
according to `play_as`; an unhandled tag (notably DISCARD) falls through with
the card removed from every location. -/
def execute_resolve_seven (state : GameState) (card : Card) (play_as : MoveType)
    (target_card : Option Card) : Except String GameState :=
  if state.phase ≠ GamePhase.RESOLVE_SEVEN then
    Except.error "Not in Seven resolution phase"
  else match state.seven_state with
  | none => Except.error "No Seven state"
  | some ss =>
    if card ∉ ss.revealed_cards then Except.error "Card not in revealed cards"
    else
      let player_idx := ss.player
      let opponent_idx := other player_idx
      let other_cards := ss.revealed_cards.filter fun c => c != card
      let new_deck := other_cards ++ state.deck
      let new_state := (((state.with_deck new_deck).with_seven_state
        none).with_phase GamePhase.MAIN).with_current_player player_idx
      match play_as with
      | MoveType.PLAY_POINTS =>
        let player := new_state.player player_idx
        let new_player := player.with_points_field (player.points_field ++ [card])
        Except.ok (seven_tail (new_state.set_player player_idx new_player))
      | MoveType.SCUTTLE =>
        (match target_card with
        | none => Except.error "Scuttle requires target"
        | some target =>
          let opponent := new_state.player opponent_idx
          if target ∈ opponent.points_field then
            let new_opponent := opponent.with_points_field
              (opponent.points_field.filter fun c => c != target)
            let s := new_state.set_player opponent_idx new_opponent
            Except.ok (seven_tail (s.with_scrap (s.scrap ++ [card, target])))
          else Except.error "Target not found")
      | MoveType.PLAY_ONE_OFF =>
        let counter_state : CounterState :=
          { one_off_card := card, one_off_player := player_idx,
            target_card := target_card,
            target_player := if target_card.isSome then some opponent_idx else none,
            counter_chain := [] }
        Except.ok (seven_tail ((new_state.with_phase
          GamePhase.COUNTER).with_counter_state (some counter_state)))
      | MoveType.PLAY_PERMANENT =>
        if card.rank = 11 then
          match target_card with
          | none => Except.error "Jack requires target"
          | some target =>
            let opponent := new_state.player opponent_idx
            let player := new_state.player player_idx
            if target ∈ opponent.points_field then
              let new_opponent := opponent.with_points_field
                (opponent.points_field.filter fun c => c != target)
              let new_player := player.with_jacks (player.jacks ++ [(card, target)])
              Except.ok (seven_tail
                ((new_state.set_player player_idx new_player).set_player
                  opponent_idx new_opponent))
            else Except.error "Target not found"
        else
          let player := new_state.player player_idx
          let new_player := player.with_permanents (player.permanents ++ [card])
          Except.ok (seven_tail (new_state.set_player player_idx new_player))
      | _ => Except.ok (seven_tail new_state)

/-- Execute a Four-forced discard; the final one returns to MAIN with win
check and turn end. -/
def execute_discard (state : GameState) (card : Card) : Except String GameState :=
  if state.phase ≠ GamePhase.DISCARD_FOUR then Except.error "Not in discard phase"
  else match state.four_state with
  | none => Except.error "No Four state"
  | some fs =>
    let player_idx := fs.player
    let player := state.player player_idx
    if card ∉ player.hand then Except.error "Card not in hand"
    else
      let new_hand := player.hand.filter fun c => c != card
      let new_player := player.with_hand new_hand
      let new_scrap := state.scrap ++ [card]
      let remaining := fs.cards_to_discard - 1
      if remaining > 0 ∧ new_hand.length > 0 then
        let new_four_state : FourState :=
          { player := player_idx, cards_to_discard := remaining }
        Except.ok (((state.set_player player_idx new_player).with_scrap
          new_scrap).with_four_state (some new_four_state))
      else
        let new_state := ((((state.set_player player_idx new_player).with_scrap
          new_scrap).with_four_state none).with_phase GamePhase.MAIN)
        let new_state := check_win new_state
        if ¬ new_state.is_game_over then Except.ok (end_turn new_state)
        else Except.ok new_state

/-- Execute a Pass (Main phase, empty deck only): a second consecutive pass
ends the game for the point leader, a tie resets the counter. -/
def execute_pass (state : GameState) : Except String GameState :=
  if state.phase ≠ GamePhase.MAIN then Except.error "Can only pass during main phase"
  else if state.deck.length > 0 then Except.error "Cannot pass when deck is not empty"
  else
    let new_passes := state.consecutive_passes + 1
    if new_passes ≥ 2 then
      let p0_points := (state.player 0).point_total
      let p1_points := (state.player 1).point_total
      if p0_points > p1_points then
        Except.ok (state.with_winner (some 0) (some WinReason.EMPTY_DECK_POINTS))
      else if p1_points > p0_points then
        Except.ok (state.with_winner (some 1) (some WinReason.EMPTY_DECK_POINTS))
      else Except.ok (end_turn (state.with_consecutive_passes 0))
    else Except.ok (end_turn (state.with_consecutive_passes new_passes))

/-- Execute a move, after `executor.execute_move`. -/
def execute_move (state : GameState) (move : Move) : Except String GameState :=
  if state.is_game_over then Except.error "Game is already over"
  else match move with
  | Move.Draw => execute_draw state
  | Move.PlayPoints card => execute_play_points state card
  | Move.Scuttle card target => execute_scuttle state card target
  | Move.PlayOneOff card _ target_card target_player =>
      execute_play_one_off state card target_card target_player
  | Move.PlayPermanent card target_card => execute_play_permanent state card target_card
  | Move.Counter card => execute_counter state card
  | Move.DeclineCounter => execute_decline_counter state
  | Move.ResolveSeven card play_as target_card =>
      execute_resolve_seven state card play_as target_card
  | Move.Discard card => execute_discard state card
  | Move.Pass => execute_pass state

/-! ## Heuristic scorer (`strategies/heuristic.py`) -/

/-- The best-revive loop of the Three branch of `HeuristicStrategy._score_move`. -/
def best_revive_score (scrap : List Card) : Int :=
  scrap.foldl
    (fun acc c =>
      if c.rank = 11 then max acc 600
      else if c.rank = 10 then max acc 550
      else if c.rank = 13 then max acc 500
      else if c.point_value ≥ 8 then max acc (400 + (c.point_value : Int) * 10)
      else if c.point_value ≥ 7 then max acc 300
      else acc)
    0

/-- Per-move heuristic score, after `HeuristicStrategy._score_move`; all the
source's float values are integers, so the result is an `Int`. -/
def score_move (state : GameState) (move : Move) (player_idx : Player)
    (point_diff : Int) : Int :=
  let my_points := (state.player player_idx).point_total
  let opp_points := (state.player (other player_idx)).point_total
  let threshold := state.point_threshold player_idx
  let is_behind := point_diff < -3
  let is_behind_big := point_diff < -8
  match move with
  | Move.PlayPoints card =>
      if my_points + card.point_value ≥ threshold then 10000
      else if card.point_value ≥ 8 then 800 + (card.point_value : Int) * 10
      else if card.point_value ≥ 5 then 400 + (card.point_value : Int) * 10
      else 200 + (card.point_value : Int) * 10
  | Move.Scuttle card target =>
      let value_gained : Int := (target.point_value : Int) - (card.point_value : Int)
      let opp_threshold := state.point_threshold (other player_idx)
      if (opp_points : Int) ≥ (opp_threshold : Int) - (target.point_value : Int) then 5000
      else if is_behind_big ∧ value_gained ≥ 5 then 100 + value_gained * 10
      else 20 + value_gained
  | Move.PlayPermanent card target =>
      if card.rank = 13 then 600
      else if card.rank = 11 ∧ target.isSome then
        let base : Int := 400 + ((target.getD ⟨0, 0⟩).point_value : Int) * 25
        if is_behind_big then base + 200
        else if is_behind then base + 100
        else base
      else if card.rank = 12 then 100
      else if card.rank = 8 then 50
      else 0
  | Move.PlayOneOff _ effect _ _ =>
      let is_opening := state.turn_number ≤ 3
      let is_midgame := 4 ≤ state.turn_number ∧ state.turn_number ≤ 8
      match effect with
      | OneOffEffect.ACE_SCRAP_ALL_POINTS =>
          if is_behind_big then (if is_opening then 700 else 500)
          else if is_behind then 150
          else -100
      | OneOffEffect.TWO_DESTROY_PERMANENT => 120
      | OneOffEffect.THREE_REVIVE =>
          let best := best_revive_score state.scrap
          if best > 0 then
            if is_behind_big then best + 100
            else if is_behind ∨ point_diff = 0 then best
            else best - 100
          else 50
      | OneOffEffect.FOUR_DISCARD =>
          if is_opening then 350 else if is_midgame then 150 else 100
      | OneOffEffect.FIVE_DRAW_TWO =>
          if is_opening then 300 else if is_midgame then 200 else 150
      | OneOffEffect.SIX_SCRAP_ALL_PERMANENTS =>
          let our_perms := (state.player player_idx).permanents.length
          let opp_perms := (state.player (other player_idx)).permanents.length
          if opp_perms ≥ our_perms + 3 then 200 else 30
      | OneOffEffect.SEVEN_PLAY_FROM_DECK =>
          if is_opening then 350 else if is_midgame then 250 else 150
      | _ => 100
  | Move.Counter _ =>
      match state.counter_state with
      | some cs =>
          if cs.one_off_card.rank = 1 then 400
          else if cs.one_off_card.rank = 5 then 350
          else if cs.one_off_card.rank = 4 then 100
          else if cs.one_off_card.rank = 2 then 80
          else 50
      | none => 100
  | Move.DeclineCounter =>
      match state.counter_state with
      | some cs =>
          if cs.one_off_card.rank = 6 ∨ cs.one_off_card.rank = 3
              ∨ cs.one_off_card.rank = 7 then 200
          else if cs.one_off_card.rank = 2 ∨ cs.one_off_card.rank = 4 then 150
          else if cs.one_off_card.rank = 5 then 50
          else if cs.one_off_card.rank = 1 then -50
          else 100
      | none => 100
  | Move.Draw => 250
  | Move.Pass => 0
  | Move.Discard card => 10 - (card.point_value : Int)
  | Move.ResolveSeven card play_as target =>
      if play_as = MoveType.PLAY_ONE_OFF then
        if card.rank = 5 then 400
        else if card.rank = 1 then
          (if opp_points > my_points then 350 else 100)
        else 250
      else if play_as = MoveType.PLAY_POINTS then
        if my_points + card.point_value ≥ threshold then 10000
        else 200 + (card.point_value : Int) * 10
      else if play_as = MoveType.SCUTTLE then
        match target with
        | some t => 50 + ((t.point_value : Int) - (card.point_value : Int))
        | none => 50
      else if play_as = MoveType.PLAY_PERMANENT then
        if card.rank = 13 then 500
        else if card.rank = 11 ∧ target.isSome then
          400 + ((target.getD ⟨0, 0⟩).point_value : Int) * 25
        else 100
      else 100

/-- The heuristic score of `(state, move)` as `HeuristicStrategy.select_move`
computes it: from the current player's perspective with the current point
difference. -/
def score (state : GameState) (move : Move) : Int :=
  score_move state move state.current_player
    (((state.player state.current_player).point_total : Int)
      - ((state.player (other state.current_player)).point_total : Int))

/-! ## MCTS backpropagation (`strategies/mcts.py`)

A node is reduced to the statistics the backpropagation loop touches; the
parent chain from the expansion node up to the root becomes a list whose head
is the expansion node and whose last element is the root. -/

/-- Per-node MCTS statistics, after `MCTSNode`. -/
structure NodeStats where
  visits : Nat
  wins : Rat
  player_just_moved : Option Player
deriving DecidableEq, Repr

/-- The source's `node.update(result)`. -/
def NodeStats.update (n : NodeStats) (result : Rat) : NodeStats :=
  { n with visits := n.visits + 1, wins := n.wins + result }

/-- The backpropagation loop of `MCTSStrategy.select_move`: walk the path from
the expansion node (head) to the root (last); a node with a known
`player_just_moved` is updated with the running result (0.5 when the result is
`none`) and flips the running result; a node without one is left untouched. -/
def backprop (result : Option Rat) : List NodeStats → List NodeStats
  | [] => []
  | n :: rest =>
      if n.player_just_moved.isSome then
        (n.update (result.getD (1/2))) :: backprop (result.map fun r => 1 - r) rest
      else n :: backprop result rest

/-! ## Card accounting and reachability -/

/-- Both cards of every (Jack, stolen) pair. -/
def jack_cards (js : List (Card × Card)) : List Card :=
  js.flatMap fun p => [p.1, p.2]

/-- All cards a player holds: hand, points field, permanents, jack pairs. -/
def player_cards (p : PlayerState) : List Card :=
  p.hand ++ p.points_field ++ p.permanents ++ jack_cards p.jacks

/-- Cards revealed by a pending Seven. -/
def revealed_cards_of (s : GameState) : List Card :=
  match s.seven_state with
  | some ss => ss.revealed_cards
  | none => []

/-- The cast one-off card and counter chain of a pending counter. -/
def counter_cards_of (s : GameState) : List Card :=
  match s.counter_state with
  | some cs => cs.one_off_card :: cs.counter_chain
  | none => []

/-- The revealed cards of an optional Seven sub-state. -/
def revealed_of_opt : Option SevenState → List Card
  | some ss => ss.revealed_cards
  | none => []

/-- The held cards of an optional counter sub-state. -/
def counter_of_opt : Option CounterState → List Card
  | some cs => cs.one_off_card :: cs.counter_chain
  | none => []

/-- The locations the specification's conservation invariant enumerates:
hands, points fields, permanents, jack pairs, deck, scrap, Seven reveals. -/
def listed_card_list (s : GameState) : List Card :=
  player_cards s.p0 ++ player_cards s.p1 ++ s.deck ++ s.scrap ++ revealed_cards_of s

/-- Every location, counting also a pending counter's cards. -/
def all_card_list (s : GameState) : List Card :=
  listed_card_list s ++ counter_cards_of s

/-- The multiset of cards over the listed locations. -/
def listed_cards (s : GameState) : Multiset Card :=
  (listed_card_list s : Multiset Card)

/-- The multiset of cards over every location including the counter state. -/
def all_cards (s : GameState) : Multiset Card :=
  (all_card_list s : Multiset Card)

/-- Structural well-formedness tying phases to their substates, maintained by
the executor and guaranteeing the generator finds the data it dispatches on. -/
def state_ok (s : GameState) : Prop :=
  (s.phase = GamePhase.COUNTER → s.counter_state.isSome)
    ∧ (s.phase = GamePhase.RESOLVE_SEVEN →
        ∃ ss, s.seven_state = some ss ∧ ss.revealed_cards ≠ [])
    ∧ (s.phase = GamePhase.DISCARD_FOUR →
        ∃ fs, s.four_state = some fs ∧ (s.player fs.player).hand ≠ [])
    ∧ (s.phase = GamePhase.GAME_OVER → s.winner.isSome)

/-- States reachable from some dealt initial state through successful moves. -/
inductive Reachable : GameState → Prop
  | init (deck : List Card) : Reachable (create_initial_state deck)
  | step {s s' : GameState} {m : Move} (h : Reachable s)
      (he : execute_move s m = Except.ok s') : Reachable s'

/-! ## Statement-level predicates used by the claims -/

/-- The state records exactly what `check_winner` reports: the winner field
agrees with the check (player 0's threshold before player 1's, then the
empty-deck rules), a found winner carries the reported reason, and a set
winner forces the GAME_OVER phase. -/
def win_check_applied (s : GameState) : Prop :=
  s.winner = s.check_winner.1
    ∧ (s.check_winner.1.isSome → s.win_reason = s.check_winner.2)
    ∧ (s.winner.isSome → s.phase = GamePhase.GAME_OVER)

/-- A move the heuristic scorer's 10000-point branches recognise as an
immediately winning points play. -/
def winning_points_play (s : GameState) (m : Move) : Prop :=
  match m with
  | Move.PlayPoints c =>
      (s.player s.current_player).point_total + c.point_value
        ≥ s.point_threshold s.current_player
  | Move.ResolveSeven c pa _ =>
      pa = MoveType.PLAY_POINTS
        ∧ (s.player s.current_player).point_total + c.point_value
            ≥ s.point_threshold s.current_player
  | _ => False

/-- The revealed card a ResolveSeven move silently removes from play: any
`play_as` tag other than the four handled ones (points, scuttle, one-off,
permanent) falls through the executor's dispatch. -/
def seven_discarded (m : Move) : Option Card :=
  match m with
  | Move.ResolveSeven c pa _ =>
      if pa = MoveType.PLAY_POINTS ∨ pa = MoveType.SCUTTLE
          ∨ pa = MoveType.PLAY_ONE_OFF ∨ pa = MoveType.PLAY_PERMANENT then none
      else some c
  | _ => none

/-- The per-level node updates the backpropagation loop performs on the
strict ancestors of the root: visits + 1 and the running (flipping) credit. -/
def updated_path (result : Option Rat) : List NodeStats → List NodeStats
  | [] => []
  | n :: rest =>
      n.update (result.getD (1/2)) :: updated_path (result.map fun r => 1 - r) rest

/-! ## Concrete states used by the claim instances -/

/-- A player with nothing. -/
def empty_player : PlayerState :=
  { hand := [], points_field := [], permanents := [], jacks := [] }

/-- Seven-resolution state whose revealed card is the Jack of Spades while the
opponent's only point card is held by one of their Jacks. -/
def seven_jack_state : GameState :=
  { p0 := empty_player
    p1 := { empty_player with jacks := [(⟨11, 2⟩, ⟨5, 0⟩)] }
    deck := [⟨2, 0⟩]
    scrap := []
    current_player := 0
    phase := GamePhase.RESOLVE_SEVEN
    turn_number := 3
    consecutive_passes := 0
    counter_state := none
    seven_state := some { revealed_cards := [⟨11, 3⟩], player := 0 }
    four_state := none
    winner := none
    win_reason := none }

/-- The steal-from-Jack ResolveSeven move the generator emits for
`seven_jack_state`. -/
def seven_jack_move : Move :=
  Move.ResolveSeven ⟨11, 3⟩ MoveType.PLAY_PERMANENT (some ⟨5, 0⟩)

/-- The freshly dealt state over the canonical 52-card deck. -/
def dealt_state : GameState := create_initial_state create_deck

/-- Casting the Ace of Clubs (the dealt first hand card) as a one-off. -/
def ace_one_off_move : Move :=
  Move.PlayOneOff ⟨1, 0⟩ OneOffEffect.ACE_SCRAP_ALL_POINTS none none

/-- A full 52-card Seven-resolution state: the revealed Jack of Spades has no
legal play (the opponent has neither point cards nor Jacks to steal from), so
only the discard fallback is legal. -/
def seven_discard_state : GameState :=
  { p0 := { empty_player with
      hand := (create_deck.filter (fun c => c != ⟨11, 3⟩)).take 5 }
    p1 := { empty_player with
      hand := ((create_deck.filter (fun c => c != ⟨11, 3⟩)).drop 5).take 6 }
    deck := (create_deck.filter (fun c => c != ⟨11, 3⟩)).drop 11
    scrap := []
    current_player := 0
    phase := GamePhase.RESOLVE_SEVEN
    turn_number := 3
    consecutive_passes := 0
    counter_state := none
    seven_state := some { revealed_cards := [⟨11, 3⟩], player := 0 }
    four_state := none
    winner := none
    win_reason := none }

/-- The discard-fallback move for `seven_discard_state`. -/
def seven_discard_move : Move := Move.ResolveSeven ⟨11, 3⟩ MoveType.DISCARD none

/-- Main-phase state with an empty deck and tied points where a Scuttle breaks
the tie: 10 of Spades in hand against the opponent's 9 of Diamonds. -/
def scuttle_tie_state : GameState :=
  { p0 := { empty_player with hand := [⟨10, 3⟩], points_field := [⟨9, 0⟩] }
    p1 := { empty_player with hand := [⟨2, 0⟩], points_field := [⟨9, 1⟩] }
    deck := []
    scrap := []
    current_player := 0
    phase := GamePhase.MAIN
    turn_number := 5
    consecutive_passes := 0
    counter_state := none
    seven_state := none
    four_state := none
    winner := none
    win_reason := none }

/-- The tie-breaking Scuttle for `scuttle_tie_state`. -/
def scuttle_tie_move : Move := Move.Scuttle ⟨10, 3⟩ ⟨9, 1⟩

/-- Counter-phase state reached with a nonzero pass counter: a Five one-off is
pending over an empty deck, and both hands are non-empty. -/
def counter_pass_state : GameState :=
  { p0 := { empty_player with hand := [⟨3, 2⟩] }
    p1 := { empty_player with hand := [⟨3, 3⟩] }
    deck := []
    scrap := []
    current_player := 0
    phase := GamePhase.COUNTER
    turn_number := 5
    consecutive_passes := 1
    counter_state := some
      { one_off_card := ⟨5, 1⟩
        one_off_player := 0
        target_card := none
        target_player := none
        counter_chain := [] }
    seven_state := none
    four_state := none
    winner := none
    win_reason := none }

/-- The successor of `counter_pass_state` under DeclineCounter: the Five
resolves as a no-op over the empty deck, the cast card is scrapped, and the
turn passes — with the pass counter untouched. -/
def decline_result_state : GameState :=
  { counter_pass_state with
      scrap := [⟨5, 1⟩]
      counter_state := none
      phase := GamePhase.MAIN
      current_player := 1 }

/-- Main-phase state where playing the King of Spades wins immediately (14
points against the post-King threshold of 14) while stealing the opponent's 6
of Diamonds with the Jack of Diamonds does not win yet scores higher. -/
def king_win_state : GameState :=
  { p0 := { empty_player with
              hand := [⟨13, 3⟩, ⟨11, 1⟩]
              points_field := [⟨10, 0⟩, ⟨4, 0⟩] }
    p1 := { empty_player with points_field := [⟨6, 1⟩, ⟨10, 1⟩, ⟨8, 1⟩] }
    deck := [⟨2, 0⟩]
    scrap := []
    current_player := 0
    phase := GamePhase.MAIN
    turn_number := 5
    consecutive_passes := 0
    counter_state := none
    seven_state := none
    four_state := none
    winner := none
    win_reason := none }

/-- The winning King play for `king_win_state`. -/
def king_win_move : Move := Move.PlayPermanent ⟨13, 3⟩ none

/-- The non-winning Jack steal for `king_win_state`. -/
def jack_steal_move : Move := Move.PlayPermanent ⟨11, 1⟩ (some ⟨6, 1⟩)

/-- The successor of `king_win_state` under the winning King play. -/
def king_win_result : GameState :=
  { p0 := { hand := [⟨11, 1⟩], points_field := [⟨10, 0⟩, ⟨4, 0⟩],
            permanents := [⟨13, 3⟩], jacks := [] }
    p1 := { empty_player with points_field := [⟨6, 1⟩, ⟨10, 1⟩, ⟨8, 1⟩] }
    deck := [⟨2, 0⟩]
    scrap := []
    current_player := 0
    phase := GamePhase.GAME_OVER
    turn_number := 5
    consecutive_passes := 0
    counter_state := none
    seven_state := none
    four_state := none
    winner := some 0
    win_reason := some WinReason.POINTS }

/-- Main-phase state where the current player holds a Nine and has both a
permanent (and a Queen) and a jack pair on their own board. -/
def nine_own_state : GameState :=
  { p0 := { empty_player with
              hand := [⟨9, 0⟩]
              permanents := [⟨8, 3⟩, ⟨12, 0⟩]
              jacks := [(⟨11, 0⟩, ⟨5, 2⟩)] }
    p1 := empty_player
    deck := [⟨2, 0⟩]
    scrap := []
    current_player := 0
    phase := GamePhase.MAIN
    turn_number := 2
    consecutive_passes := 0
    counter_state := none
    seven_state := none
    four_state := none
    winner := none
    win_reason := none }

/-- The successor of `scuttle_tie_state` under a first Pass. -/
def passed_state : GameState :=
  { scuttle_tie_state with consecutive_passes := 1, current_player := 1 }

/-- The queen-protection contract of the move generator: while the current
player's opponent holds a Queen, every generated Scuttle target, every one-off
target aimed at the opponent, and every targeted permanent (a Jack steal) is a
Queen; while the seven-phase revealing player's opponent holds a Queen, every
`ResolveSeven` scuttle or permanent target and every Two one-off target is a
Queen; and an opponent Queen itself is always offered as a Two target. -/
def queen_protected_spec (s : GameState) : Prop :=
  (0 < s.opponent_state.queens_count →
    ∀ m ∈ generate_legal_moves s,
      (∀ c t, m = Move.Scuttle c t → t.rank = 12) ∧
      (∀ c e t, m = Move.PlayOneOff c e (some t) (some s.opponent) →
        t.rank = 12) ∧
      (∀ c t, m = Move.PlayPermanent c (some t) → t.rank = 12)) ∧
  (∀ ss, s.seven_state = some ss →
    0 < (s.player (other ss.player)).queens_count →
    ∀ m ∈ generate_legal_moves s,
      (∀ c t, m = Move.ResolveSeven c MoveType.SCUTTLE (some t) →
        t.rank = 12) ∧
      (∀ c t, m = Move.ResolveSeven c MoveType.PLAY_PERMANENT (some t) →
        t.rank = 12) ∧
      (∀ c t, c.rank = 2 →
        m = Move.ResolveSeven c MoveType.PLAY_ONE_OFF (some t) →
        t.rank = 12)) ∧
  (s.phase = GamePhase.MAIN → s.is_game_over = false →
    ∀ q ∈ s.opponent_state.permanents, q.rank = 12 →
      ∀ c ∈ s.current_player_state.hand, c.rank = 2 →
        Move.PlayOneOff c OneOffEffect.TWO_DESTROY_PERMANENT (some q)
          (some s.opponent) ∈ generate_legal_moves s)

/-- Sub-states live only in their phase: outside COUNTER no counter state is
pending, outside RESOLVE_SEVEN no revealed Seven cards are pending. The
executor maintains this and silently overwrites the sub-states otherwise. -/
def substates_clean (s : GameState) : Prop :=
  (s.phase ≠ GamePhase.COUNTER → s.counter_state = none)
    ∧ (s.phase ≠ GamePhase.RESOLVE_SEVEN → s.seven_state = none)

/-- Main-phase state where the opponent (player 1) holds a Queen over a point
card and the current player holds a Two. -/
def queen_state : GameState :=
  { p0 := { empty_player with hand := [⟨2, 0⟩] }
    p1 := { empty_player with
              points_field := [⟨5, 1⟩]
              permanents := [⟨12, 1⟩] }
    deck := [⟨3, 0⟩]
    scrap := []
    current_player := 0
    phase := GamePhase.MAIN
    turn_number := 2
    consecutive_passes := 0
    counter_state := none
    seven_state := none
    four_state := none
    winner := none
    win_reason := none }

/-! ## Record-update and preservation lemmas -/

attribute [simp] GameState.with_deck GameState.with_scrap
  GameState.with_current_player GameState.with_phase GameState.with_turn_number
  GameState.with_consecutive_passes GameState.with_counter_state
  GameState.with_seven_state GameState.with_four_state
  PlayerState.with_hand PlayerState.with_points_field
  PlayerState.with_permanents PlayerState.with_jacks

@[simp] theorem set_player_deck (s : GameState) (i : Player) (p : PlayerState) :
    (s.set_player i p).deck = s.deck := by
  unfold GameState.set_player; split <;> rfl

@[simp] theorem set_player_scrap (s : GameState) (i : Player) (p : PlayerState) :
    (s.set_player i p).scrap = s.scrap := by
  unfold GameState.set_player; split <;> rfl

@[simp] theorem set_player_current (s : GameState) (i : Player) (p : PlayerState) :
    (s.set_player i p).current_player = s.current_player := by
  unfold GameState.set_player; split <;> rfl

@[simp] theorem set_player_phase (s : GameState) (i : Player) (p : PlayerState) :
    (s.set_player i p).phase = s.phase := by
  unfold GameState.set_player; split <;> rfl

@[simp] theorem set_player_turn (s : GameState) (i : Player) (p : PlayerState) :
    (s.set_player i p).turn_number = s.turn_number := by
  unfold GameState.set_player; split <;> rfl

@[simp] theorem set_player_passes (s : GameState) (i : Player) (p : PlayerState) :
    (s.set_player i p).consecutive_passes = s.consecutive_passes := by
  unfold GameState.set_player; split <;> rfl

@[simp] theorem set_player_counter (s : GameState) (i : Player) (p : PlayerState) :
    (s.set_player i p).counter_state = s.counter_state := by
  unfold GameState.set_player; split <;> rfl

@[simp] theorem set_player_seven (s : GameState) (i : Player) (p : PlayerState) :
    (s.set_player i p).seven_state = s.seven_state := by
  unfold GameState.set_player; split <;> rfl

@[simp] theorem set_player_four (s : GameState) (i : Player) (p : PlayerState) :
    (s.set_player i p).four_state = s.four_state := by
  unfold GameState.set_player; split <;> rfl

@[simp] theorem set_player_winner (s : GameState) (i : Player) (p : PlayerState) :
    (s.set_player i p).winner = s.winner := by
  unfold GameState.set_player; split <;> rfl

@[simp] theorem set_player_win_reason (s : GameState) (i : Player) (p : PlayerState) :
    (s.set_player i p).win_reason = s.win_reason := by
  unfold GameState.set_player; split <;> rfl

@[simp] theorem end_turn_passes (s : GameState) :
    (end_turn s).consecutive_passes = s.consecutive_passes := by
  unfold end_turn; split <;> rfl

@[simp] theorem end_turn_winner (s : GameState) :
    (end_turn s).winner = s.winner := by
  unfold end_turn; split <;> rfl

@[simp] theorem end_turn_win_reason (s : GameState) :
    (end_turn s).win_reason = s.win_reason := by
  unfold end_turn; split <;> rfl

@[simp] theorem end_turn_phase (s : GameState) :
    (end_turn s).phase = s.phase := by
  unfold end_turn; split <;> rfl

@[simp] theorem end_turn_deck (s : GameState) :
    (end_turn s).deck = s.deck := by
  unfold end_turn; split <;> rfl

@[simp] theorem end_turn_scrap (s : GameState) :
    (end_turn s).scrap = s.scrap := by
  unfold end_turn; split <;> rfl

@[simp] theorem end_turn_p0 (s : GameState) : (end_turn s).p0 = s.p0 := by
  unfold end_turn; split <;> rfl

@[simp] theorem end_turn_p1 (s : GameState) : (end_turn s).p1 = s.p1 := by
  unfold end_turn; split <;> rfl

@[simp] theorem end_turn_counter (s : GameState) :
    (end_turn s).counter_state = s.counter_state := by
  unfold end_turn; split <;> rfl

@[simp] theorem end_turn_seven (s : GameState) :
    (end_turn s).seven_state = s.seven_state := by
  unfold end_turn; split <;> rfl

@[simp] theorem end_turn_four (s : GameState) :
    (end_turn s).four_state = s.four_state := by
  unfold end_turn; split <;> rfl

@[simp] theorem end_turn_current (s : GameState) :
    (end_turn s).current_player = other s.current_player := by
  unfold end_turn GameState.opponent; split <;> rfl

@[simp] theorem set_player_player_self (s : GameState) (i : Player) (p : PlayerState) :
    (s.set_player i p).player i = p := by
  unfold GameState.set_player GameState.player
  split <;> rename_i h <;> simp [h]

@[simp] theorem end_turn_player (s : GameState) (i : Player) :
    (end_turn s).player i = s.player i := by
  unfold GameState.player
  split <;> simp

@[simp] theorem with_deck_player (s : GameState) (d : List Card) (i : Player) :
    (s.with_deck d).player i = s.player i := by
  unfold GameState.player; simp

@[simp] theorem with_scrap_player (s : GameState) (d : List Card) (i : Player) :
    (s.with_scrap d).player i = s.player i := by
  unfold GameState.player; simp

@[simp] theorem with_phase_player (s : GameState) (ph : GamePhase) (i : Player) :
    (s.with_phase ph).player i = s.player i := by
  unfold GameState.player; simp

@[simp] theorem with_counter_player (s : GameState) (cs : Option CounterState)
    (i : Player) : (s.with_counter_state cs).player i = s.player i := by
  unfold GameState.player; simp

@[simp] theorem with_seven_player (s : GameState) (ss : Option SevenState)
    (i : Player) : (s.with_seven_state ss).player i = s.player i := by
  unfold GameState.player; simp

@[simp] theorem with_four_player (s : GameState) (fs : Option FourState)
    (i : Player) : (s.with_four_state fs).player i = s.player i := by
  unfold GameState.player; simp

@[simp] theorem with_passes_player (s : GameState) (n : Nat) (i : Player) :
    (s.with_consecutive_passes n).player i = s.player i := by
  unfold GameState.player; simp

@[simp] theorem with_turn_player (s : GameState) (n : Nat) (i : Player) :
    (s.with_turn_number n).player i = s.player i := by
  unfold GameState.player; simp

@[simp] theorem with_current_player_player (s : GameState) (j i : Player) :
    (s.with_current_player j).player i = s.player i := by
  unfold GameState.player; simp

@[simp] theorem with_winner_player (s : GameState) (w : Option Player)
    (r : Option WinReason) (i : Player) :
    (s.with_winner w r).player i = s.player i := by
  unfold GameState.player GameState.with_winner; simp

theorem check_win_eq (s : GameState) :
    check_win s = match s.check_winner with
      | (some w, reason) => s.with_winner (some w) reason
      | (none, _) => s := rfl

@[simp] theorem check_win_passes (s : GameState) :
    (check_win s).consecutive_passes = s.consecutive_passes := by
  unfold check_win GameState.with_winner
  rcases s.check_winner with ⟨w, r⟩
  cases w <;> rfl

@[simp] theorem check_win_deck (s : GameState) : (check_win s).deck = s.deck := by
  unfold check_win GameState.with_winner
  rcases s.check_winner with ⟨w, r⟩
  cases w <;> rfl

@[simp] theorem check_win_scrap (s : GameState) : (check_win s).scrap = s.scrap := by
  unfold check_win GameState.with_winner
  rcases s.check_winner with ⟨w, r⟩
  cases w <;> rfl

@[simp] theorem check_win_p0 (s : GameState) : (check_win s).p0 = s.p0 := by
  unfold check_win GameState.with_winner
  rcases s.check_winner with ⟨w, r⟩
  cases w <;> rfl

@[simp] theorem check_win_p1 (s : GameState) : (check_win s).p1 = s.p1 := by
  unfold check_win GameState.with_winner
  rcases s.check_winner with ⟨w, r⟩
  cases w <;> rfl

@[simp] theorem check_win_current (s : GameState) :
    (check_win s).current_player = s.current_player := by
  unfold check_win GameState.with_winner
  rcases s.check_winner with ⟨w, r⟩
  cases w <;> rfl

@[simp] theorem check_win_counter (s : GameState) :
    (check_win s).counter_state = s.counter_state := by
  unfold check_win GameState.with_winner
  rcases s.check_winner with ⟨w, r⟩
  cases w <;> rfl

@[simp] theorem check_win_seven (s : GameState) :
    (check_win s).seven_state = s.seven_state := by
  unfold check_win GameState.with_winner
  rcases s.check_winner with ⟨w, r⟩
  cases w <;> rfl

@[simp] theorem check_win_four (s : GameState) :
    (check_win s).four_state = s.four_state := by
  unfold check_win GameState.with_winner
  rcases s.check_winner with ⟨w, r⟩
  cases w <;> rfl

@[simp] theorem check_win_turn (s : GameState) :
    (check_win s).turn_number = s.turn_number := by
  unfold check_win GameState.with_winner
  rcases s.check_winner with ⟨w, r⟩
  cases w <;> rfl

@[simp] theorem check_win_player (s : GameState) (i : Player) :
    (check_win s).player i = s.player i := by
  unfold GameState.player
  split <;> simp

@[simp] theorem permanent_tail_passes (s : GameState) :
    (permanent_tail s).consecutive_passes = 0 := by
  unfold permanent_tail
  dsimp only
  split <;> simp

@[simp] theorem decline_tail_passes (s : GameState) :
    (decline_tail s).consecutive_passes = s.consecutive_passes := by
  unfold decline_tail
  dsimp only
  split
  · split <;> simp
  · simp

@[simp] theorem seven_tail_passes (s : GameState) :
    (seven_tail s).consecutive_passes = s.consecutive_passes := by
  unfold seven_tail
  dsimp only
  split
  · rfl
  · split <;> simp

/-! ## Projection and multiset lemmas for the card-conservation invariant -/

theorem player_cases : ∀ p : Player, p = 0 ∨ p = 1 := by decide

@[simp] theorem player_zero (s : GameState) : s.player 0 = s.p0 := rfl

@[simp] theorem player_one (s : GameState) : s.player 1 = s.p1 := rfl

@[simp] theorem set_player_zero_p0 (s : GameState) (p : PlayerState) :
    (s.set_player 0 p).p0 = p := rfl

@[simp] theorem set_player_zero_p1 (s : GameState) (p : PlayerState) :
    (s.set_player 0 p).p1 = s.p1 := rfl

@[simp] theorem set_player_one_p0 (s : GameState) (p : PlayerState) :
    (s.set_player 1 p).p0 = s.p0 := rfl

@[simp] theorem set_player_one_p1 (s : GameState) (p : PlayerState) :
    (s.set_player 1 p).p1 = p := rfl

@[simp] theorem with_winner_p0 (s : GameState) (w : Option Player)
    (r : Option WinReason) : (s.with_winner w r).p0 = s.p0 := rfl

@[simp] theorem with_winner_p1 (s : GameState) (w : Option Player)
    (r : Option WinReason) : (s.with_winner w r).p1 = s.p1 := rfl

@[simp] theorem with_winner_deck (s : GameState) (w : Option Player)
    (r : Option WinReason) : (s.with_winner w r).deck = s.deck := rfl

@[simp] theorem with_winner_scrap (s : GameState) (w : Option Player)
    (r : Option WinReason) : (s.with_winner w r).scrap = s.scrap := rfl

@[simp] theorem with_winner_seven (s : GameState) (w : Option Player)
    (r : Option WinReason) : (s.with_winner w r).seven_state = s.seven_state := rfl

@[simp] theorem with_winner_counter (s : GameState) (w : Option Player)
    (r : Option WinReason) :
    (s.with_winner w r).counter_state = s.counter_state := rfl

@[simp] theorem permanent_tail_p0 (s : GameState) :
    (permanent_tail s).p0 = s.p0 := by
  unfold permanent_tail
  dsimp only
  split <;> simp

@[simp] theorem permanent_tail_p1 (s : GameState) :
    (permanent_tail s).p1 = s.p1 := by
  unfold permanent_tail
  dsimp only
  split <;> simp

@[simp] theorem permanent_tail_deck (s : GameState) :
    (permanent_tail s).deck = s.deck := by
  unfold permanent_tail
  dsimp only
  split <;> simp

@[simp] theorem permanent_tail_scrap (s : GameState) :
    (permanent_tail s).scrap = s.scrap := by
  unfold permanent_tail
  dsimp only
  split <;> simp

@[simp] theorem permanent_tail_seven (s : GameState) :
    (permanent_tail s).seven_state = s.seven_state := by
  unfold permanent_tail
  dsimp only
  split <;> simp

@[simp] theorem permanent_tail_counter (s : GameState) :
    (permanent_tail s).counter_state = s.counter_state := by
  unfold permanent_tail
  dsimp only
  split <;> simp

@[simp] theorem seven_tail_p0 (s : GameState) : (seven_tail s).p0 = s.p0 := by
  unfold seven_tail
  dsimp only
  split
  · rfl
  · split <;> simp

@[simp] theorem seven_tail_p1 (s : GameState) : (seven_tail s).p1 = s.p1 := by
  unfold seven_tail
  dsimp only
  split
  · rfl
  · split <;> simp

@[simp] theorem seven_tail_deck (s : GameState) : (seven_tail s).deck = s.deck := by
  unfold seven_tail
  dsimp only
  split
  · rfl
  · split <;> simp

@[simp] theorem seven_tail_scrap (s : GameState) :
    (seven_tail s).scrap = s.scrap := by
  unfold seven_tail
  dsimp only
  split
  · rfl
  · split <;> simp

@[simp] theorem seven_tail_seven (s : GameState) :
    (seven_tail s).seven_state = s.seven_state := by
  unfold seven_tail
  dsimp only
  split
  · rfl
  · split <;> simp

@[simp] theorem seven_tail_counter (s : GameState) :
    (seven_tail s).counter_state = s.counter_state := by
  unfold seven_tail
  dsimp only
  split
  · rfl
  · split <;> simp

@[simp] theorem decline_tail_p0 (s : GameState) :
    (decline_tail s).p0 = s.p0 := by
  unfold decline_tail
  dsimp only
  split
  · split <;> simp
  · simp

@[simp] theorem decline_tail_p1 (s : GameState) :
    (decline_tail s).p1 = s.p1 := by
  unfold decline_tail
  dsimp only
  split
  · split <;> simp
  · simp

@[simp] theorem decline_tail_deck (s : GameState) :
    (decline_tail s).deck = s.deck := by
  unfold decline_tail
  dsimp only
  split
  · split <;> simp
  · simp

@[simp] theorem decline_tail_scrap (s : GameState) :
    (decline_tail s).scrap = s.scrap := by
  unfold decline_tail
  dsimp only
  split
  · split <;> simp
  · simp

@[simp] theorem decline_tail_seven (s : GameState) :
    (decline_tail s).seven_state = s.seven_state := by
  unfold decline_tail
  dsimp only
  split
  · split <;> simp
  · simp

@[simp] theorem decline_tail_counter (s : GameState) :
    (decline_tail s).counter_state = none := by
  unfold decline_tail
  dsimp only
  split
  · split <;> simp
  · simp

/-- A no-duplicate list containing `a` is, as a multiset, `a` on top of its
`!= a` filtrate. -/
theorem coe_eq_cons_filter {l : List Card} {a : Card} (hnd : l.Nodup)
    (ha : a ∈ l) :
    (l : Multiset Card) = a ::ₘ ↑(l.filter fun c => c != a) := by
  induction l with
  | nil => cases ha
  | cons x xs ih =>
      rw [List.filter_cons]
      rcases List.mem_cons.mp ha with rfl | hax
      · rw [if_neg (by simp)]
        have hxx : xs.filter (fun c => c != a) = xs := by
          refine List.filter_eq_self.mpr fun c hc => ?_
          simp only [bne_iff_ne, ne_eq]
          rintro rfl
          exact (List.nodup_cons.mp hnd).1 hc
        rw [hxx, Multiset.cons_coe]
      · have hcons := List.nodup_cons.mp hnd
        rw [if_pos (by simp only [bne_iff_ne, ne_eq]; rintro rfl; exact hcons.1 hax)]
        rw [← Multiset.cons_coe, ← Multiset.cons_coe, ih hcons.2 hax]
        exact Multiset.cons_swap _ _ _

theorem fst_mem_jack_cards {js : List (Card × Card)} {p : Card × Card}
    (h : p ∈ js) : p.1 ∈ jack_cards js := by
  unfold jack_cards
  exact List.mem_flatMap.mpr ⟨p, h, by simp⟩

theorem snd_mem_jack_cards {js : List (Card × Card)} {p : Card × Card}
    (h : p ∈ js) : p.2 ∈ jack_cards js := by
  unfold jack_cards
  exact List.mem_flatMap.mpr ⟨p, h, by simp⟩

theorem jack_cards_cons (q : Card × Card) (js : List (Card × Card)) :
    jack_cards (q :: js) = q.1 :: q.2 :: jack_cards js := rfl

theorem jack_cards_append (a b : List (Card × Card)) :
    jack_cards (a ++ b) = jack_cards a ++ jack_cards b := by
  unfold jack_cards
  induction a with
  | nil => rfl
  | cons q rest ih => simp [List.flatMap_cons, ih, List.append_assoc]

/-- Removing the unique Jack pair whose stolen card is `target` splits the
jack-card multiset into the Jack, the target, and the filtrate. -/
theorem jack_cards_snd_split {js : List (Card × Card)} {pair : Card × Card}
    {target : Card} (hnd : (jack_cards js).Nodup) (hmem : pair ∈ js)
    (hsnd : pair.2 = target) :
    (jack_cards js : Multiset Card)
      = pair.1 ::ₘ target ::ₘ ↑(jack_cards (js.filter fun p => p.2 != target)) := by
  induction js with
  | nil => cases hmem
  | cons q rest ih =>
      rw [jack_cards_cons] at hnd
      have h1 : q.1 ∉ q.2 :: jack_cards rest := (List.nodup_cons.mp hnd).1
      have hnd2 := (List.nodup_cons.mp hnd).2
      have h2 : q.2 ∉ jack_cards rest := (List.nodup_cons.mp hnd2).1
      have h3 : (jack_cards rest).Nodup := (List.nodup_cons.mp hnd2).2
      rw [List.filter_cons]
      rcases List.mem_cons.mp hmem with rfl | hmem'
      · rw [if_neg (by simp [hsnd])]
        have hrest : rest.filter (fun p => p.2 != target) = rest := by
          refine List.filter_eq_self.mpr fun p hp => ?_
          simp only [bne_iff_ne, ne_eq]
          intro hpt
          exact h2 (hsnd ▸ hpt ▸ snd_mem_jack_cards hp)
        rw [hrest, jack_cards_cons, ← hsnd, ← Multiset.cons_coe, ← Multiset.cons_coe]
      · have hq2 : (q.2 != target) = true := by
          simp only [bne_iff_ne, ne_eq]
          intro hq2t
          exact h2 (hq2t ▸ hsnd ▸ snd_mem_jack_cards hmem')
        rw [if_pos hq2, jack_cards_cons, jack_cards_cons,
          ← Multiset.cons_coe, ← Multiset.cons_coe, ← Multiset.cons_coe,
          ← Multiset.cons_coe, ih h3 hmem']
        rw [Multiset.cons_swap q.2, Multiset.cons_swap q.1, Multiset.cons_swap q.2,
          Multiset.cons_swap q.1]

/-- Removing the unique Jack pair whose Jack is `target` splits the jack-card
multiset into the target, the stolen card, and the filtrate. -/
theorem jack_cards_fst_split {js : List (Card × Card)} {pair : Card × Card}
    {target : Card} (hnd : (jack_cards js).Nodup) (hmem : pair ∈ js)
    (hfst : pair.1 = target) :
    (jack_cards js : Multiset Card)
      = target ::ₘ pair.2 ::ₘ ↑(jack_cards (js.filter fun p => p.1 != target)) := by
  induction js with
  | nil => cases hmem
  | cons q rest ih =>
      rw [jack_cards_cons] at hnd
      have h1 : q.1 ∉ q.2 :: jack_cards rest := (List.nodup_cons.mp hnd).1
      have hnd2 := (List.nodup_cons.mp hnd).2
      have h2 : q.2 ∉ jack_cards rest := (List.nodup_cons.mp hnd2).1
      have h3 : (jack_cards rest).Nodup := (List.nodup_cons.mp hnd2).2
      have h1' : q.1 ∉ jack_cards rest := fun hc => h1 (List.mem_cons_of_mem _ hc)
      rw [List.filter_cons]
      rcases List.mem_cons.mp hmem with rfl | hmem'
      · rw [if_neg (by simp [hfst])]
        have hrest : rest.filter (fun p => p.1 != target) = rest := by
          refine List.filter_eq_self.mpr fun p hp => ?_
          simp only [bne_iff_ne, ne_eq]
          intro hpt
          exact h1' (hfst ▸ hpt ▸ fst_mem_jack_cards hp)
        rw [hrest, jack_cards_cons, ← hfst, ← Multiset.cons_coe, ← Multiset.cons_coe]
      · have hq1 : (q.1 != target) = true := by
          simp only [bne_iff_ne, ne_eq]
          intro hq1t
          exact h1' (hq1t ▸ hfst ▸ fst_mem_jack_cards hmem')
        rw [if_pos hq1, jack_cards_cons, jack_cards_cons,
          ← Multiset.cons_coe, ← Multiset.cons_coe, ← Multiset.cons_coe,
          ← Multiset.cons_coe, ih h3 hmem']
        rw [Multiset.cons_swap q.2, Multiset.cons_swap q.1, Multiset.cons_swap q.2,
          Multiset.cons_swap q.1]

/-- The card multiset split into its twelve component locations. -/
theorem all_cards_expand (s : GameState) :
    all_cards s = ↑s.p0.hand + ↑s.p0.points_field + ↑s.p0.permanents
      + ↑(jack_cards s.p0.jacks) + ↑s.p1.hand + ↑s.p1.points_field
      + ↑s.p1.permanents + ↑(jack_cards s.p1.jacks) + ↑s.deck + ↑s.scrap
      + ↑(revealed_cards_of s) + ↑(counter_cards_of s) := by
  unfold all_cards all_card_list listed_card_list player_cards
  simp only [← Multiset.coe_add]
  abel

/-- The listed-location card multiset split into its eleven components. -/
theorem listed_cards_expand (s : GameState) :
    listed_cards s = ↑s.p0.hand + ↑s.p0.points_field + ↑s.p0.permanents
      + ↑(jack_cards s.p0.jacks) + ↑s.p1.hand + ↑s.p1.points_field
      + ↑s.p1.permanents + ↑(jack_cards s.p1.jacks) + ↑s.deck + ↑s.scrap
      + ↑(revealed_cards_of s) := by
  unfold listed_cards listed_card_list player_cards
  simp only [← Multiset.coe_add]
  abel

theorem nodup_parts {s : GameState} (h : (all_cards s).Nodup) :
    (player_cards s.p0).Nodup ∧ (player_cards s.p1).Nodup ∧ s.deck.Nodup
      ∧ s.scrap.Nodup ∧ (revealed_cards_of s).Nodup
      ∧ (counter_cards_of s).Nodup := by
  unfold all_cards at h
  replace h := Multiset.coe_nodup.mp h
  unfold all_card_list listed_card_list at h
  exact ⟨h.of_append_left.of_append_left.of_append_left.of_append_left.of_append_left,
    h.of_append_left.of_append_left.of_append_left.of_append_left.of_append_right,
    h.of_append_left.of_append_left.of_append_left.of_append_right,
    h.of_append_left.of_append_left.of_append_right,
    h.of_append_left.of_append_right,
    h.of_append_right⟩

theorem revealed_congr {u v : GameState} (h : u.seven_state = v.seven_state) :
    revealed_cards_of u = revealed_cards_of v := by
  unfold revealed_cards_of
  rw [h]

theorem counter_congr {u v : GameState} (h : u.counter_state = v.counter_state) :
    counter_cards_of u = counter_cards_of v := by
  unfold counter_cards_of
  rw [h]

theorem revealed_cards_none {u : GameState} (h : u.seven_state = none) :
    revealed_cards_of u = [] := by
  unfold revealed_cards_of
  rw [h]

theorem revealed_cards_some {u : GameState} {ss : SevenState}
    (h : u.seven_state = some ss) : revealed_cards_of u = ss.revealed_cards := by
  unfold revealed_cards_of
  rw [h]

theorem counter_cards_none {u : GameState} (h : u.counter_state = none) :
    counter_cards_of u = [] := by
  unfold counter_cards_of
  rw [h]

theorem counter_cards_some {u : GameState} {cs : CounterState}
    (h : u.counter_state = some cs) :
    counter_cards_of u = cs.one_off_card :: cs.counter_chain := by
  unfold counter_cards_of
  rw [h]

@[simp] theorem revealed_with_deck (u : GameState) (d : List Card) :
    revealed_cards_of (u.with_deck d) = revealed_cards_of u :=
  revealed_congr (by simp)

@[simp] theorem revealed_with_scrap (u : GameState) (d : List Card) :
    revealed_cards_of (u.with_scrap d) = revealed_cards_of u :=
  revealed_congr (by simp)

@[simp] theorem revealed_with_current (u : GameState) (i : Player) :
    revealed_cards_of (u.with_current_player i) = revealed_cards_of u :=
  revealed_congr (by simp)

@[simp] theorem revealed_with_phase (u : GameState) (ph : GamePhase) :
    revealed_cards_of (u.with_phase ph) = revealed_cards_of u :=
  revealed_congr (by simp)

@[simp] theorem revealed_with_turn (u : GameState) (n : Nat) :
    revealed_cards_of (u.with_turn_number n) = revealed_cards_of u :=
  revealed_congr (by simp)

@[simp] theorem revealed_with_passes (u : GameState) (n : Nat) :
    revealed_cards_of (u.with_consecutive_passes n) = revealed_cards_of u :=
  revealed_congr (by simp)

@[simp] theorem revealed_with_counter (u : GameState) (cs : Option CounterState) :
    revealed_cards_of (u.with_counter_state cs) = revealed_cards_of u :=
  revealed_congr (by simp)

@[simp] theorem revealed_with_four (u : GameState) (fs : Option FourState) :
    revealed_cards_of (u.with_four_state fs) = revealed_cards_of u :=
  revealed_congr (by simp)

@[simp] theorem revealed_with_winner (u : GameState) (w : Option Player)
    (r : Option WinReason) :
    revealed_cards_of (u.with_winner w r) = revealed_cards_of u :=
  revealed_congr (by simp)

@[simp] theorem revealed_set_player (u : GameState) (i : Player)
    (p : PlayerState) :
    revealed_cards_of (u.set_player i p) = revealed_cards_of u :=
  revealed_congr (by simp)

@[simp] theorem revealed_end_turn (u : GameState) :
    revealed_cards_of (end_turn u) = revealed_cards_of u :=
  revealed_congr (by simp)

@[simp] theorem revealed_check_win (u : GameState) :
    revealed_cards_of (check_win u) = revealed_cards_of u :=
  revealed_congr (by simp)

@[simp] theorem revealed_permanent_tail (u : GameState) :
    revealed_cards_of (permanent_tail u) = revealed_cards_of u :=
  revealed_congr (by simp)

@[simp] theorem revealed_seven_tail (u : GameState) :
    revealed_cards_of (seven_tail u) = revealed_cards_of u :=
  revealed_congr (by simp)

@[simp] theorem revealed_decline_tail (u : GameState) :
    revealed_cards_of (decline_tail u) = revealed_cards_of u :=
  revealed_congr (by simp)

@[simp] theorem revealed_with_seven_none (u : GameState) :
    revealed_cards_of (u.with_seven_state none) = [] :=
  revealed_cards_none (by simp)

@[simp] theorem revealed_with_seven_some (u : GameState) (ss : SevenState) :
    revealed_cards_of (u.with_seven_state (some ss)) = ss.revealed_cards :=
  revealed_cards_some (by simp)

@[simp] theorem counter_with_deck (u : GameState) (d : List Card) :
    counter_cards_of (u.with_deck d) = counter_cards_of u :=
  counter_congr (by simp)

@[simp] theorem counter_with_scrap (u : GameState) (d : List Card) :
    counter_cards_of (u.with_scrap d) = counter_cards_of u :=
  counter_congr (by simp)

@[simp] theorem counter_with_current (u : GameState) (i : Player) :
    counter_cards_of (u.with_current_player i) = counter_cards_of u :=
  counter_congr (by simp)

@[simp] theorem counter_with_phase (u : GameState) (ph : GamePhase) :
    counter_cards_of (u.with_phase ph) = counter_cards_of u :=
  counter_congr (by simp)

@[simp] theorem counter_with_turn (u : GameState) (n : Nat) :
    counter_cards_of (u.with_turn_number n) = counter_cards_of u :=
  counter_congr (by simp)

@[simp] theorem counter_with_passes (u : GameState) (n : Nat) :
    counter_cards_of (u.with_consecutive_passes n) = counter_cards_of u :=
  counter_congr (by simp)

@[simp] theorem counter_with_seven (u : GameState) (ss : Option SevenState) :
    counter_cards_of (u.with_seven_state ss) = counter_cards_of u :=
  counter_congr (by simp)

@[simp] theorem counter_with_four (u : GameState) (fs : Option FourState) :
    counter_cards_of (u.with_four_state fs) = counter_cards_of u :=
  counter_congr (by simp)

@[simp] theorem counter_with_winner (u : GameState) (w : Option Player)
    (r : Option WinReason) :
    counter_cards_of (u.with_winner w r) = counter_cards_of u :=
  counter_congr (by simp)

@[simp] theorem counter_set_player (u : GameState) (i : Player)
    (p : PlayerState) :
    counter_cards_of (u.set_player i p) = counter_cards_of u :=
  counter_congr (by simp)

@[simp] theorem counter_end_turn (u : GameState) :
    counter_cards_of (end_turn u) = counter_cards_of u :=
  counter_congr (by simp)

@[simp] theorem counter_check_win (u : GameState) :
    counter_cards_of (check_win u) = counter_cards_of u :=
  counter_congr (by simp)

@[simp] theorem counter_permanent_tail (u : GameState) :
    counter_cards_of (permanent_tail u) = counter_cards_of u :=
  counter_congr (by simp)

@[simp] theorem counter_seven_tail (u : GameState) :
    counter_cards_of (seven_tail u) = counter_cards_of u :=
  counter_congr (by simp)

@[simp] theorem counter_decline_tail (u : GameState) :
    counter_cards_of (decline_tail u) = [] :=
  counter_cards_none (by simp)

@[simp] theorem counter_with_counter_none (u : GameState) :
    counter_cards_of (u.with_counter_state none) = [] :=
  counter_cards_none (by simp)

@[simp] theorem counter_with_counter_some (u : GameState) (cs : CounterState) :
    counter_cards_of (u.with_counter_state (some cs))
      = cs.one_off_card :: cs.counter_chain :=
  counter_cards_some (by simp)

theorem nodup_pc_parts {p : PlayerState} (h : (player_cards p).Nodup) :
    p.hand.Nodup ∧ p.points_field.Nodup ∧ p.permanents.Nodup
      ∧ (jack_cards p.jacks).Nodup := by
  unfold player_cards at h
  exact ⟨h.of_append_left.of_append_left.of_append_left,
    h.of_append_left.of_append_left.of_append_right,
    h.of_append_left.of_append_right,
    h.of_append_right⟩

@[simp] theorem revealed_cards_of_eq (u : GameState) :
    revealed_cards_of u = revealed_of_opt u.seven_state := by
  unfold revealed_cards_of revealed_of_opt
  cases u.seven_state <;> rfl

@[simp] theorem counter_cards_of_eq (u : GameState) :
    counter_cards_of u = counter_of_opt u.counter_state := by
  unfold counter_cards_of counter_of_opt
  cases u.counter_state <;> rfl

@[simp] theorem revealed_of_opt_none : revealed_of_opt none = [] := rfl

@[simp] theorem revealed_of_opt_some (ss : SevenState) :
    revealed_of_opt (some ss) = ss.revealed_cards := rfl

@[simp] theorem counter_of_opt_none : counter_of_opt none = [] := rfl

@[simp] theorem counter_of_opt_some (cs : CounterState) :
    counter_of_opt (some cs) = cs.one_off_card :: cs.counter_chain := rfl

@[simp] theorem other_zero : other 0 = 1 := rfl

@[simp] theorem other_one : other 1 = 0 := rfl

/-- Drawing conserves the card multiset. -/
theorem conserve_draw {s s' : GameState}
    (he : execute_draw s = Except.ok s') : all_cards s' = all_cards s := by
  unfold execute_draw at he
  split at he
  · cases he
  split at he
  · cases he
  rename_i drawn nd heq
  dsimp only at he
  simp only [Except.ok.injEq] at he
  subst he
  rw [all_cards_expand, all_cards_expand]
  rcases player_cases s.current_player with hcp | hcp <;>
    · simp only [GameState.current_player_state, hcp, player_zero, player_one,
        GameState.with_deck, GameState.with_scrap,
        GameState.with_current_player, GameState.with_phase,
        GameState.with_turn_number, GameState.with_consecutive_passes,
        GameState.with_counter_state, GameState.with_seven_state,
        GameState.with_four_state, GameState.with_winner,
        PlayerState.with_hand, PlayerState.with_points_field,
        PlayerState.with_permanents, PlayerState.with_jacks,
        set_player_zero_p0, set_player_zero_p1, set_player_one_p0,
        set_player_one_p1, set_player_deck, set_player_scrap,
        set_player_counter, set_player_seven,
        end_turn_p0, end_turn_p1, end_turn_deck, end_turn_scrap,
        end_turn_counter, end_turn_seven,
        check_win_p0, check_win_p1, check_win_deck, check_win_scrap,
        check_win_counter, check_win_seven,
        permanent_tail_p0, permanent_tail_p1, permanent_tail_deck,
        permanent_tail_scrap, permanent_tail_counter, permanent_tail_seven,
        seven_tail_p0, seven_tail_p1, seven_tail_deck, seven_tail_scrap,
        seven_tail_counter, seven_tail_seven,
        decline_tail_p0, decline_tail_p1, decline_tail_deck,
        decline_tail_scrap, decline_tail_counter, decline_tail_seven,
        revealed_cards_of_eq, counter_cards_of_eq, revealed_of_opt_none,
        revealed_of_opt_some, counter_of_opt_none, counter_of_opt_some,
        GameState.opponent, other_zero, other_one]
      rw [heq]
      simp only [← Multiset.coe_add, ← Multiset.cons_coe,
        Multiset.coe_singleton, ← Multiset.singleton_add, Multiset.coe_nil,
        add_zero]
      abel

/-- Playing points conserves the card multiset. -/
theorem conserve_play_points {s s' : GameState} {card : Card}
    (hnd : (all_cards s).Nodup)
    (he : execute_play_points s card = Except.ok s') :
    all_cards s' = all_cards s := by
  unfold execute_play_points at he
  dsimp only at he
  split at he
  · cases he
  split at he
  · cases he
  rename_i hmem
  split at he
  · cases he
  have hm : card ∈ s.current_player_state.hand := not_not.mp hmem
  split at he <;>
    · simp only [Except.ok.injEq] at he
      subst he
      rw [all_cards_expand, all_cards_expand]
      rcases player_cases s.current_player with hcp | hcp
      · have hhand : s.p0.hand.Nodup := (nodup_pc_parts (nodup_parts hnd).1).1
        rw [GameState.current_player_state, hcp, player_zero] at hm
        simp only [GameState.current_player_state, hcp, player_zero,
          GameState.with_deck, GameState.with_scrap,
          GameState.with_current_player, GameState.with_phase,
          GameState.with_turn_number, GameState.with_consecutive_passes,
          GameState.with_counter_state, GameState.with_seven_state,
          GameState.with_four_state, GameState.with_winner,
          PlayerState.with_hand, PlayerState.with_points_field,
          PlayerState.with_permanents, PlayerState.with_jacks,
          set_player_zero_p0, set_player_zero_p1, set_player_one_p0,
          set_player_one_p1, set_player_deck, set_player_scrap,
          set_player_counter, set_player_seven,
          end_turn_p0, end_turn_p1, end_turn_deck, end_turn_scrap,
          end_turn_counter, end_turn_seven,
          check_win_p0, check_win_p1, check_win_deck, check_win_scrap,
          check_win_counter, check_win_seven,
          permanent_tail_p0, permanent_tail_p1, permanent_tail_deck,
          permanent_tail_scrap, permanent_tail_counter, permanent_tail_seven,
          seven_tail_p0, seven_tail_p1, seven_tail_deck, seven_tail_scrap,
          seven_tail_counter, seven_tail_seven,
          decline_tail_p0, decline_tail_p1, decline_tail_deck,
          decline_tail_scrap, decline_tail_counter, decline_tail_seven,
          revealed_cards_of_eq, counter_cards_of_eq, revealed_of_opt_none,
          revealed_of_opt_some, counter_of_opt_none, counter_of_opt_some,
          GameState.opponent, other_zero, other_one]
        rw [coe_eq_cons_filter hhand hm]
        simp only [← Multiset.coe_add, ← Multiset.cons_coe,
          Multiset.coe_singleton, ← Multiset.singleton_add, Multiset.coe_nil,
          add_zero]
        abel
      · have hhand : s.p1.hand.Nodup := (nodup_pc_parts (nodup_parts hnd).2.1).1
        rw [GameState.current_player_state, hcp, player_one] at hm
        simp only [GameState.current_player_state, hcp, player_one,
          GameState.with_deck, GameState.with_scrap,
          GameState.with_current_player, GameState.with_phase,
          GameState.with_turn_number, GameState.with_consecutive_passes,
          GameState.with_counter_state, GameState.with_seven_state,
          GameState.with_four_state, GameState.with_winner,
          PlayerState.with_hand, PlayerState.with_points_field,
          PlayerState.with_permanents, PlayerState.with_jacks,
          set_player_zero_p0, set_player_zero_p1, set_player_one_p0,
          set_player_one_p1, set_player_deck, set_player_scrap,
          set_player_counter, set_player_seven,
          end_turn_p0, end_turn_p1, end_turn_deck, end_turn_scrap,
          end_turn_counter, end_turn_seven,
          check_win_p0, check_win_p1, check_win_deck, check_win_scrap,
          check_win_counter, check_win_seven,
          permanent_tail_p0, permanent_tail_p1, permanent_tail_deck,
          permanent_tail_scrap, permanent_tail_counter, permanent_tail_seven,
          seven_tail_p0, seven_tail_p1, seven_tail_deck, seven_tail_scrap,
          seven_tail_counter, seven_tail_seven,
          decline_tail_p0, decline_tail_p1, decline_tail_deck,
          decline_tail_scrap, decline_tail_counter, decline_tail_seven,
          revealed_cards_of_eq, counter_cards_of_eq, revealed_of_opt_none,
          revealed_of_opt_some, counter_of_opt_none, counter_of_opt_some,
          GameState.opponent, other_zero, other_one]
        rw [coe_eq_cons_filter hhand hm]
        simp only [← Multiset.coe_add, ← Multiset.cons_coe,
          Multiset.coe_singleton, ← Multiset.singleton_add, Multiset.coe_nil,
          add_zero]
        abel


@[simp] theorem jack_cards_nil : jack_cards [] = [] := rfl

/-- Scuttling conserves the card multiset. -/
theorem conserve_scuttle {s s' : GameState} {card target : Card}
    (hnd : (all_cards s).Nodup)
    (he : execute_scuttle s card target = Except.ok s') :
    all_cards s' = all_cards s := by
  unfold execute_scuttle at he
  dsimp only at he
  split at he
  · cases he
  split at he
  · cases he
  rename_i hmem
  split at he
  · cases he
  split at he
  · cases he
  have hm : card ∈ s.current_player_state.hand := not_not.mp hmem
  split at he
  · rename_i htif
    simp only [Except.ok.injEq] at he
    subst he
    rw [all_cards_expand, all_cards_expand]
    rcases player_cases s.current_player with hcp | hcp
    · have hhand : s.p0.hand.Nodup := (nodup_pc_parts (nodup_parts hnd).1).1
      have hpts : s.p1.points_field.Nodup := (nodup_pc_parts (nodup_parts hnd).2.1).2.1
      rw [GameState.current_player_state, hcp, player_zero] at hm
      rw [GameState.opponent_state, GameState.opponent, hcp, other_zero, player_one] at htif
      simp only [hcp, GameState.current_player_state, GameState.opponent_state, GameState.opponent, other_zero, other_one, player_zero, player_one, GameState.with_deck, GameState.with_scrap, GameState.with_current_player, GameState.with_phase, GameState.with_turn_number, GameState.with_consecutive_passes, GameState.with_counter_state, GameState.with_seven_state, GameState.with_four_state, GameState.with_winner, PlayerState.with_hand, PlayerState.with_points_field, PlayerState.with_permanents, PlayerState.with_jacks, set_player_zero_p0, set_player_zero_p1, set_player_one_p0, set_player_one_p1, set_player_deck, set_player_scrap, set_player_counter, set_player_seven, end_turn_p0, end_turn_p1, end_turn_deck, end_turn_scrap, end_turn_counter, end_turn_seven, check_win_p0, check_win_p1, check_win_deck, check_win_scrap, check_win_counter, check_win_seven, permanent_tail_p0, permanent_tail_p1, permanent_tail_deck, permanent_tail_scrap, permanent_tail_counter, permanent_tail_seven, seven_tail_p0, seven_tail_p1, seven_tail_deck, seven_tail_scrap, seven_tail_counter, seven_tail_seven, decline_tail_p0, decline_tail_p1, decline_tail_deck, decline_tail_scrap, decline_tail_counter, decline_tail_seven, revealed_cards_of_eq, counter_cards_of_eq, revealed_of_opt_none, revealed_of_opt_some, counter_of_opt_none, counter_of_opt_some, jack_cards_append, jack_cards_cons, jack_cards_nil]
      rw [coe_eq_cons_filter hhand hm, coe_eq_cons_filter hpts htif]
      simp only [← Multiset.coe_add, ← Multiset.cons_coe, Multiset.coe_singleton, ← Multiset.singleton_add, Multiset.coe_nil, add_zero]
      abel
    · have hhand : s.p1.hand.Nodup := (nodup_pc_parts (nodup_parts hnd).2.1).1
      have hpts : s.p0.points_field.Nodup := (nodup_pc_parts (nodup_parts hnd).1).2.1
      rw [GameState.current_player_state, hcp, player_one] at hm
      rw [GameState.opponent_state, GameState.opponent, hcp, other_one, player_zero] at htif
      simp only [hcp, GameState.current_player_state, GameState.opponent_state, GameState.opponent, other_zero, other_one, player_zero, player_one, GameState.with_deck, GameState.with_scrap, GameState.with_current_player, GameState.with_phase, GameState.with_turn_number, GameState.with_consecutive_passes, GameState.with_counter_state, GameState.with_seven_state, GameState.with_four_state, GameState.with_winner, PlayerState.with_hand, PlayerState.with_points_field, PlayerState.with_permanents, PlayerState.with_jacks, set_player_zero_p0, set_player_zero_p1, set_player_one_p0, set_player_one_p1, set_player_deck, set_player_scrap, set_player_counter, set_player_seven, end_turn_p0, end_turn_p1, end_turn_deck, end_turn_scrap, end_turn_counter, end_turn_seven, check_win_p0, check_win_p1, check_win_deck, check_win_scrap, check_win_counter, check_win_seven, permanent_tail_p0, permanent_tail_p1, permanent_tail_deck, permanent_tail_scrap, permanent_tail_counter, permanent_tail_seven, seven_tail_p0, seven_tail_p1, seven_tail_deck, seven_tail_scrap, seven_tail_counter, seven_tail_seven, decline_tail_p0, decline_tail_p1, decline_tail_deck, decline_tail_scrap, decline_tail_counter, decline_tail_seven, revealed_cards_of_eq, counter_cards_of_eq, revealed_of_opt_none, revealed_of_opt_some, counter_of_opt_none, counter_of_opt_some, jack_cards_append, jack_cards_cons, jack_cards_nil]
      rw [coe_eq_cons_filter hhand hm, coe_eq_cons_filter hpts htif]
      simp only [← Multiset.coe_add, ← Multiset.cons_coe, Multiset.coe_singleton, ← Multiset.singleton_add, Multiset.coe_nil, add_zero]
      abel
  · split at he
    · cases he
    rename_i jack_pair hfind
    simp only [Except.ok.injEq] at he
    subst he
    have hjmem := List.mem_of_find?_eq_some hfind
    have hsnd : jack_pair.2 = target := by simpa using List.find?_some hfind
    rw [all_cards_expand, all_cards_expand]
    rcases player_cases s.current_player with hcp | hcp
    · have hhand : s.p0.hand.Nodup := (nodup_pc_parts (nodup_parts hnd).1).1
      have hjk : (jack_cards s.p1.jacks).Nodup :=
        (nodup_pc_parts (nodup_parts hnd).2.1).2.2.2
      rw [GameState.current_player_state, hcp, player_zero] at hm
      rw [GameState.opponent_state, GameState.opponent, hcp, other_zero, player_one] at hjmem hfind
      simp only [hcp, GameState.current_player_state, GameState.opponent_state, GameState.opponent, other_zero, other_one, player_zero, player_one, GameState.with_deck, GameState.with_scrap, GameState.with_current_player, GameState.with_phase, GameState.with_turn_number, GameState.with_consecutive_passes, GameState.with_counter_state, GameState.with_seven_state, GameState.with_four_state, GameState.with_winner, PlayerState.with_hand, PlayerState.with_points_field, PlayerState.with_permanents, PlayerState.with_jacks, set_player_zero_p0, set_player_zero_p1, set_player_one_p0, set_player_one_p1, set_player_deck, set_player_scrap, set_player_counter, set_player_seven, end_turn_p0, end_turn_p1, end_turn_deck, end_turn_scrap, end_turn_counter, end_turn_seven, check_win_p0, check_win_p1, check_win_deck, check_win_scrap, check_win_counter, check_win_seven, permanent_tail_p0, permanent_tail_p1, permanent_tail_deck, permanent_tail_scrap, permanent_tail_counter, permanent_tail_seven, seven_tail_p0, seven_tail_p1, seven_tail_deck, seven_tail_scrap, seven_tail_counter, seven_tail_seven, decline_tail_p0, decline_tail_p1, decline_tail_deck, decline_tail_scrap, decline_tail_counter, decline_tail_seven, revealed_cards_of_eq, counter_cards_of_eq, revealed_of_opt_none, revealed_of_opt_some, counter_of_opt_none, counter_of_opt_some, jack_cards_append, jack_cards_cons, jack_cards_nil]
      rw [coe_eq_cons_filter hhand hm, jack_cards_snd_split hjk hjmem hsnd]
      simp only [← Multiset.coe_add, ← Multiset.cons_coe, Multiset.coe_singleton, ← Multiset.singleton_add, Multiset.coe_nil, add_zero]
      abel
    · have hhand : s.p1.hand.Nodup := (nodup_pc_parts (nodup_parts hnd).2.1).1
      have hjk : (jack_cards s.p0.jacks).Nodup :=
        (nodup_pc_parts (nodup_parts hnd).1).2.2.2
      rw [GameState.current_player_state, hcp, player_one] at hm
      rw [GameState.opponent_state, GameState.opponent, hcp, other_one, player_zero] at hjmem hfind
      simp only [hcp, GameState.current_player_state, GameState.opponent_state, GameState.opponent, other_zero, other_one, player_zero, player_one, GameState.with_deck, GameState.with_scrap, GameState.with_current_player, GameState.with_phase, GameState.with_turn_number, GameState.with_consecutive_passes, GameState.with_counter_state, GameState.with_seven_state, GameState.with_four_state, GameState.with_winner, PlayerState.with_hand, PlayerState.with_points_field, PlayerState.with_permanents, PlayerState.with_jacks, set_player_zero_p0, set_player_zero_p1, set_player_one_p0, set_player_one_p1, set_player_deck, set_player_scrap, set_player_counter, set_player_seven, end_turn_p0, end_turn_p1, end_turn_deck, end_turn_scrap, end_turn_counter, end_turn_seven, check_win_p0, check_win_p1, check_win_deck, check_win_scrap, check_win_counter, check_win_seven, permanent_tail_p0, permanent_tail_p1, permanent_tail_deck, permanent_tail_scrap, permanent_tail_counter, permanent_tail_seven, seven_tail_p0, seven_tail_p1, seven_tail_deck, seven_tail_scrap, seven_tail_counter, seven_tail_seven, decline_tail_p0, decline_tail_p1, decline_tail_deck, decline_tail_scrap, decline_tail_counter, decline_tail_seven, revealed_cards_of_eq, counter_cards_of_eq, revealed_of_opt_none, revealed_of_opt_some, counter_of_opt_none, counter_of_opt_some, jack_cards_append, jack_cards_cons, jack_cards_nil]
      rw [coe_eq_cons_filter hhand hm, jack_cards_snd_split hjk hjmem hsnd]
      simp only [← Multiset.coe_add, ← Multiset.cons_coe, Multiset.coe_singleton, ← Multiset.singleton_add, Multiset.coe_nil, add_zero]
      abel

/-- Casting a one-off conserves the card multiset: the card moves from the
hand into the counter state. -/
theorem conserve_one_off {s s' : GameState} {card : Card} {tc : Option Card}
    {tp : Option Player} (hnd : (all_cards s).Nodup)
    (hsub : substates_clean s)
    (he : execute_play_one_off s card tc tp = Except.ok s') :
    all_cards s' = all_cards s := by
  unfold execute_play_one_off at he
  dsimp only at he
  split at he
  · cases he
  rename_i hph
  split at he
  · cases he
  rename_i hmem
  simp only [Except.ok.injEq] at he
  subst he
  have hcs : s.counter_state = none := hsub.1 (by rw [not_not.mp hph]; decide)
  have hm : card ∈ s.current_player_state.hand := not_not.mp hmem
  rw [all_cards_expand, all_cards_expand]
  rcases player_cases s.current_player with hcp | hcp
  · have hhand : s.p0.hand.Nodup := (nodup_pc_parts (nodup_parts hnd).1).1
    rw [GameState.current_player_state, hcp, player_zero] at hm
    simp only [hcp, hcs, GameState.current_player_state, GameState.opponent_state, GameState.opponent, other_zero, other_one, player_zero, player_one, GameState.with_deck, GameState.with_scrap, GameState.with_current_player, GameState.with_phase, GameState.with_turn_number, GameState.with_consecutive_passes, GameState.with_counter_state, GameState.with_seven_state, GameState.with_four_state, GameState.with_winner, PlayerState.with_hand, PlayerState.with_points_field, PlayerState.with_permanents, PlayerState.with_jacks, set_player_zero_p0, set_player_zero_p1, set_player_one_p0, set_player_one_p1, set_player_deck, set_player_scrap, set_player_counter, set_player_seven, end_turn_p0, end_turn_p1, end_turn_deck, end_turn_scrap, end_turn_counter, end_turn_seven, check_win_p0, check_win_p1, check_win_deck, check_win_scrap, check_win_counter, check_win_seven, permanent_tail_p0, permanent_tail_p1, permanent_tail_deck, permanent_tail_scrap, permanent_tail_counter, permanent_tail_seven, seven_tail_p0, seven_tail_p1, seven_tail_deck, seven_tail_scrap, seven_tail_counter, seven_tail_seven, decline_tail_p0, decline_tail_p1, decline_tail_deck, decline_tail_scrap, decline_tail_counter, decline_tail_seven, revealed_cards_of_eq, counter_cards_of_eq, revealed_of_opt_none, revealed_of_opt_some, counter_of_opt_none, counter_of_opt_some, jack_cards_append, jack_cards_cons, jack_cards_nil]
    rw [coe_eq_cons_filter hhand hm]
    simp only [← Multiset.coe_add, ← Multiset.cons_coe, Multiset.coe_singleton, ← Multiset.singleton_add, Multiset.coe_nil, add_zero]
    abel
  · have hhand : s.p1.hand.Nodup := (nodup_pc_parts (nodup_parts hnd).2.1).1
    rw [GameState.current_player_state, hcp, player_one] at hm
    simp only [hcp, hcs, GameState.current_player_state, GameState.opponent_state, GameState.opponent, other_zero, other_one, player_zero, player_one, GameState.with_deck, GameState.with_scrap, GameState.with_current_player, GameState.with_phase, GameState.with_turn_number, GameState.with_consecutive_passes, GameState.with_counter_state, GameState.with_seven_state, GameState.with_four_state, GameState.with_winner, PlayerState.with_hand, PlayerState.with_points_field, PlayerState.with_permanents, PlayerState.with_jacks, set_player_zero_p0, set_player_zero_p1, set_player_one_p0, set_player_one_p1, set_player_deck, set_player_scrap, set_player_counter, set_player_seven, end_turn_p0, end_turn_p1, end_turn_deck, end_turn_scrap, end_turn_counter, end_turn_seven, check_win_p0, check_win_p1, check_win_deck, check_win_scrap, check_win_counter, check_win_seven, permanent_tail_p0, permanent_tail_p1, permanent_tail_deck, permanent_tail_scrap, permanent_tail_counter, permanent_tail_seven, seven_tail_p0, seven_tail_p1, seven_tail_deck, seven_tail_scrap, seven_tail_counter, seven_tail_seven, decline_tail_p0, decline_tail_p1, decline_tail_deck, decline_tail_scrap, decline_tail_counter, decline_tail_seven, revealed_cards_of_eq, counter_cards_of_eq, revealed_of_opt_none, revealed_of_opt_some, counter_of_opt_none, counter_of_opt_some, jack_cards_append, jack_cards_cons, jack_cards_nil]
    rw [coe_eq_cons_filter hhand hm]
    simp only [← Multiset.coe_add, ← Multiset.cons_coe, Multiset.coe_singleton, ← Multiset.singleton_add, Multiset.coe_nil, add_zero]
    abel

/-- Playing a permanent conserves the card multiset. -/
theorem conserve_permanent {s s' : GameState} {card : Card} {tc : Option Card}
    (hnd : (all_cards s).Nodup)
    (he : execute_play_permanent s card tc = Except.ok s') :
    all_cards s' = all_cards s := by
  unfold execute_play_permanent at he
  dsimp only at he
  split at he
  · cases he
  split at he
  · cases he
  rename_i hmem
  have hm : card ∈ s.current_player_state.hand := not_not.mp hmem
  split at he
  · -- Jack
    split at he
    · cases he
    rename_i target
    split at he
    · cases he
    split at he
    · -- steal from points field
      rename_i htif
      simp only [Except.ok.injEq] at he
      subst he
      rw [all_cards_expand, all_cards_expand]
      rcases player_cases s.current_player with hcp | hcp
      · have hhand : s.p0.hand.Nodup := (nodup_pc_parts (nodup_parts hnd).1).1
        have hpts : s.p1.points_field.Nodup :=
          (nodup_pc_parts (nodup_parts hnd).2.1).2.1
        rw [GameState.current_player_state, hcp, player_zero] at hm
        rw [GameState.opponent_state, GameState.opponent, hcp, other_zero, player_one] at htif
        simp only [hcp, GameState.current_player_state, GameState.opponent_state, GameState.opponent, other_zero, other_one, player_zero, player_one, GameState.with_deck, GameState.with_scrap, GameState.with_current_player, GameState.with_phase, GameState.with_turn_number, GameState.with_consecutive_passes, GameState.with_counter_state, GameState.with_seven_state, GameState.with_four_state, GameState.with_winner, PlayerState.with_hand, PlayerState.with_points_field, PlayerState.with_permanents, PlayerState.with_jacks, set_player_zero_p0, set_player_zero_p1, set_player_one_p0, set_player_one_p1, set_player_deck, set_player_scrap, set_player_counter, set_player_seven, end_turn_p0, end_turn_p1, end_turn_deck, end_turn_scrap, end_turn_counter, end_turn_seven, check_win_p0, check_win_p1, check_win_deck, check_win_scrap, check_win_counter, check_win_seven, permanent_tail_p0, permanent_tail_p1, permanent_tail_deck, permanent_tail_scrap, permanent_tail_counter, permanent_tail_seven, seven_tail_p0, seven_tail_p1, seven_tail_deck, seven_tail_scrap, seven_tail_counter, seven_tail_seven, decline_tail_p0, decline_tail_p1, decline_tail_deck, decline_tail_scrap, decline_tail_counter, decline_tail_seven, revealed_cards_of_eq, counter_cards_of_eq, revealed_of_opt_none, revealed_of_opt_some, counter_of_opt_none, counter_of_opt_some, jack_cards_append, jack_cards_cons, jack_cards_nil]
        rw [coe_eq_cons_filter hhand hm, coe_eq_cons_filter hpts htif]
        simp only [← Multiset.coe_add, ← Multiset.cons_coe, Multiset.coe_singleton, ← Multiset.singleton_add, Multiset.coe_nil, add_zero]
        abel
      · have hhand : s.p1.hand.Nodup := (nodup_pc_parts (nodup_parts hnd).2.1).1
        have hpts : s.p0.points_field.Nodup :=
          (nodup_pc_parts (nodup_parts hnd).1).2.1
        rw [GameState.current_player_state, hcp, player_one] at hm
        rw [GameState.opponent_state, GameState.opponent, hcp, other_one, player_zero] at htif
        simp only [hcp, GameState.current_player_state, GameState.opponent_state, GameState.opponent, other_zero, other_one, player_zero, player_one, GameState.with_deck, GameState.with_scrap, GameState.with_current_player, GameState.with_phase, GameState.with_turn_number, GameState.with_consecutive_passes, GameState.with_counter_state, GameState.with_seven_state, GameState.with_four_state, GameState.with_winner, PlayerState.with_hand, PlayerState.with_points_field, PlayerState.with_permanents, PlayerState.with_jacks, set_player_zero_p0, set_player_zero_p1, set_player_one_p0, set_player_one_p1, set_player_deck, set_player_scrap, set_player_counter, set_player_seven, end_turn_p0, end_turn_p1, end_turn_deck, end_turn_scrap, end_turn_counter, end_turn_seven, check_win_p0, check_win_p1, check_win_deck, check_win_scrap, check_win_counter, check_win_seven, permanent_tail_p0, permanent_tail_p1, permanent_tail_deck, permanent_tail_scrap, permanent_tail_counter, permanent_tail_seven, seven_tail_p0, seven_tail_p1, seven_tail_deck, seven_tail_scrap, seven_tail_counter, seven_tail_seven, decline_tail_p0, decline_tail_p1, decline_tail_deck, decline_tail_scrap, decline_tail_counter, decline_tail_seven, revealed_cards_of_eq, counter_cards_of_eq, revealed_of_opt_none, revealed_of_opt_some, counter_of_opt_none, counter_of_opt_some, jack_cards_append, jack_cards_cons, jack_cards_nil]
        rw [coe_eq_cons_filter hhand hm, coe_eq_cons_filter hpts htif]
        simp only [← Multiset.coe_add, ← Multiset.cons_coe, Multiset.coe_singleton, ← Multiset.singleton_add, Multiset.coe_nil, add_zero]
        abel
    · -- steal a stolen card
      split at he
      · cases he
      rename_i old_pair hfind
      simp only [Except.ok.injEq] at he
      subst he
      have hjmem := List.mem_of_find?_eq_some hfind
      have hsnd : old_pair.2 = target := by simpa using List.find?_some hfind
      rw [all_cards_expand, all_cards_expand]
      rcases player_cases s.current_player with hcp | hcp
      · have hhand : s.p0.hand.Nodup := (nodup_pc_parts (nodup_parts hnd).1).1
        have hjk : (jack_cards s.p1.jacks).Nodup :=
          (nodup_pc_parts (nodup_parts hnd).2.1).2.2.2
        rw [GameState.current_player_state, hcp, player_zero] at hm
        rw [GameState.opponent_state, GameState.opponent, hcp, other_zero, player_one] at hjmem hfind
        simp only [hcp, GameState.current_player_state, GameState.opponent_state, GameState.opponent, other_zero, other_one, player_zero, player_one, GameState.with_deck, GameState.with_scrap, GameState.with_current_player, GameState.with_phase, GameState.with_turn_number, GameState.with_consecutive_passes, GameState.with_counter_state, GameState.with_seven_state, GameState.with_four_state, GameState.with_winner, PlayerState.with_hand, PlayerState.with_points_field, PlayerState.with_permanents, PlayerState.with_jacks, set_player_zero_p0, set_player_zero_p1, set_player_one_p0, set_player_one_p1, set_player_deck, set_player_scrap, set_player_counter, set_player_seven, end_turn_p0, end_turn_p1, end_turn_deck, end_turn_scrap, end_turn_counter, end_turn_seven, check_win_p0, check_win_p1, check_win_deck, check_win_scrap, check_win_counter, check_win_seven, permanent_tail_p0, permanent_tail_p1, permanent_tail_deck, permanent_tail_scrap, permanent_tail_counter, permanent_tail_seven, seven_tail_p0, seven_tail_p1, seven_tail_deck, seven_tail_scrap, seven_tail_counter, seven_tail_seven, decline_tail_p0, decline_tail_p1, decline_tail_deck, decline_tail_scrap, decline_tail_counter, decline_tail_seven, revealed_cards_of_eq, counter_cards_of_eq, revealed_of_opt_none, revealed_of_opt_some, counter_of_opt_none, counter_of_opt_some, jack_cards_append, jack_cards_cons, jack_cards_nil]
        rw [coe_eq_cons_filter hhand hm, jack_cards_snd_split hjk hjmem hsnd]
        simp only [← Multiset.coe_add, ← Multiset.cons_coe, Multiset.coe_singleton, ← Multiset.singleton_add, Multiset.coe_nil, add_zero]
        abel
      · have hhand : s.p1.hand.Nodup := (nodup_pc_parts (nodup_parts hnd).2.1).1
        have hjk : (jack_cards s.p0.jacks).Nodup :=
          (nodup_pc_parts (nodup_parts hnd).1).2.2.2
        rw [GameState.current_player_state, hcp, player_one] at hm
        rw [GameState.opponent_state, GameState.opponent, hcp, other_one, player_zero] at hjmem hfind
        simp only [hcp, GameState.current_player_state, GameState.opponent_state, GameState.opponent, other_zero, other_one, player_zero, player_one, GameState.with_deck, GameState.with_scrap, GameState.with_current_player, GameState.with_phase, GameState.with_turn_number, GameState.with_consecutive_passes, GameState.with_counter_state, GameState.with_seven_state, GameState.with_four_state, GameState.with_winner, PlayerState.with_hand, PlayerState.with_points_field, PlayerState.with_permanents, PlayerState.with_jacks, set_player_zero_p0, set_player_zero_p1, set_player_one_p0, set_player_one_p1, set_player_deck, set_player_scrap, set_player_counter, set_player_seven, end_turn_p0, end_turn_p1, end_turn_deck, end_turn_scrap, end_turn_counter, end_turn_seven, check_win_p0, check_win_p1, check_win_deck, check_win_scrap, check_win_counter, check_win_seven, permanent_tail_p0, permanent_tail_p1, permanent_tail_deck, permanent_tail_scrap, permanent_tail_counter, permanent_tail_seven, seven_tail_p0, seven_tail_p1, seven_tail_deck, seven_tail_scrap, seven_tail_counter, seven_tail_seven, decline_tail_p0, decline_tail_p1, decline_tail_deck, decline_tail_scrap, decline_tail_counter, decline_tail_seven, revealed_cards_of_eq, counter_cards_of_eq, revealed_of_opt_none, revealed_of_opt_some, counter_of_opt_none, counter_of_opt_some, jack_cards_append, jack_cards_cons, jack_cards_nil]
        rw [coe_eq_cons_filter hhand hm, jack_cards_snd_split hjk hjmem hsnd]
        simp only [← Multiset.coe_add, ← Multiset.cons_coe, Multiset.coe_singleton, ← Multiset.singleton_add, Multiset.coe_nil, add_zero]
        abel
  · -- non-Jack permanent
    simp only [Except.ok.injEq] at he
    subst he
    rw [all_cards_expand, all_cards_expand]
    rcases player_cases s.current_player with hcp | hcp
    · have hhand : s.p0.hand.Nodup := (nodup_pc_parts (nodup_parts hnd).1).1
      rw [GameState.current_player_state, hcp, player_zero] at hm
      simp only [hcp, GameState.current_player_state, GameState.opponent_state, GameState.opponent, other_zero, other_one, player_zero, player_one, GameState.with_deck, GameState.with_scrap, GameState.with_current_player, GameState.with_phase, GameState.with_turn_number, GameState.with_consecutive_passes, GameState.with_counter_state, GameState.with_seven_state, GameState.with_four_state, GameState.with_winner, PlayerState.with_hand, PlayerState.with_points_field, PlayerState.with_permanents, PlayerState.with_jacks, set_player_zero_p0, set_player_zero_p1, set_player_one_p0, set_player_one_p1, set_player_deck, set_player_scrap, set_player_counter, set_player_seven, end_turn_p0, end_turn_p1, end_turn_deck, end_turn_scrap, end_turn_counter, end_turn_seven, check_win_p0, check_win_p1, check_win_deck, check_win_scrap, check_win_counter, check_win_seven, permanent_tail_p0, permanent_tail_p1, permanent_tail_deck, permanent_tail_scrap, permanent_tail_counter, permanent_tail_seven, seven_tail_p0, seven_tail_p1, seven_tail_deck, seven_tail_scrap, seven_tail_counter, seven_tail_seven, decline_tail_p0, decline_tail_p1, decline_tail_deck, decline_tail_scrap, decline_tail_counter, decline_tail_seven, revealed_cards_of_eq, counter_cards_of_eq, revealed_of_opt_none, revealed_of_opt_some, counter_of_opt_none, counter_of_opt_some, jack_cards_append, jack_cards_cons, jack_cards_nil]
      rw [coe_eq_cons_filter hhand hm]
      simp only [← Multiset.coe_add, ← Multiset.cons_coe, Multiset.coe_singleton, ← Multiset.singleton_add, Multiset.coe_nil, add_zero]
      abel
    · have hhand : s.p1.hand.Nodup := (nodup_pc_parts (nodup_parts hnd).2.1).1
      rw [GameState.current_player_state, hcp, player_one] at hm
      simp only [hcp, GameState.current_player_state, GameState.opponent_state, GameState.opponent, other_zero, other_one, player_zero, player_one, GameState.with_deck, GameState.with_scrap, GameState.with_current_player, GameState.with_phase, GameState.with_turn_number, GameState.with_consecutive_passes, GameState.with_counter_state, GameState.with_seven_state, GameState.with_four_state, GameState.with_winner, PlayerState.with_hand, PlayerState.with_points_field, PlayerState.with_permanents, PlayerState.with_jacks, set_player_zero_p0, set_player_zero_p1, set_player_one_p0, set_player_one_p1, set_player_deck, set_player_scrap, set_player_counter, set_player_seven, end_turn_p0, end_turn_p1, end_turn_deck, end_turn_scrap, end_turn_counter, end_turn_seven, check_win_p0, check_win_p1, check_win_deck, check_win_scrap, check_win_counter, check_win_seven, permanent_tail_p0, permanent_tail_p1, permanent_tail_deck, permanent_tail_scrap, permanent_tail_counter, permanent_tail_seven, seven_tail_p0, seven_tail_p1, seven_tail_deck, seven_tail_scrap, seven_tail_counter, seven_tail_seven, decline_tail_p0, decline_tail_p1, decline_tail_deck, decline_tail_scrap, decline_tail_counter, decline_tail_seven, revealed_cards_of_eq, counter_cards_of_eq, revealed_of_opt_none, revealed_of_opt_some, counter_of_opt_none, counter_of_opt_some, jack_cards_append, jack_cards_cons, jack_cards_nil]
      rw [coe_eq_cons_filter hhand hm]
      simp only [← Multiset.coe_add, ← Multiset.cons_coe, Multiset.coe_singleton, ← Multiset.singleton_add, Multiset.coe_nil, add_zero]
      abel


/-- Countering conserves the card multiset: the Two moves from the waiting
player's hand onto the counter chain. -/
theorem conserve_counter {s s' : GameState} {card : Card}
    (hnd : (all_cards s).Nodup)
    (he : execute_counter s card = Except.ok s') : all_cards s' = all_cards s := by
  unfold execute_counter at he
  split at he
  · cases he
  split at he
  · cases he
  rename_i cs hcs
  dsimp only at he
  split at he
  · cases he
  rename_i hmem
  split at he
  · cases he
  simp only [Except.ok.injEq] at he
  subst he
  have hm : card ∈ (s.player cs.waiting_for_player).hand := not_not.mp hmem
  rw [all_cards_expand, all_cards_expand]
  rcases player_cases cs.waiting_for_player with hwp | hwp
  · have hhand : s.p0.hand.Nodup := (nodup_pc_parts (nodup_parts hnd).1).1
    rw [hwp, player_zero] at hm
    simp only [hwp, hcs, GameState.current_player_state, GameState.opponent_state, GameState.opponent, other_zero, other_one, player_zero, player_one, GameState.with_deck, GameState.with_scrap, GameState.with_current_player, GameState.with_phase, GameState.with_turn_number, GameState.with_consecutive_passes, GameState.with_counter_state, GameState.with_seven_state, GameState.with_four_state, GameState.with_winner, PlayerState.with_hand, PlayerState.with_points_field, PlayerState.with_permanents, PlayerState.with_jacks, set_player_zero_p0, set_player_zero_p1, set_player_one_p0, set_player_one_p1, set_player_deck, set_player_scrap, set_player_counter, set_player_seven, end_turn_p0, end_turn_p1, end_turn_deck, end_turn_scrap, end_turn_counter, end_turn_seven, check_win_p0, check_win_p1, check_win_deck, check_win_scrap, check_win_counter, check_win_seven, permanent_tail_p0, permanent_tail_p1, permanent_tail_deck, permanent_tail_scrap, permanent_tail_counter, permanent_tail_seven, seven_tail_p0, seven_tail_p1, seven_tail_deck, seven_tail_scrap, seven_tail_counter, seven_tail_seven, decline_tail_p0, decline_tail_p1, decline_tail_deck, decline_tail_scrap, decline_tail_counter, decline_tail_seven, revealed_cards_of_eq, counter_cards_of_eq, revealed_of_opt_none, revealed_of_opt_some, counter_of_opt_none, counter_of_opt_some, jack_cards_append, jack_cards_cons, jack_cards_nil]
    rw [coe_eq_cons_filter hhand hm]
    simp only [← Multiset.coe_add, ← Multiset.cons_coe, Multiset.coe_singleton, ← Multiset.singleton_add, Multiset.coe_nil, add_zero]
    abel
  · have hhand : s.p1.hand.Nodup := (nodup_pc_parts (nodup_parts hnd).2.1).1
    rw [hwp, player_one] at hm
    simp only [hwp, hcs, GameState.current_player_state, GameState.opponent_state, GameState.opponent, other_zero, other_one, player_zero, player_one, GameState.with_deck, GameState.with_scrap, GameState.with_current_player, GameState.with_phase, GameState.with_turn_number, GameState.with_consecutive_passes, GameState.with_counter_state, GameState.with_seven_state, GameState.with_four_state, GameState.with_winner, PlayerState.with_hand, PlayerState.with_points_field, PlayerState.with_permanents, PlayerState.with_jacks, set_player_zero_p0, set_player_zero_p1, set_player_one_p0, set_player_one_p1, set_player_deck, set_player_scrap, set_player_counter, set_player_seven, end_turn_p0, end_turn_p1, end_turn_deck, end_turn_scrap, end_turn_counter, end_turn_seven, check_win_p0, check_win_p1, check_win_deck, check_win_scrap, check_win_counter, check_win_seven, permanent_tail_p0, permanent_tail_p1, permanent_tail_deck, permanent_tail_scrap, permanent_tail_counter, permanent_tail_seven, seven_tail_p0, seven_tail_p1, seven_tail_deck, seven_tail_scrap, seven_tail_counter, seven_tail_seven, decline_tail_p0, decline_tail_p1, decline_tail_deck, decline_tail_scrap, decline_tail_counter, decline_tail_seven, revealed_cards_of_eq, counter_cards_of_eq, revealed_of_opt_none, revealed_of_opt_some, counter_of_opt_none, counter_of_opt_some, jack_cards_append, jack_cards_cons, jack_cards_nil]
    rw [coe_eq_cons_filter hhand hm]
    simp only [← Multiset.coe_add, ← Multiset.cons_coe, Multiset.coe_singleton, ← Multiset.singleton_add, Multiset.coe_nil, add_zero]
    abel

/-- A forced discard conserves the card multiset: the card moves from the
hand to the scrap. -/
theorem conserve_discard {s s' : GameState} {card : Card}
    (hnd : (all_cards s).Nodup)
    (he : execute_discard s card = Except.ok s') : all_cards s' = all_cards s := by
  unfold execute_discard at he
  split at he
  · cases he
  split at he
  · cases he
  rename_i fs hfs
  dsimp only at he
  split at he
  · cases he
  rename_i hmem
  have hm : card ∈ (s.player fs.player).hand := not_not.mp hmem
  split at he
  · simp only [Except.ok.injEq] at he
    subst he
    rw [all_cards_expand, all_cards_expand]
    rcases player_cases fs.player with hfp | hfp
    · have hhand : s.p0.hand.Nodup := (nodup_pc_parts (nodup_parts hnd).1).1
      rw [hfp, player_zero] at hm
      simp only [hfp, GameState.current_player_state, GameState.opponent_state, GameState.opponent, other_zero, other_one, player_zero, player_one, GameState.with_deck, GameState.with_scrap, GameState.with_current_player, GameState.with_phase, GameState.with_turn_number, GameState.with_consecutive_passes, GameState.with_counter_state, GameState.with_seven_state, GameState.with_four_state, GameState.with_winner, PlayerState.with_hand, PlayerState.with_points_field, PlayerState.with_permanents, PlayerState.with_jacks, set_player_zero_p0, set_player_zero_p1, set_player_one_p0, set_player_one_p1, set_player_deck, set_player_scrap, set_player_counter, set_player_seven, end_turn_p0, end_turn_p1, end_turn_deck, end_turn_scrap, end_turn_counter, end_turn_seven, check_win_p0, check_win_p1, check_win_deck, check_win_scrap, check_win_counter, check_win_seven, permanent_tail_p0, permanent_tail_p1, permanent_tail_deck, permanent_tail_scrap, permanent_tail_counter, permanent_tail_seven, seven_tail_p0, seven_tail_p1, seven_tail_deck, seven_tail_scrap, seven_tail_counter, seven_tail_seven, decline_tail_p0, decline_tail_p1, decline_tail_deck, decline_tail_scrap, decline_tail_counter, decline_tail_seven, revealed_cards_of_eq, counter_cards_of_eq, revealed_of_opt_none, revealed_of_opt_some, counter_of_opt_none, counter_of_opt_some, jack_cards_append, jack_cards_cons, jack_cards_nil]
      rw [coe_eq_cons_filter hhand hm]
      simp only [← Multiset.coe_add, ← Multiset.cons_coe, Multiset.coe_singleton, ← Multiset.singleton_add, Multiset.coe_nil, add_zero]
      abel
    · have hhand : s.p1.hand.Nodup := (nodup_pc_parts (nodup_parts hnd).2.1).1
      rw [hfp, player_one] at hm
      simp only [hfp, GameState.current_player_state, GameState.opponent_state, GameState.opponent, other_zero, other_one, player_zero, player_one, GameState.with_deck, GameState.with_scrap, GameState.with_current_player, GameState.with_phase, GameState.with_turn_number, GameState.with_consecutive_passes, GameState.with_counter_state, GameState.with_seven_state, GameState.with_four_state, GameState.with_winner, PlayerState.with_hand, PlayerState.with_points_field, PlayerState.with_permanents, PlayerState.with_jacks, set_player_zero_p0, set_player_zero_p1, set_player_one_p0, set_player_one_p1, set_player_deck, set_player_scrap, set_player_counter, set_player_seven, end_turn_p0, end_turn_p1, end_turn_deck, end_turn_scrap, end_turn_counter, end_turn_seven, check_win_p0, check_win_p1, check_win_deck, check_win_scrap, check_win_counter, check_win_seven, permanent_tail_p0, permanent_tail_p1, permanent_tail_deck, permanent_tail_scrap, permanent_tail_counter, permanent_tail_seven, seven_tail_p0, seven_tail_p1, seven_tail_deck, seven_tail_scrap, seven_tail_counter, seven_tail_seven, decline_tail_p0, decline_tail_p1, decline_tail_deck, decline_tail_scrap, decline_tail_counter, decline_tail_seven, revealed_cards_of_eq, counter_cards_of_eq, revealed_of_opt_none, revealed_of_opt_some, counter_of_opt_none, counter_of_opt_some, jack_cards_append, jack_cards_cons, jack_cards_nil]
      rw [coe_eq_cons_filter hhand hm]
      simp only [← Multiset.coe_add, ← Multiset.cons_coe, Multiset.coe_singleton, ← Multiset.singleton_add, Multiset.coe_nil, add_zero]
      abel
  · split at he <;>
      · simp only [Except.ok.injEq] at he
        subst he
        rw [all_cards_expand, all_cards_expand]
        rcases player_cases fs.player with hfp | hfp
        · have hhand : s.p0.hand.Nodup := (nodup_pc_parts (nodup_parts hnd).1).1
          rw [hfp, player_zero] at hm
          simp only [hfp, GameState.current_player_state, GameState.opponent_state, GameState.opponent, other_zero, other_one, player_zero, player_one, GameState.with_deck, GameState.with_scrap, GameState.with_current_player, GameState.with_phase, GameState.with_turn_number, GameState.with_consecutive_passes, GameState.with_counter_state, GameState.with_seven_state, GameState.with_four_state, GameState.with_winner, PlayerState.with_hand, PlayerState.with_points_field, PlayerState.with_permanents, PlayerState.with_jacks, set_player_zero_p0, set_player_zero_p1, set_player_one_p0, set_player_one_p1, set_player_deck, set_player_scrap, set_player_counter, set_player_seven, end_turn_p0, end_turn_p1, end_turn_deck, end_turn_scrap, end_turn_counter, end_turn_seven, check_win_p0, check_win_p1, check_win_deck, check_win_scrap, check_win_counter, check_win_seven, permanent_tail_p0, permanent_tail_p1, permanent_tail_deck, permanent_tail_scrap, permanent_tail_counter, permanent_tail_seven, seven_tail_p0, seven_tail_p1, seven_tail_deck, seven_tail_scrap, seven_tail_counter, seven_tail_seven, decline_tail_p0, decline_tail_p1, decline_tail_deck, decline_tail_scrap, decline_tail_counter, decline_tail_seven, revealed_cards_of_eq, counter_cards_of_eq, revealed_of_opt_none, revealed_of_opt_some, counter_of_opt_none, counter_of_opt_some, jack_cards_append, jack_cards_cons, jack_cards_nil]
          rw [coe_eq_cons_filter hhand hm]
          simp only [← Multiset.coe_add, ← Multiset.cons_coe, Multiset.coe_singleton, ← Multiset.singleton_add, Multiset.coe_nil, add_zero]
          abel
        · have hhand : s.p1.hand.Nodup := (nodup_pc_parts (nodup_parts hnd).2.1).1
          rw [hfp, player_one] at hm
          simp only [hfp, GameState.current_player_state, GameState.opponent_state, GameState.opponent, other_zero, other_one, player_zero, player_one, GameState.with_deck, GameState.with_scrap, GameState.with_current_player, GameState.with_phase, GameState.with_turn_number, GameState.with_consecutive_passes, GameState.with_counter_state, GameState.with_seven_state, GameState.with_four_state, GameState.with_winner, PlayerState.with_hand, PlayerState.with_points_field, PlayerState.with_permanents, PlayerState.with_jacks, set_player_zero_p0, set_player_zero_p1, set_player_one_p0, set_player_one_p1, set_player_deck, set_player_scrap, set_player_counter, set_player_seven, end_turn_p0, end_turn_p1, end_turn_deck, end_turn_scrap, end_turn_counter, end_turn_seven, check_win_p0, check_win_p1, check_win_deck, check_win_scrap, check_win_counter, check_win_seven, permanent_tail_p0, permanent_tail_p1, permanent_tail_deck, permanent_tail_scrap, permanent_tail_counter, permanent_tail_seven, seven_tail_p0, seven_tail_p1, seven_tail_deck, seven_tail_scrap, seven_tail_counter, seven_tail_seven, decline_tail_p0, decline_tail_p1, decline_tail_deck, decline_tail_scrap, decline_tail_counter, decline_tail_seven, revealed_cards_of_eq, counter_cards_of_eq, revealed_of_opt_none, revealed_of_opt_some, counter_of_opt_none, counter_of_opt_some, jack_cards_append, jack_cards_cons, jack_cards_nil]
          rw [coe_eq_cons_filter hhand hm]
          simp only [← Multiset.coe_add, ← Multiset.cons_coe, Multiset.coe_singleton, ← Multiset.singleton_add, Multiset.coe_nil, add_zero]
          abel

/-- Passing conserves the card multiset: no card moves at all. -/
theorem conserve_pass {s s' : GameState}
    (he : execute_pass s = Except.ok s') : all_cards s' = all_cards s := by
  unfold execute_pass at he
  split at he
  · cases he
  split at he
  · cases he
  dsimp only at he
  split at he
  · split at he
    · simp only [Except.ok.injEq] at he
      subst he
      rw [all_cards_expand, all_cards_expand]
      simp only [GameState.current_player_state, GameState.opponent_state, GameState.opponent, other_zero, other_one, player_zero, player_one, GameState.with_deck, GameState.with_scrap, GameState.with_current_player, GameState.with_phase, GameState.with_turn_number, GameState.with_consecutive_passes, GameState.with_counter_state, GameState.with_seven_state, GameState.with_four_state, GameState.with_winner, PlayerState.with_hand, PlayerState.with_points_field, PlayerState.with_permanents, PlayerState.with_jacks, set_player_zero_p0, set_player_zero_p1, set_player_one_p0, set_player_one_p1, set_player_deck, set_player_scrap, set_player_counter, set_player_seven, end_turn_p0, end_turn_p1, end_turn_deck, end_turn_scrap, end_turn_counter, end_turn_seven, check_win_p0, check_win_p1, check_win_deck, check_win_scrap, check_win_counter, check_win_seven, permanent_tail_p0, permanent_tail_p1, permanent_tail_deck, permanent_tail_scrap, permanent_tail_counter, permanent_tail_seven, seven_tail_p0, seven_tail_p1, seven_tail_deck, seven_tail_scrap, seven_tail_counter, seven_tail_seven, decline_tail_p0, decline_tail_p1, decline_tail_deck, decline_tail_scrap, decline_tail_counter, decline_tail_seven, revealed_cards_of_eq, counter_cards_of_eq, revealed_of_opt_none, revealed_of_opt_some, counter_of_opt_none, counter_of_opt_some, jack_cards_append, jack_cards_cons, jack_cards_nil]
    · split at he <;>
        · simp only [Except.ok.injEq] at he
          subst he
          rw [all_cards_expand, all_cards_expand]
          simp only [GameState.current_player_state, GameState.opponent_state, GameState.opponent, other_zero, other_one, player_zero, player_one, GameState.with_deck, GameState.with_scrap, GameState.with_current_player, GameState.with_phase, GameState.with_turn_number, GameState.with_consecutive_passes, GameState.with_counter_state, GameState.with_seven_state, GameState.with_four_state, GameState.with_winner, PlayerState.with_hand, PlayerState.with_points_field, PlayerState.with_permanents, PlayerState.with_jacks, set_player_zero_p0, set_player_zero_p1, set_player_one_p0, set_player_one_p1, set_player_deck, set_player_scrap, set_player_counter, set_player_seven, end_turn_p0, end_turn_p1, end_turn_deck, end_turn_scrap, end_turn_counter, end_turn_seven, check_win_p0, check_win_p1, check_win_deck, check_win_scrap, check_win_counter, check_win_seven, permanent_tail_p0, permanent_tail_p1, permanent_tail_deck, permanent_tail_scrap, permanent_tail_counter, permanent_tail_seven, seven_tail_p0, seven_tail_p1, seven_tail_deck, seven_tail_scrap, seven_tail_counter, seven_tail_seven, decline_tail_p0, decline_tail_p1, decline_tail_deck, decline_tail_scrap, decline_tail_counter, decline_tail_seven, revealed_cards_of_eq, counter_cards_of_eq, revealed_of_opt_none, revealed_of_opt_some, counter_of_opt_none, counter_of_opt_some, jack_cards_append, jack_cards_cons, jack_cards_nil]
  · simp only [Except.ok.injEq] at he
    subst he
    rw [all_cards_expand, all_cards_expand]
    simp only [GameState.current_player_state, GameState.opponent_state, GameState.opponent, other_zero, other_one, player_zero, player_one, GameState.with_deck, GameState.with_scrap, GameState.with_current_player, GameState.with_phase, GameState.with_turn_number, GameState.with_consecutive_passes, GameState.with_counter_state, GameState.with_seven_state, GameState.with_four_state, GameState.with_winner, PlayerState.with_hand, PlayerState.with_points_field, PlayerState.with_permanents, PlayerState.with_jacks, set_player_zero_p0, set_player_zero_p1, set_player_one_p0, set_player_one_p1, set_player_deck, set_player_scrap, set_player_counter, set_player_seven, end_turn_p0, end_turn_p1, end_turn_deck, end_turn_scrap, end_turn_counter, end_turn_seven, check_win_p0, check_win_p1, check_win_deck, check_win_scrap, check_win_counter, check_win_seven, permanent_tail_p0, permanent_tail_p1, permanent_tail_deck, permanent_tail_scrap, permanent_tail_counter, permanent_tail_seven, seven_tail_p0, seven_tail_p1, seven_tail_deck, seven_tail_scrap, seven_tail_counter, seven_tail_seven, decline_tail_p0, decline_tail_p1, decline_tail_deck, decline_tail_scrap, decline_tail_counter, decline_tail_seven, revealed_cards_of_eq, counter_cards_of_eq, revealed_of_opt_none, revealed_of_opt_some, counter_of_opt_none, counter_of_opt_some, jack_cards_append, jack_cards_cons, jack_cards_nil]


theorem jack_cards_def (js : List (Card × Card)) :
    (js.flatMap fun p => [p.1, p.2]) = jack_cards js := rfl

theorem nodup_listed_parts {u : GameState} (h : (listed_cards u).Nodup) :
    (player_cards u.p0).Nodup ∧ (player_cards u.p1).Nodup ∧ u.deck.Nodup
      ∧ u.scrap.Nodup ∧ (revealed_cards_of u).Nodup := by
  unfold listed_cards at h
  replace h := Multiset.coe_nodup.mp h
  unfold listed_card_list at h
  exact ⟨h.of_append_left.of_append_left.of_append_left.of_append_left,
    h.of_append_left.of_append_left.of_append_left.of_append_right,
    h.of_append_left.of_append_left.of_append_right,
    h.of_append_left.of_append_right,
    h.of_append_right⟩

/-- Ace resolution conserves the listed-location card multiset. -/
theorem conserve_resolve_ace (u : GameState) :
    listed_cards (resolve_ace u) = listed_cards u := by
  unfold resolve_ace
  dsimp only
  rw [listed_cards_expand, listed_cards_expand]
  simp only [GameState.current_player_state, GameState.opponent_state, GameState.opponent, other_zero, other_one, player_zero, player_one, GameState.with_deck, GameState.with_scrap, GameState.with_current_player, GameState.with_phase, GameState.with_turn_number, GameState.with_consecutive_passes, GameState.with_counter_state, GameState.with_seven_state, GameState.with_four_state, GameState.with_winner, PlayerState.with_hand, PlayerState.with_points_field, PlayerState.with_permanents, PlayerState.with_jacks, set_player_zero_p0, set_player_zero_p1, set_player_one_p0, set_player_one_p1, set_player_deck, set_player_scrap, set_player_counter, set_player_seven, end_turn_p0, end_turn_p1, end_turn_deck, end_turn_scrap, end_turn_counter, end_turn_seven, check_win_p0, check_win_p1, check_win_deck, check_win_scrap, check_win_counter, check_win_seven, revealed_cards_of_eq, counter_cards_of_eq, revealed_of_opt_none, revealed_of_opt_some, counter_of_opt_none, counter_of_opt_some, jack_cards_append, jack_cards_cons, jack_cards_nil, jack_cards_def]
  simp only [← Multiset.coe_add, ← Multiset.cons_coe, Multiset.coe_singleton, ← Multiset.singleton_add, Multiset.coe_nil, add_zero]
  abel

/-- Two resolution conserves the listed-location card multiset. -/
theorem conserve_resolve_two {u v : GameState} {tc : Option Card}
    {tp : Option Player} (hnd : (listed_cards u).Nodup)
    (he : resolve_two u tc tp = Except.ok v) : listed_cards v = listed_cards u := by
  unfold resolve_two at he
  split at he
  · rename_i target tp0
    dsimp only at he
    split at he
    · rename_i hpmem
      simp only [Except.ok.injEq] at he
      subst he
      rw [listed_cards_expand, listed_cards_expand]
      rcases player_cases tp0 with htp | htp
      · have hperm : u.p0.permanents.Nodup :=
          (nodup_pc_parts (nodup_listed_parts hnd).1).2.2.1
        rw [htp, player_zero] at hpmem
        simp only [htp, GameState.current_player_state, GameState.opponent_state, GameState.opponent, other_zero, other_one, player_zero, player_one, GameState.with_deck, GameState.with_scrap, GameState.with_current_player, GameState.with_phase, GameState.with_turn_number, GameState.with_consecutive_passes, GameState.with_counter_state, GameState.with_seven_state, GameState.with_four_state, GameState.with_winner, PlayerState.with_hand, PlayerState.with_points_field, PlayerState.with_permanents, PlayerState.with_jacks, set_player_zero_p0, set_player_zero_p1, set_player_one_p0, set_player_one_p1, set_player_deck, set_player_scrap, set_player_counter, set_player_seven, end_turn_p0, end_turn_p1, end_turn_deck, end_turn_scrap, end_turn_counter, end_turn_seven, check_win_p0, check_win_p1, check_win_deck, check_win_scrap, check_win_counter, check_win_seven, revealed_cards_of_eq, counter_cards_of_eq, revealed_of_opt_none, revealed_of_opt_some, counter_of_opt_none, counter_of_opt_some, jack_cards_append, jack_cards_cons, jack_cards_nil, jack_cards_def]
        rw [coe_eq_cons_filter hperm hpmem]
        simp only [← Multiset.coe_add, ← Multiset.cons_coe, Multiset.coe_singleton, ← Multiset.singleton_add, Multiset.coe_nil, add_zero]
        abel
      · have hperm : u.p1.permanents.Nodup :=
          (nodup_pc_parts (nodup_listed_parts hnd).2.1).2.2.1
        rw [htp, player_one] at hpmem
        simp only [htp, GameState.current_player_state, GameState.opponent_state, GameState.opponent, other_zero, other_one, player_zero, player_one, GameState.with_deck, GameState.with_scrap, GameState.with_current_player, GameState.with_phase, GameState.with_turn_number, GameState.with_consecutive_passes, GameState.with_counter_state, GameState.with_seven_state, GameState.with_four_state, GameState.with_winner, PlayerState.with_hand, PlayerState.with_points_field, PlayerState.with_permanents, PlayerState.with_jacks, set_player_zero_p0, set_player_zero_p1, set_player_one_p0, set_player_one_p1, set_player_deck, set_player_scrap, set_player_counter, set_player_seven, end_turn_p0, end_turn_p1, end_turn_deck, end_turn_scrap, end_turn_counter, end_turn_seven, check_win_p0, check_win_p1, check_win_deck, check_win_scrap, check_win_counter, check_win_seven, revealed_cards_of_eq, counter_cards_of_eq, revealed_of_opt_none, revealed_of_opt_some, counter_of_opt_none, counter_of_opt_some, jack_cards_append, jack_cards_cons, jack_cards_nil, jack_cards_def]
        rw [coe_eq_cons_filter hperm hpmem]
        simp only [← Multiset.coe_add, ← Multiset.cons_coe, Multiset.coe_singleton, ← Multiset.singleton_add, Multiset.coe_nil, add_zero]
        abel
    · split at he
      · split at he
        · cases he
        rename_i pair hfind
        simp only [Except.ok.injEq] at he
        subst he
        have hjmem := List.mem_of_find?_eq_some hfind
        have hfst : pair.1 = target := by simpa using List.find?_some hfind
        rw [listed_cards_expand, listed_cards_expand]
        rcases player_cases tp0 with htp | htp
        · have hjk : (jack_cards u.p0.jacks).Nodup :=
            (nodup_pc_parts (nodup_listed_parts hnd).1).2.2.2
          rw [htp, player_zero] at hjmem
          simp only [htp, GameState.current_player_state, GameState.opponent_state, GameState.opponent, other_zero, other_one, player_zero, player_one, GameState.with_deck, GameState.with_scrap, GameState.with_current_player, GameState.with_phase, GameState.with_turn_number, GameState.with_consecutive_passes, GameState.with_counter_state, GameState.with_seven_state, GameState.with_four_state, GameState.with_winner, PlayerState.with_hand, PlayerState.with_points_field, PlayerState.with_permanents, PlayerState.with_jacks, set_player_zero_p0, set_player_zero_p1, set_player_one_p0, set_player_one_p1, set_player_deck, set_player_scrap, set_player_counter, set_player_seven, end_turn_p0, end_turn_p1, end_turn_deck, end_turn_scrap, end_turn_counter, end_turn_seven, check_win_p0, check_win_p1, check_win_deck, check_win_scrap, check_win_counter, check_win_seven, revealed_cards_of_eq, counter_cards_of_eq, revealed_of_opt_none, revealed_of_opt_some, counter_of_opt_none, counter_of_opt_some, jack_cards_append, jack_cards_cons, jack_cards_nil, jack_cards_def]
          rw [jack_cards_fst_split hjk hjmem hfst]
          simp only [← Multiset.coe_add, ← Multiset.cons_coe, Multiset.coe_singleton, ← Multiset.singleton_add, Multiset.coe_nil, add_zero]
          abel
        · have hjk : (jack_cards u.p1.jacks).Nodup :=
            (nodup_pc_parts (nodup_listed_parts hnd).2.1).2.2.2
          rw [htp, player_one] at hjmem
          simp only [htp, GameState.current_player_state, GameState.opponent_state, GameState.opponent, other_zero, other_one, player_zero, player_one, GameState.with_deck, GameState.with_scrap, GameState.with_current_player, GameState.with_phase, GameState.with_turn_number, GameState.with_consecutive_passes, GameState.with_counter_state, GameState.with_seven_state, GameState.with_four_state, GameState.with_winner, PlayerState.with_hand, PlayerState.with_points_field, PlayerState.with_permanents, PlayerState.with_jacks, set_player_zero_p0, set_player_zero_p1, set_player_one_p0, set_player_one_p1, set_player_deck, set_player_scrap, set_player_counter, set_player_seven, end_turn_p0, end_turn_p1, end_turn_deck, end_turn_scrap, end_turn_counter, end_turn_seven, check_win_p0, check_win_p1, check_win_deck, check_win_scrap, check_win_counter, check_win_seven, revealed_cards_of_eq, counter_cards_of_eq, revealed_of_opt_none, revealed_of_opt_some, counter_of_opt_none, counter_of_opt_some, jack_cards_append, jack_cards_cons, jack_cards_nil, jack_cards_def]
          rw [jack_cards_fst_split hjk hjmem hfst]
          simp only [← Multiset.coe_add, ← Multiset.cons_coe, Multiset.coe_singleton, ← Multiset.singleton_add, Multiset.coe_nil, add_zero]
          abel
      · cases he
  · cases he

/-- Three resolution conserves the listed-location card multiset. -/
theorem conserve_resolve_three {u v : GameState} {caster : Player}
    {tc : Option Card} (hnd : (listed_cards u).Nodup)
    (he : resolve_three u caster tc = Except.ok v) :
    listed_cards v = listed_cards u := by
  unfold resolve_three at he
  split at he
  · cases he
  rename_i target
  split at he
  · cases he
  rename_i hmem
  simp only [Except.ok.injEq] at he
  subst he
  have hm : target ∈ u.scrap := not_not.mp hmem
  have hscrap : u.scrap.Nodup := (nodup_listed_parts hnd).2.2.2.1
  rw [listed_cards_expand, listed_cards_expand]
  rcases player_cases caster with hc | hc <;>
    · simp only [hc, GameState.current_player_state, GameState.opponent_state, GameState.opponent, other_zero, other_one, player_zero, player_one, GameState.with_deck, GameState.with_scrap, GameState.with_current_player, GameState.with_phase, GameState.with_turn_number, GameState.with_consecutive_passes, GameState.with_counter_state, GameState.with_seven_state, GameState.with_four_state, GameState.with_winner, PlayerState.with_hand, PlayerState.with_points_field, PlayerState.with_permanents, PlayerState.with_jacks, set_player_zero_p0, set_player_zero_p1, set_player_one_p0, set_player_one_p1, set_player_deck, set_player_scrap, set_player_counter, set_player_seven, end_turn_p0, end_turn_p1, end_turn_deck, end_turn_scrap, end_turn_counter, end_turn_seven, check_win_p0, check_win_p1, check_win_deck, check_win_scrap, check_win_counter, check_win_seven, revealed_cards_of_eq, counter_cards_of_eq, revealed_of_opt_none, revealed_of_opt_some, counter_of_opt_none, counter_of_opt_some, jack_cards_append, jack_cards_cons, jack_cards_nil, jack_cards_def]
      rw [coe_eq_cons_filter hscrap hm]
      simp only [← Multiset.coe_add, ← Multiset.cons_coe, Multiset.coe_singleton, ← Multiset.singleton_add, Multiset.coe_nil, add_zero]
      abel

/-- Four resolution conserves the listed-location card multiset. -/
theorem conserve_resolve_four {u v : GameState} {tp : Option Player}
    (he : resolve_four u tp = Except.ok v) : listed_cards v = listed_cards u := by
  unfold resolve_four at he
  split at he
  · cases he
  dsimp only at he
  split at he
  · simp only [Except.ok.injEq] at he
    subst he
    rfl
  · simp only [Except.ok.injEq] at he
    subst he
    rw [listed_cards_expand, listed_cards_expand]
    simp only [GameState.current_player_state, GameState.opponent_state, GameState.opponent, other_zero, other_one, player_zero, player_one, GameState.with_deck, GameState.with_scrap, GameState.with_current_player, GameState.with_phase, GameState.with_turn_number, GameState.with_consecutive_passes, GameState.with_counter_state, GameState.with_seven_state, GameState.with_four_state, GameState.with_winner, PlayerState.with_hand, PlayerState.with_points_field, PlayerState.with_permanents, PlayerState.with_jacks, set_player_zero_p0, set_player_zero_p1, set_player_one_p0, set_player_one_p1, set_player_deck, set_player_scrap, set_player_counter, set_player_seven, end_turn_p0, end_turn_p1, end_turn_deck, end_turn_scrap, end_turn_counter, end_turn_seven, check_win_p0, check_win_p1, check_win_deck, check_win_scrap, check_win_counter, check_win_seven, revealed_cards_of_eq, counter_cards_of_eq, revealed_of_opt_none, revealed_of_opt_some, counter_of_opt_none, counter_of_opt_some, jack_cards_append, jack_cards_cons, jack_cards_nil, jack_cards_def]

/-- Five resolution conserves the listed-location card multiset. -/
theorem conserve_resolve_five (u : GameState) (caster : Player) :
    listed_cards (resolve_five u caster) = listed_cards u := by
  unfold resolve_five
  dsimp only
  split
  · rfl
  · rw [listed_cards_expand, listed_cards_expand]
    rcases player_cases caster with hc | hc <;>
      · simp only [hc, GameState.current_player_state, GameState.opponent_state, GameState.opponent, other_zero, other_one, player_zero, player_one, GameState.with_deck, GameState.with_scrap, GameState.with_current_player, GameState.with_phase, GameState.with_turn_number, GameState.with_consecutive_passes, GameState.with_counter_state, GameState.with_seven_state, GameState.with_four_state, GameState.with_winner, PlayerState.with_hand, PlayerState.with_points_field, PlayerState.with_permanents, PlayerState.with_jacks, set_player_zero_p0, set_player_zero_p1, set_player_one_p0, set_player_one_p1, set_player_deck, set_player_scrap, set_player_counter, set_player_seven, end_turn_p0, end_turn_p1, end_turn_deck, end_turn_scrap, end_turn_counter, end_turn_seven, check_win_p0, check_win_p1, check_win_deck, check_win_scrap, check_win_counter, check_win_seven, revealed_cards_of_eq, counter_cards_of_eq, revealed_of_opt_none, revealed_of_opt_some, counter_of_opt_none, counter_of_opt_some, jack_cards_append, jack_cards_cons, jack_cards_nil, jack_cards_def]
        rw [show (u.deck : Multiset Card)
            = ↑(u.deck.take (min 2 u.deck.length) ++ u.deck.drop (min 2 u.deck.length))
          from by rw [List.take_append_drop]]
        simp only [← Multiset.coe_add, ← Multiset.cons_coe, Multiset.coe_singleton, ← Multiset.singleton_add, Multiset.coe_nil, add_zero]
        abel

/-- Six resolution conserves the listed-location card multiset. -/
theorem conserve_resolve_six (u : GameState) :
    listed_cards (resolve_six u) = listed_cards u := by
  unfold resolve_six
  dsimp only
  rw [listed_cards_expand, listed_cards_expand]
  simp only [GameState.current_player_state, GameState.opponent_state, GameState.opponent, other_zero, other_one, player_zero, player_one, GameState.with_deck, GameState.with_scrap, GameState.with_current_player, GameState.with_phase, GameState.with_turn_number, GameState.with_consecutive_passes, GameState.with_counter_state, GameState.with_seven_state, GameState.with_four_state, GameState.with_winner, PlayerState.with_hand, PlayerState.with_points_field, PlayerState.with_permanents, PlayerState.with_jacks, set_player_zero_p0, set_player_zero_p1, set_player_one_p0, set_player_one_p1, set_player_deck, set_player_scrap, set_player_counter, set_player_seven, end_turn_p0, end_turn_p1, end_turn_deck, end_turn_scrap, end_turn_counter, end_turn_seven, check_win_p0, check_win_p1, check_win_deck, check_win_scrap, check_win_counter, check_win_seven, revealed_cards_of_eq, counter_cards_of_eq, revealed_of_opt_none, revealed_of_opt_some, counter_of_opt_none, counter_of_opt_some, jack_cards_append, jack_cards_cons, jack_cards_nil, jack_cards_def]
  simp only [← Multiset.coe_add, ← Multiset.cons_coe, Multiset.coe_singleton, ← Multiset.singleton_add, Multiset.coe_nil, add_zero]
  abel

/-- Seven resolution conserves the listed-location card multiset: the deck top
becomes the revealed card. -/
theorem conserve_resolve_seven {u v : GameState} {caster : Player}
    (h7 : u.seven_state = none)
    (he : resolve_seven u caster = Except.ok v) : listed_cards v = listed_cards u := by
  unfold resolve_seven at he
  split at he
  · cases he
  rename_i top nd heq
  simp only [Except.ok.injEq] at he
  subst he
  rw [listed_cards_expand, listed_cards_expand]
  simp only [h7, GameState.current_player_state, GameState.opponent_state, GameState.opponent, other_zero, other_one, player_zero, player_one, GameState.with_deck, GameState.with_scrap, GameState.with_current_player, GameState.with_phase, GameState.with_turn_number, GameState.with_consecutive_passes, GameState.with_counter_state, GameState.with_seven_state, GameState.with_four_state, GameState.with_winner, PlayerState.with_hand, PlayerState.with_points_field, PlayerState.with_permanents, PlayerState.with_jacks, set_player_zero_p0, set_player_zero_p1, set_player_one_p0, set_player_one_p1, set_player_deck, set_player_scrap, set_player_counter, set_player_seven, end_turn_p0, end_turn_p1, end_turn_deck, end_turn_scrap, end_turn_counter, end_turn_seven, check_win_p0, check_win_p1, check_win_deck, check_win_scrap, check_win_counter, check_win_seven, revealed_cards_of_eq, counter_cards_of_eq, revealed_of_opt_none, revealed_of_opt_some, counter_of_opt_none, counter_of_opt_some, jack_cards_append, jack_cards_cons, jack_cards_nil, jack_cards_def]
  rw [heq]
  simp only [← Multiset.coe_add, ← Multiset.cons_coe, Multiset.coe_singleton, ← Multiset.singleton_add, Multiset.coe_nil, add_zero]
  abel

/-- Nine resolution conserves the listed-location card multiset. -/
theorem conserve_resolve_nine {u v : GameState} {tc : Option Card}
    {tp : Option Player} (hnd : (listed_cards u).Nodup)
    (he : resolve_nine u tc tp = Except.ok v) : listed_cards v = listed_cards u := by
  unfold resolve_nine at he
  split at he
  · rename_i target tp0
    dsimp only at he
    split at he
    · rename_i hpmem
      simp only [Except.ok.injEq] at he
      subst he
      rw [listed_cards_expand, listed_cards_expand]
      rcases player_cases tp0 with htp | htp
      · have hperm : u.p0.permanents.Nodup :=
          (nodup_pc_parts (nodup_listed_parts hnd).1).2.2.1
        rw [htp, player_zero] at hpmem
        simp only [htp, GameState.current_player_state, GameState.opponent_state, GameState.opponent, other_zero, other_one, player_zero, player_one, GameState.with_deck, GameState.with_scrap, GameState.with_current_player, GameState.with_phase, GameState.with_turn_number, GameState.with_consecutive_passes, GameState.with_counter_state, GameState.with_seven_state, GameState.with_four_state, GameState.with_winner, PlayerState.with_hand, PlayerState.with_points_field, PlayerState.with_permanents, PlayerState.with_jacks, set_player_zero_p0, set_player_zero_p1, set_player_one_p0, set_player_one_p1, set_player_deck, set_player_scrap, set_player_counter, set_player_seven, end_turn_p0, end_turn_p1, end_turn_deck, end_turn_scrap, end_turn_counter, end_turn_seven, check_win_p0, check_win_p1, check_win_deck, check_win_scrap, check_win_counter, check_win_seven, revealed_cards_of_eq, counter_cards_of_eq, revealed_of_opt_none, revealed_of_opt_some, counter_of_opt_none, counter_of_opt_some, jack_cards_append, jack_cards_cons, jack_cards_nil, jack_cards_def]
        rw [coe_eq_cons_filter hperm hpmem]
        simp only [← Multiset.coe_add, ← Multiset.cons_coe, Multiset.coe_singleton, ← Multiset.singleton_add, Multiset.coe_nil, add_zero]
        abel
      · have hperm : u.p1.permanents.Nodup :=
          (nodup_pc_parts (nodup_listed_parts hnd).2.1).2.2.1
        rw [htp, player_one] at hpmem
        simp only [htp, GameState.current_player_state, GameState.opponent_state, GameState.opponent, other_zero, other_one, player_zero, player_one, GameState.with_deck, GameState.with_scrap, GameState.with_current_player, GameState.with_phase, GameState.with_turn_number, GameState.with_consecutive_passes, GameState.with_counter_state, GameState.with_seven_state, GameState.with_four_state, GameState.with_winner, PlayerState.with_hand, PlayerState.with_points_field, PlayerState.with_permanents, PlayerState.with_jacks, set_player_zero_p0, set_player_zero_p1, set_player_one_p0, set_player_one_p1, set_player_deck, set_player_scrap, set_player_counter, set_player_seven, end_turn_p0, end_turn_p1, end_turn_deck, end_turn_scrap, end_turn_counter, end_turn_seven, check_win_p0, check_win_p1, check_win_deck, check_win_scrap, check_win_counter, check_win_seven, revealed_cards_of_eq, counter_cards_of_eq, revealed_of_opt_none, revealed_of_opt_some, counter_of_opt_none, counter_of_opt_some, jack_cards_append, jack_cards_cons, jack_cards_nil, jack_cards_def]
        rw [coe_eq_cons_filter hperm hpmem]
        simp only [← Multiset.coe_add, ← Multiset.cons_coe, Multiset.coe_singleton, ← Multiset.singleton_add, Multiset.coe_nil, add_zero]
        abel
    · split at he
      · split at he
        · cases he
        rename_i pair hfind
        simp only [Except.ok.injEq] at he
        subst he
        have hjmem := List.mem_of_find?_eq_some hfind
        have hfst : pair.1 = target := by simpa using List.find?_some hfind
        rw [listed_cards_expand, listed_cards_expand]
        rcases player_cases tp0 with htp | htp
        · have hjk : (jack_cards u.p0.jacks).Nodup :=
            (nodup_pc_parts (nodup_listed_parts hnd).1).2.2.2
          rw [htp, player_zero] at hjmem
          simp only [htp, GameState.current_player_state, GameState.opponent_state, GameState.opponent, other_zero, other_one, player_zero, player_one, GameState.with_deck, GameState.with_scrap, GameState.with_current_player, GameState.with_phase, GameState.with_turn_number, GameState.with_consecutive_passes, GameState.with_counter_state, GameState.with_seven_state, GameState.with_four_state, GameState.with_winner, PlayerState.with_hand, PlayerState.with_points_field, PlayerState.with_permanents, PlayerState.with_jacks, set_player_zero_p0, set_player_zero_p1, set_player_one_p0, set_player_one_p1, set_player_deck, set_player_scrap, set_player_counter, set_player_seven, end_turn_p0, end_turn_p1, end_turn_deck, end_turn_scrap, end_turn_counter, end_turn_seven, check_win_p0, check_win_p1, check_win_deck, check_win_scrap, check_win_counter, check_win_seven, revealed_cards_of_eq, counter_cards_of_eq, revealed_of_opt_none, revealed_of_opt_some, counter_of_opt_none, counter_of_opt_some, jack_cards_append, jack_cards_cons, jack_cards_nil, jack_cards_def]
          rw [jack_cards_fst_split hjk hjmem hfst]
          simp only [← Multiset.coe_add, ← Multiset.cons_coe, Multiset.coe_singleton, ← Multiset.singleton_add, Multiset.coe_nil, add_zero]
          abel
        · have hjk : (jack_cards u.p1.jacks).Nodup :=
            (nodup_pc_parts (nodup_listed_parts hnd).2.1).2.2.2
          rw [htp, player_one] at hjmem
          simp only [htp, GameState.current_player_state, GameState.opponent_state, GameState.opponent, other_zero, other_one, player_zero, player_one, GameState.with_deck, GameState.with_scrap, GameState.with_current_player, GameState.with_phase, GameState.with_turn_number, GameState.with_consecutive_passes, GameState.with_counter_state, GameState.with_seven_state, GameState.with_four_state, GameState.with_winner, PlayerState.with_hand, PlayerState.with_points_field, PlayerState.with_permanents, PlayerState.with_jacks, set_player_zero_p0, set_player_zero_p1, set_player_one_p0, set_player_one_p1, set_player_deck, set_player_scrap, set_player_counter, set_player_seven, end_turn_p0, end_turn_p1, end_turn_deck, end_turn_scrap, end_turn_counter, end_turn_seven, check_win_p0, check_win_p1, check_win_deck, check_win_scrap, check_win_counter, check_win_seven, revealed_cards_of_eq, counter_cards_of_eq, revealed_of_opt_none, revealed_of_opt_some, counter_of_opt_none, counter_of_opt_some, jack_cards_append, jack_cards_cons, jack_cards_nil, jack_cards_def]
          rw [jack_cards_fst_split hjk hjmem hfst]
          simp only [← Multiset.coe_add, ← Multiset.cons_coe, Multiset.coe_singleton, ← Multiset.singleton_add, Multiset.coe_nil, add_zero]
          abel
      · cases he
  · cases he

/-- A resolving one-off conserves the listed-location card multiset. -/
theorem conserve_resolve_one_off {u v : GameState} {cs : CounterState}
    (hnd : (listed_cards u).Nodup) (h7 : u.seven_state = none)
    (he : resolve_one_off u cs = Except.ok v) : listed_cards v = listed_cards u := by
  unfold resolve_one_off at he
  split at he
  · simp only [Except.ok.injEq] at he
    subst he
    exact conserve_resolve_ace u
  · exact conserve_resolve_two hnd he
  · exact conserve_resolve_three hnd he
  · exact conserve_resolve_four he
  · simp only [Except.ok.injEq] at he
    subst he
    exact conserve_resolve_five u cs.one_off_player
  · simp only [Except.ok.injEq] at he
    subst he
    exact conserve_resolve_six u
  · exact conserve_resolve_seven h7 he
  · exact conserve_resolve_nine hnd he
  · cases he


/-- Declining a counter conserves the card multiset: the counter-state cards
go to the scrap before the optional resolution. -/
theorem conserve_decline {s s' : GameState}
    (hnd : (all_cards s).Nodup) (hsub : substates_clean s)
    (he : execute_decline_counter s = Except.ok s') : all_cards s' = all_cards s := by
  unfold execute_decline_counter at he
  split at he
  · cases he
  rename_i hph
  split at he
  · cases he
  rename_i cs hcs
  dsimp only at he
  split at he
  · cases he
  rename_i resolved heq
  simp only [Except.ok.injEq] at he
  subst he
  have hphc : s.phase = GamePhase.COUNTER := not_not.mp hph
  have h7 : s.seven_state = none := hsub.2 (by rw [hphc]; decide)
  have hlist : listed_cards
        (s.with_scrap (s.scrap ++ [cs.one_off_card] ++ cs.counter_chain))
      = all_cards s := by
    rw [listed_cards_expand, all_cards_expand]
    simp only [hcs, GameState.current_player_state, GameState.opponent_state, GameState.opponent, other_zero, other_one, player_zero, player_one, GameState.with_deck, GameState.with_scrap, GameState.with_current_player, GameState.with_phase, GameState.with_turn_number, GameState.with_consecutive_passes, GameState.with_counter_state, GameState.with_seven_state, GameState.with_four_state, GameState.with_winner, PlayerState.with_hand, PlayerState.with_points_field, PlayerState.with_permanents, PlayerState.with_jacks, set_player_zero_p0, set_player_zero_p1, set_player_one_p0, set_player_one_p1, set_player_deck, set_player_scrap, set_player_counter, set_player_seven, end_turn_p0, end_turn_p1, end_turn_deck, end_turn_scrap, end_turn_counter, end_turn_seven, check_win_p0, check_win_p1, check_win_deck, check_win_scrap, check_win_counter, check_win_seven, seven_tail_p0, seven_tail_p1, seven_tail_deck, seven_tail_scrap, seven_tail_counter, seven_tail_seven, decline_tail_p0, decline_tail_p1, decline_tail_deck, decline_tail_scrap, decline_tail_counter, decline_tail_seven, revealed_cards_of_eq, counter_cards_of_eq, revealed_of_opt_none, revealed_of_opt_some, counter_of_opt_none, counter_of_opt_some, jack_cards_append, jack_cards_cons, jack_cards_nil, jack_cards_def]
    simp only [← Multiset.coe_add, ← Multiset.cons_coe, Multiset.coe_singleton, ← Multiset.singleton_add, Multiset.coe_nil, add_zero]
    abel
  have hdecl : all_cards (decline_tail resolved) = listed_cards resolved := by
    rw [all_cards_expand, listed_cards_expand]
    simp only [GameState.current_player_state, GameState.opponent_state, GameState.opponent, other_zero, other_one, player_zero, player_one, GameState.with_deck, GameState.with_scrap, GameState.with_current_player, GameState.with_phase, GameState.with_turn_number, GameState.with_consecutive_passes, GameState.with_counter_state, GameState.with_seven_state, GameState.with_four_state, GameState.with_winner, PlayerState.with_hand, PlayerState.with_points_field, PlayerState.with_permanents, PlayerState.with_jacks, set_player_zero_p0, set_player_zero_p1, set_player_one_p0, set_player_one_p1, set_player_deck, set_player_scrap, set_player_counter, set_player_seven, end_turn_p0, end_turn_p1, end_turn_deck, end_turn_scrap, end_turn_counter, end_turn_seven, check_win_p0, check_win_p1, check_win_deck, check_win_scrap, check_win_counter, check_win_seven, seven_tail_p0, seven_tail_p1, seven_tail_deck, seven_tail_scrap, seven_tail_counter, seven_tail_seven, decline_tail_p0, decline_tail_p1, decline_tail_deck, decline_tail_scrap, decline_tail_counter, decline_tail_seven, revealed_cards_of_eq, counter_cards_of_eq, revealed_of_opt_none, revealed_of_opt_some, counter_of_opt_none, counter_of_opt_some, jack_cards_append, jack_cards_cons, jack_cards_nil, jack_cards_def, Multiset.coe_nil, add_zero]
  have hres : listed_cards resolved
      = listed_cards (s.with_scrap (s.scrap ++ [cs.one_off_card] ++ cs.counter_chain)) := by
    split at heq
    · refine conserve_resolve_one_off ?_ (by simp [h7]) heq
      rw [hlist]
      exact hnd
    · simp only [Except.ok.injEq] at heq
      subst heq
      rfl
  rw [hdecl, hres, hlist]

/-- Resolving a Seven conserves the card multiset for every handled play tag;
for an unhandled tag (notably DISCARD) the chosen card is removed from every
location. -/
theorem conserve_exec_seven {s s' : GameState} {card : Card} {pa : MoveType}
    {tc : Option Card} (hnd : (all_cards s).Nodup) (hsub : substates_clean s)
    (he : execute_resolve_seven s card pa tc = Except.ok s') :
    all_cards s' = (match seven_discarded (Move.ResolveSeven card pa tc) with
      | some c => (all_cards s).erase c
      | none => all_cards s) := by
  unfold execute_resolve_seven at he
  split at he
  · cases he
  rename_i hph
  split at he
  · cases he
  rename_i ss hss
  split at he
  · cases he
  rename_i hmem
  dsimp only at he
  have hm : card ∈ ss.revealed_cards := not_not.mp hmem
  have hrev : ss.revealed_cards.Nodup := by
    have hx := (nodup_parts hnd).2.2.2.2.1
    rwa [revealed_cards_some hss] at hx
  have hcs : s.counter_state = none := hsub.1 (by rw [not_not.mp hph]; decide)
  split at he
  · -- PLAY_POINTS
    simp only [Except.ok.injEq] at he
    subst he
    show all_cards _ = all_cards s
    rw [all_cards_expand, all_cards_expand]
    rcases player_cases ss.player with hsp | hsp <;>
      · simp only [hss, hsp, GameState.current_player_state, GameState.opponent_state, GameState.opponent, other_zero, other_one, player_zero, player_one, GameState.with_deck, GameState.with_scrap, GameState.with_current_player, GameState.with_phase, GameState.with_turn_number, GameState.with_consecutive_passes, GameState.with_counter_state, GameState.with_seven_state, GameState.with_four_state, GameState.with_winner, PlayerState.with_hand, PlayerState.with_points_field, PlayerState.with_permanents, PlayerState.with_jacks, set_player_zero_p0, set_player_zero_p1, set_player_one_p0, set_player_one_p1, set_player_deck, set_player_scrap, set_player_counter, set_player_seven, end_turn_p0, end_turn_p1, end_turn_deck, end_turn_scrap, end_turn_counter, end_turn_seven, check_win_p0, check_win_p1, check_win_deck, check_win_scrap, check_win_counter, check_win_seven, seven_tail_p0, seven_tail_p1, seven_tail_deck, seven_tail_scrap, seven_tail_counter, seven_tail_seven, decline_tail_p0, decline_tail_p1, decline_tail_deck, decline_tail_scrap, decline_tail_counter, decline_tail_seven, revealed_cards_of_eq, counter_cards_of_eq, revealed_of_opt_none, revealed_of_opt_some, counter_of_opt_none, counter_of_opt_some, jack_cards_append, jack_cards_cons, jack_cards_nil, jack_cards_def]
        rw [coe_eq_cons_filter hrev hm]
        simp only [← Multiset.coe_add, ← Multiset.cons_coe, Multiset.coe_singleton, ← Multiset.singleton_add, Multiset.coe_nil, add_zero]
        abel
  · -- SCUTTLE
    split at he
    · cases he
    rename_i target
    split at he
    · rename_i htif
      simp only [Except.ok.injEq] at he
      subst he
      show all_cards _ = all_cards s
      rw [all_cards_expand, all_cards_expand]
      rcases player_cases ss.player with hsp | hsp
      · have hpts : s.p1.points_field.Nodup :=
          (nodup_pc_parts (nodup_parts hnd).2.1).2.1
        simp only [hsp, GameState.current_player_state, GameState.opponent_state, GameState.opponent, other_zero, other_one, player_zero, player_one, GameState.with_deck, GameState.with_scrap, GameState.with_current_player, GameState.with_phase, GameState.with_turn_number, GameState.with_consecutive_passes, GameState.with_counter_state, GameState.with_seven_state, GameState.with_four_state, GameState.with_winner, PlayerState.with_hand, PlayerState.with_points_field, PlayerState.with_permanents, PlayerState.with_jacks, set_player_zero_p0, set_player_zero_p1, set_player_one_p0, set_player_one_p1, set_player_deck, set_player_scrap, set_player_counter, set_player_seven, end_turn_p0, end_turn_p1, end_turn_deck, end_turn_scrap, end_turn_counter, end_turn_seven, check_win_p0, check_win_p1, check_win_deck, check_win_scrap, check_win_counter, check_win_seven, seven_tail_p0, seven_tail_p1, seven_tail_deck, seven_tail_scrap, seven_tail_counter, seven_tail_seven, decline_tail_p0, decline_tail_p1, decline_tail_deck, decline_tail_scrap, decline_tail_counter, decline_tail_seven, revealed_cards_of_eq, counter_cards_of_eq, revealed_of_opt_none, revealed_of_opt_some, counter_of_opt_none, counter_of_opt_some, jack_cards_append, jack_cards_cons, jack_cards_nil, jack_cards_def] at htif
        simp only [hss, hsp, GameState.current_player_state, GameState.opponent_state, GameState.opponent, other_zero, other_one, player_zero, player_one, GameState.with_deck, GameState.with_scrap, GameState.with_current_player, GameState.with_phase, GameState.with_turn_number, GameState.with_consecutive_passes, GameState.with_counter_state, GameState.with_seven_state, GameState.with_four_state, GameState.with_winner, PlayerState.with_hand, PlayerState.with_points_field, PlayerState.with_permanents, PlayerState.with_jacks, set_player_zero_p0, set_player_zero_p1, set_player_one_p0, set_player_one_p1, set_player_deck, set_player_scrap, set_player_counter, set_player_seven, end_turn_p0, end_turn_p1, end_turn_deck, end_turn_scrap, end_turn_counter, end_turn_seven, check_win_p0, check_win_p1, check_win_deck, check_win_scrap, check_win_counter, check_win_seven, seven_tail_p0, seven_tail_p1, seven_tail_deck, seven_tail_scrap, seven_tail_counter, seven_tail_seven, decline_tail_p0, decline_tail_p1, decline_tail_deck, decline_tail_scrap, decline_tail_counter, decline_tail_seven, revealed_cards_of_eq, counter_cards_of_eq, revealed_of_opt_none, revealed_of_opt_some, counter_of_opt_none, counter_of_opt_some, jack_cards_append, jack_cards_cons, jack_cards_nil, jack_cards_def]
        rw [coe_eq_cons_filter hrev hm, coe_eq_cons_filter hpts htif]
        simp only [← Multiset.coe_add, ← Multiset.cons_coe, Multiset.coe_singleton, ← Multiset.singleton_add, Multiset.coe_nil, add_zero]
        abel
      · have hpts : s.p0.points_field.Nodup :=
          (nodup_pc_parts (nodup_parts hnd).1).2.1
        simp only [hsp, GameState.current_player_state, GameState.opponent_state, GameState.opponent, other_zero, other_one, player_zero, player_one, GameState.with_deck, GameState.with_scrap, GameState.with_current_player, GameState.with_phase, GameState.with_turn_number, GameState.with_consecutive_passes, GameState.with_counter_state, GameState.with_seven_state, GameState.with_four_state, GameState.with_winner, PlayerState.with_hand, PlayerState.with_points_field, PlayerState.with_permanents, PlayerState.with_jacks, set_player_zero_p0, set_player_zero_p1, set_player_one_p0, set_player_one_p1, set_player_deck, set_player_scrap, set_player_counter, set_player_seven, end_turn_p0, end_turn_p1, end_turn_deck, end_turn_scrap, end_turn_counter, end_turn_seven, check_win_p0, check_win_p1, check_win_deck, check_win_scrap, check_win_counter, check_win_seven, seven_tail_p0, seven_tail_p1, seven_tail_deck, seven_tail_scrap, seven_tail_counter, seven_tail_seven, decline_tail_p0, decline_tail_p1, decline_tail_deck, decline_tail_scrap, decline_tail_counter, decline_tail_seven, revealed_cards_of_eq, counter_cards_of_eq, revealed_of_opt_none, revealed_of_opt_some, counter_of_opt_none, counter_of_opt_some, jack_cards_append, jack_cards_cons, jack_cards_nil, jack_cards_def] at htif
        simp only [hss, hsp, GameState.current_player_state, GameState.opponent_state, GameState.opponent, other_zero, other_one, player_zero, player_one, GameState.with_deck, GameState.with_scrap, GameState.with_current_player, GameState.with_phase, GameState.with_turn_number, GameState.with_consecutive_passes, GameState.with_counter_state, GameState.with_seven_state, GameState.with_four_state, GameState.with_winner, PlayerState.with_hand, PlayerState.with_points_field, PlayerState.with_permanents, PlayerState.with_jacks, set_player_zero_p0, set_player_zero_p1, set_player_one_p0, set_player_one_p1, set_player_deck, set_player_scrap, set_player_counter, set_player_seven, end_turn_p0, end_turn_p1, end_turn_deck, end_turn_scrap, end_turn_counter, end_turn_seven, check_win_p0, check_win_p1, check_win_deck, check_win_scrap, check_win_counter, check_win_seven, seven_tail_p0, seven_tail_p1, seven_tail_deck, seven_tail_scrap, seven_tail_counter, seven_tail_seven, decline_tail_p0, decline_tail_p1, decline_tail_deck, decline_tail_scrap, decline_tail_counter, decline_tail_seven, revealed_cards_of_eq, counter_cards_of_eq, revealed_of_opt_none, revealed_of_opt_some, counter_of_opt_none, counter_of_opt_some, jack_cards_append, jack_cards_cons, jack_cards_nil, jack_cards_def]
        rw [coe_eq_cons_filter hrev hm, coe_eq_cons_filter hpts htif]
        simp only [← Multiset.coe_add, ← Multiset.cons_coe, Multiset.coe_singleton, ← Multiset.singleton_add, Multiset.coe_nil, add_zero]
        abel
    · cases he
  · -- PLAY_ONE_OFF
    simp only [Except.ok.injEq] at he
    subst he
    show all_cards _ = all_cards s
    rw [all_cards_expand, all_cards_expand]
    simp only [hss, hcs, GameState.current_player_state, GameState.opponent_state, GameState.opponent, other_zero, other_one, player_zero, player_one, GameState.with_deck, GameState.with_scrap, GameState.with_current_player, GameState.with_phase, GameState.with_turn_number, GameState.with_consecutive_passes, GameState.with_counter_state, GameState.with_seven_state, GameState.with_four_state, GameState.with_winner, PlayerState.with_hand, PlayerState.with_points_field, PlayerState.with_permanents, PlayerState.with_jacks, set_player_zero_p0, set_player_zero_p1, set_player_one_p0, set_player_one_p1, set_player_deck, set_player_scrap, set_player_counter, set_player_seven, end_turn_p0, end_turn_p1, end_turn_deck, end_turn_scrap, end_turn_counter, end_turn_seven, check_win_p0, check_win_p1, check_win_deck, check_win_scrap, check_win_counter, check_win_seven, seven_tail_p0, seven_tail_p1, seven_tail_deck, seven_tail_scrap, seven_tail_counter, seven_tail_seven, decline_tail_p0, decline_tail_p1, decline_tail_deck, decline_tail_scrap, decline_tail_counter, decline_tail_seven, revealed_cards_of_eq, counter_cards_of_eq, revealed_of_opt_none, revealed_of_opt_some, counter_of_opt_none, counter_of_opt_some, jack_cards_append, jack_cards_cons, jack_cards_nil, jack_cards_def]
    rw [coe_eq_cons_filter hrev hm]
    simp only [← Multiset.coe_add, ← Multiset.cons_coe, Multiset.coe_singleton, ← Multiset.singleton_add, Multiset.coe_nil, add_zero]
    abel
  · -- PLAY_PERMANENT
    split at he
    · split at he
      · cases he
      rename_i target
      split at he
      · rename_i htif
        simp only [Except.ok.injEq] at he
        subst he
        show all_cards _ = all_cards s
        rw [all_cards_expand, all_cards_expand]
        rcases player_cases ss.player with hsp | hsp
        · have hpts : s.p1.points_field.Nodup :=
            (nodup_pc_parts (nodup_parts hnd).2.1).2.1
          simp only [hsp, GameState.current_player_state, GameState.opponent_state, GameState.opponent, other_zero, other_one, player_zero, player_one, GameState.with_deck, GameState.with_scrap, GameState.with_current_player, GameState.with_phase, GameState.with_turn_number, GameState.with_consecutive_passes, GameState.with_counter_state, GameState.with_seven_state, GameState.with_four_state, GameState.with_winner, PlayerState.with_hand, PlayerState.with_points_field, PlayerState.with_permanents, PlayerState.with_jacks, set_player_zero_p0, set_player_zero_p1, set_player_one_p0, set_player_one_p1, set_player_deck, set_player_scrap, set_player_counter, set_player_seven, end_turn_p0, end_turn_p1, end_turn_deck, end_turn_scrap, end_turn_counter, end_turn_seven, check_win_p0, check_win_p1, check_win_deck, check_win_scrap, check_win_counter, check_win_seven, seven_tail_p0, seven_tail_p1, seven_tail_deck, seven_tail_scrap, seven_tail_counter, seven_tail_seven, decline_tail_p0, decline_tail_p1, decline_tail_deck, decline_tail_scrap, decline_tail_counter, decline_tail_seven, revealed_cards_of_eq, counter_cards_of_eq, revealed_of_opt_none, revealed_of_opt_some, counter_of_opt_none, counter_of_opt_some, jack_cards_append, jack_cards_cons, jack_cards_nil, jack_cards_def] at htif
          simp only [hss, hsp, GameState.current_player_state, GameState.opponent_state, GameState.opponent, other_zero, other_one, player_zero, player_one, GameState.with_deck, GameState.with_scrap, GameState.with_current_player, GameState.with_phase, GameState.with_turn_number, GameState.with_consecutive_passes, GameState.with_counter_state, GameState.with_seven_state, GameState.with_four_state, GameState.with_winner, PlayerState.with_hand, PlayerState.with_points_field, PlayerState.with_permanents, PlayerState.with_jacks, set_player_zero_p0, set_player_zero_p1, set_player_one_p0, set_player_one_p1, set_player_deck, set_player_scrap, set_player_counter, set_player_seven, end_turn_p0, end_turn_p1, end_turn_deck, end_turn_scrap, end_turn_counter, end_turn_seven, check_win_p0, check_win_p1, check_win_deck, check_win_scrap, check_win_counter, check_win_seven, seven_tail_p0, seven_tail_p1, seven_tail_deck, seven_tail_scrap, seven_tail_counter, seven_tail_seven, decline_tail_p0, decline_tail_p1, decline_tail_deck, decline_tail_scrap, decline_tail_counter, decline_tail_seven, revealed_cards_of_eq, counter_cards_of_eq, revealed_of_opt_none, revealed_of_opt_some, counter_of_opt_none, counter_of_opt_some, jack_cards_append, jack_cards_cons, jack_cards_nil, jack_cards_def]
          rw [coe_eq_cons_filter hrev hm, coe_eq_cons_filter hpts htif]
          simp only [← Multiset.coe_add, ← Multiset.cons_coe, Multiset.coe_singleton, ← Multiset.singleton_add, Multiset.coe_nil, add_zero]
          abel
        · have hpts : s.p0.points_field.Nodup :=
            (nodup_pc_parts (nodup_parts hnd).1).2.1
          simp only [hsp, GameState.current_player_state, GameState.opponent_state, GameState.opponent, other_zero, other_one, player_zero, player_one, GameState.with_deck, GameState.with_scrap, GameState.with_current_player, GameState.with_phase, GameState.with_turn_number, GameState.with_consecutive_passes, GameState.with_counter_state, GameState.with_seven_state, GameState.with_four_state, GameState.with_winner, PlayerState.with_hand, PlayerState.with_points_field, PlayerState.with_permanents, PlayerState.with_jacks, set_player_zero_p0, set_player_zero_p1, set_player_one_p0, set_player_one_p1, set_player_deck, set_player_scrap, set_player_counter, set_player_seven, end_turn_p0, end_turn_p1, end_turn_deck, end_turn_scrap, end_turn_counter, end_turn_seven, check_win_p0, check_win_p1, check_win_deck, check_win_scrap, check_win_counter, check_win_seven, seven_tail_p0, seven_tail_p1, seven_tail_deck, seven_tail_scrap, seven_tail_counter, seven_tail_seven, decline_tail_p0, decline_tail_p1, decline_tail_deck, decline_tail_scrap, decline_tail_counter, decline_tail_seven, revealed_cards_of_eq, counter_cards_of_eq, revealed_of_opt_none, revealed_of_opt_some, counter_of_opt_none, counter_of_opt_some, jack_cards_append, jack_cards_cons, jack_cards_nil, jack_cards_def] at htif
          simp only [hss, hsp, GameState.current_player_state, GameState.opponent_state, GameState.opponent, other_zero, other_one, player_zero, player_one, GameState.with_deck, GameState.with_scrap, GameState.with_current_player, GameState.with_phase, GameState.with_turn_number, GameState.with_consecutive_passes, GameState.with_counter_state, GameState.with_seven_state, GameState.with_four_state, GameState.with_winner, PlayerState.with_hand, PlayerState.with_points_field, PlayerState.with_permanents, PlayerState.with_jacks, set_player_zero_p0, set_player_zero_p1, set_player_one_p0, set_player_one_p1, set_player_deck, set_player_scrap, set_player_counter, set_player_seven, end_turn_p0, end_turn_p1, end_turn_deck, end_turn_scrap, end_turn_counter, end_turn_seven, check_win_p0, check_win_p1, check_win_deck, check_win_scrap, check_win_counter, check_win_seven, seven_tail_p0, seven_tail_p1, seven_tail_deck, seven_tail_scrap, seven_tail_counter, seven_tail_seven, decline_tail_p0, decline_tail_p1, decline_tail_deck, decline_tail_scrap, decline_tail_counter, decline_tail_seven, revealed_cards_of_eq, counter_cards_of_eq, revealed_of_opt_none, revealed_of_opt_some, counter_of_opt_none, counter_of_opt_some, jack_cards_append, jack_cards_cons, jack_cards_nil, jack_cards_def]
          rw [coe_eq_cons_filter hrev hm, coe_eq_cons_filter hpts htif]
          simp only [← Multiset.coe_add, ← Multiset.cons_coe, Multiset.coe_singleton, ← Multiset.singleton_add, Multiset.coe_nil, add_zero]
          abel
      · cases he
    · simp only [Except.ok.injEq] at he
      subst he
      show all_cards _ = all_cards s
      rw [all_cards_expand, all_cards_expand]
      rcases player_cases ss.player with hsp | hsp <;>
        · simp only [hss, hsp, GameState.current_player_state, GameState.opponent_state, GameState.opponent, other_zero, other_one, player_zero, player_one, GameState.with_deck, GameState.with_scrap, GameState.with_current_player, GameState.with_phase, GameState.with_turn_number, GameState.with_consecutive_passes, GameState.with_counter_state, GameState.with_seven_state, GameState.with_four_state, GameState.with_winner, PlayerState.with_hand, PlayerState.with_points_field, PlayerState.with_permanents, PlayerState.with_jacks, set_player_zero_p0, set_player_zero_p1, set_player_one_p0, set_player_one_p1, set_player_deck, set_player_scrap, set_player_counter, set_player_seven, end_turn_p0, end_turn_p1, end_turn_deck, end_turn_scrap, end_turn_counter, end_turn_seven, check_win_p0, check_win_p1, check_win_deck, check_win_scrap, check_win_counter, check_win_seven, seven_tail_p0, seven_tail_p1, seven_tail_deck, seven_tail_scrap, seven_tail_counter, seven_tail_seven, decline_tail_p0, decline_tail_p1, decline_tail_deck, decline_tail_scrap, decline_tail_counter, decline_tail_seven, revealed_cards_of_eq, counter_cards_of_eq, revealed_of_opt_none, revealed_of_opt_some, counter_of_opt_none, counter_of_opt_some, jack_cards_append, jack_cards_cons, jack_cards_nil, jack_cards_def]
          rw [coe_eq_cons_filter hrev hm]
          simp only [← Multiset.coe_add, ← Multiset.cons_coe, Multiset.coe_singleton, ← Multiset.singleton_add, Multiset.coe_nil, add_zero]
          abel
  · -- unhandled tag: the card vanishes
    simp only [Except.ok.injEq] at he
    subst he
    have hdisc : seven_discarded (Move.ResolveSeven card pa tc) = some card := by
      unfold seven_discarded
      dsimp only
      rw [if_neg ?hno]
      case hno =>
        rintro (h | h | h | h) <;> simp_all
    rw [hdisc]
    show _ = (all_cards s).erase card
    have hkey : all_cards s = card ::ₘ all_cards (seven_tail ((((s.with_deck
        (List.filter (fun c => c != card) ss.revealed_cards
          ++ s.deck)).with_seven_state none).with_phase
        GamePhase.MAIN).with_current_player ss.player)) := by
      rw [all_cards_expand, all_cards_expand]
      simp only [hss, GameState.current_player_state, GameState.opponent_state, GameState.opponent, other_zero, other_one, player_zero, player_one, GameState.with_deck, GameState.with_scrap, GameState.with_current_player, GameState.with_phase, GameState.with_turn_number, GameState.with_consecutive_passes, GameState.with_counter_state, GameState.with_seven_state, GameState.with_four_state, GameState.with_winner, PlayerState.with_hand, PlayerState.with_points_field, PlayerState.with_permanents, PlayerState.with_jacks, set_player_zero_p0, set_player_zero_p1, set_player_one_p0, set_player_one_p1, set_player_deck, set_player_scrap, set_player_counter, set_player_seven, end_turn_p0, end_turn_p1, end_turn_deck, end_turn_scrap, end_turn_counter, end_turn_seven, check_win_p0, check_win_p1, check_win_deck, check_win_scrap, check_win_counter, check_win_seven, seven_tail_p0, seven_tail_p1, seven_tail_deck, seven_tail_scrap, seven_tail_counter, seven_tail_seven, decline_tail_p0, decline_tail_p1, decline_tail_deck, decline_tail_scrap, decline_tail_counter, decline_tail_seven, revealed_cards_of_eq, counter_cards_of_eq, revealed_of_opt_none, revealed_of_opt_some, counter_of_opt_none, counter_of_opt_some, jack_cards_append, jack_cards_cons, jack_cards_nil, jack_cards_def]
      rw [coe_eq_cons_filter hrev hm]
      simp only [← Multiset.coe_add, ← Multiset.cons_coe, Multiset.coe_singleton, ← Multiset.singleton_add, Multiset.coe_nil, add_zero]
      abel
    rw [hkey, Multiset.erase_cons_head]

/-- Inversion of a resolving one-off: the resolution never touches the pass
counter, winner, current player or counter state, and either keeps the phase
and both remaining substates, or enters DISCARD_FOUR with a non-empty-handed
discarder recorded, or enters RESOLVE_SEVEN with a non-empty reveal. -/
theorem resolve_one_off_inv {st : GameState} {cs : CounterState} {st' : GameState}
    (h : resolve_one_off st cs = Except.ok st') :
    st'.consecutive_passes = st.consecutive_passes
      ∧ st'.winner = st.winner
      ∧ st'.win_reason = st.win_reason
      ∧ st'.current_player = st.current_player
      ∧ st'.counter_state = st.counter_state
      ∧ ((st'.phase = st.phase ∧ st'.seven_state = st.seven_state
            ∧ st'.four_state = st.four_state)
        ∨ (st'.phase = GamePhase.DISCARD_FOUR ∧ st'.seven_state = st.seven_state
            ∧ ∃ fs, st'.four_state = some fs ∧ (st'.player fs.player).hand ≠ [])
        ∨ (st'.phase = GamePhase.RESOLVE_SEVEN ∧ st'.four_state = st.four_state
            ∧ ∃ ss, st'.seven_state = some ss ∧ ss.revealed_cards ≠ [])) := by
  unfold resolve_one_off at h
  split at h
  · -- Ace
    simp only [Except.ok.injEq] at h
    subst h
    refine ⟨?_, ?_, ?_, ?_, ?_, Or.inl ⟨?_, ?_, ?_⟩⟩ <;> simp [resolve_ace]
  · -- Two
    unfold resolve_two at h
    split at h
    · dsimp only at h
      split at h
      · simp only [Except.ok.injEq] at h
        subst h
        refine ⟨?_, ?_, ?_, ?_, ?_, Or.inl ⟨?_, ?_, ?_⟩⟩ <;> simp
      · split at h
        · split at h
          · cases h
          · simp only [Except.ok.injEq] at h
            subst h
            refine ⟨?_, ?_, ?_, ?_, ?_, Or.inl ⟨?_, ?_, ?_⟩⟩ <;> simp
        · cases h
    · cases h
  · -- Three
    unfold resolve_three at h
    split at h
    · cases h
    · dsimp only at h
      split at h
      · cases h
      · simp only [Except.ok.injEq] at h
        subst h
        refine ⟨?_, ?_, ?_, ?_, ?_, Or.inl ⟨?_, ?_, ?_⟩⟩ <;> simp
  · -- Four
    unfold resolve_four at h
    split at h
    · cases h
    · rename_i tp htp
      dsimp only at h
      split at h
      · simp only [Except.ok.injEq] at h
        subst h
        exact ⟨rfl, rfl, rfl, rfl, rfl, Or.inl ⟨rfl, rfl, rfl⟩⟩
      · rename_i hne
        simp only [Except.ok.injEq] at h
        subst h
        refine ⟨by simp, by simp, by simp, by simp, by simp,
          Or.inr (Or.inl ⟨by simp, by simp, ⟨_, rfl, ?_⟩⟩)⟩
        intro hnil
        apply hne
        have hlen := congrArg List.length hnil
        simp only [GameState.with_four_state, GameState.with_phase, GameState.player,
          List.length_nil] at hlen
        simp only [GameState.player]
        rw [hlen]
        simp
  · -- Five
    simp only [Except.ok.injEq] at h
    subst h
    unfold resolve_five
    dsimp only
    split
    · exact ⟨rfl, rfl, rfl, rfl, rfl, Or.inl ⟨rfl, rfl, rfl⟩⟩
    · refine ⟨?_, ?_, ?_, ?_, ?_, Or.inl ⟨?_, ?_, ?_⟩⟩ <;> simp
  · -- Six
    simp only [Except.ok.injEq] at h
    subst h
    refine ⟨?_, ?_, ?_, ?_, ?_, Or.inl ⟨?_, ?_, ?_⟩⟩ <;> simp [resolve_six]
  · -- Seven
    unfold resolve_seven at h
    split at h
    · cases h
    · simp only [Except.ok.injEq] at h
      subst h
      refine ⟨by simp, by simp, by simp, by simp, by simp,
        Or.inr (Or.inr ⟨by simp, by simp, ⟨_, rfl, by simp⟩⟩)⟩
  · -- Nine
    unfold resolve_nine at h
    split at h
    · dsimp only at h
      split at h
      · simp only [Except.ok.injEq] at h
        subst h
        refine ⟨?_, ?_, ?_, ?_, ?_, Or.inl ⟨?_, ?_, ?_⟩⟩ <;> simp
      · split at h
        · split at h
          · cases h
          · simp only [Except.ok.injEq] at h
            subst h
            refine ⟨?_, ?_, ?_, ?_, ?_, Or.inl ⟨?_, ?_, ?_⟩⟩ <;> simp
        · cases h
    · cases h
  · cases h

/-! ## Claim C1 -/

/-- C1: refuted on the code. In the ResolveSeven phase with a revealed Jack,
the generator emits a PlayPermanent-style ResolveSeven move targeting a card
held by one of the opponent's Jacks, but the executor's Seven/Jack branch only
accepts targets lying in the opponent's points field and rejects this very
move, so `execute_move` does not succeed on all generator output. -/
theorem generated_seven_jack_steal_rejected :
    seven_jack_move ∈ generate_legal_moves seven_jack_state
      ∧ (execute_move seven_jack_state seven_jack_move).toOption = none := by
  decide

/-! ## Claim C2 counterexample -/

/-- C2: refuted as stated. After a successful one-off cast the cast card lives
in `counter_state`, so the sum over the listed locations (hands, points,
permanents, jack pairs, deck, scrap, reveals) of the Counter-phase successor
is 51, not 52; and after the discard-tagged ResolveSeven move the chosen card
is in no location at all, so even counting the counter state the total drops
to 51. -/
theorem counter_phase_card_total_not_52 :
    (execute_move dealt_state ace_one_off_move).toOption.map
        (fun s => ((listed_cards s).card, s.phase)) = some (51, GamePhase.COUNTER)
      ∧ seven_discard_move ∈ generate_legal_moves seven_discard_state
      ∧ (execute_move seven_discard_state seven_discard_move).toOption.map
          (fun s => (all_cards s).card) = some 51 := by
  decide

/-- **Claim C2 (corrected, conservation part).** Counting the counter state
as a location, every successful move maps the card multiset of the state to
itself — except a ResolveSeven with an unhandled play tag (the generator's
DISCARD fallback among them), which removes the chosen card from every
location instead of moving it to the scrap. -/
theorem card_conservation {s s' : GameState} {m : Move}
    (hnd : (all_cards s).Nodup) (hsub : substates_clean s)
    (he : execute_move s m = Except.ok s') :
    all_cards s' = (match seven_discarded m with
      | some c => (all_cards s).erase c
      | none => all_cards s) := by
  unfold execute_move at he
  split at he
  · cases he
  cases m
  case Draw => exact conserve_draw he
  case PlayPoints card => exact conserve_play_points hnd he
  case Scuttle card target => exact conserve_scuttle hnd he
  case PlayOneOff card e tc tp => exact conserve_one_off hnd hsub he
  case PlayPermanent card tc => exact conserve_permanent hnd he
  case Counter card => exact conserve_counter hnd he
  case DeclineCounter => exact conserve_decline hnd hsub he
  case ResolveSeven card pa tc => exact conserve_exec_seven hnd hsub he
  case Discard card => exact conserve_discard hnd he
  case Pass => exact conserve_pass he

theorem card_conservation_witness :
    (all_cards king_win_state).Nodup ∧ substates_clean king_win_state
      ∧ all_cards king_win_result = all_cards king_win_state := by
  have h1 : (all_cards king_win_state).Nodup := by decide
  have h2 : substates_clean king_win_state := by
    constructor <;> intro h <;> rfl
  exact ⟨h1, h2,
    card_conservation h1 h2
      (show execute_move king_win_state king_win_move = Except.ok king_win_result
        from rfl)⟩

/-! ## Claim C3 counterexample -/

/-- C3: refuted for Scuttle. The tie-breaking Scuttle over an empty deck is
generated and succeeds, its own `check_winner` reports player 0 as the
empty-deck-points winner, yet the executor ends the turn without running the
win check, so the successor has no winner and stays in the MAIN phase. -/
theorem scuttle_skips_win_check :
    scuttle_tie_move ∈ generate_legal_moves scuttle_tie_state
      ∧ (execute_move scuttle_tie_state scuttle_tie_move).toOption.map
          (fun s => (s.winner, s.check_winner, s.phase))
        = some (none, (some 0, some WinReason.EMPTY_DECK_POINTS), GamePhase.MAIN) := by
  decide

/-! ## Claim C5 -/

/-- C5: confirmed. On a non-terminal state, Pass succeeds exactly when the
phase is MAIN and the deck is empty. On success: when the pass is the second
consecutive one, the player with strictly more points wins with reason
EmptyDeckPoints in the GAME_OVER phase, a points tie resets the counter to
zero with no winner and the turn passing to the other player; otherwise the
counter is incremented and the turn passes with no winner. -/
theorem pass_semantics (s : GameState) (hwin : s.winner = none) :
    ((∃ s', execute_move s Move.Pass = Except.ok s')
        ↔ (s.phase = GamePhase.MAIN ∧ s.deck.length = 0))
      ∧ ∀ s', execute_move s Move.Pass = Except.ok s' →
          ((s.consecutive_passes + 1 ≥ 2
              ∧ (s.player 0).point_total > (s.player 1).point_total →
            s'.winner = some 0 ∧ s'.win_reason = some WinReason.EMPTY_DECK_POINTS
              ∧ s'.phase = GamePhase.GAME_OVER)
          ∧ (s.consecutive_passes + 1 ≥ 2
              ∧ (s.player 1).point_total > (s.player 0).point_total →
            s'.winner = some 1 ∧ s'.win_reason = some WinReason.EMPTY_DECK_POINTS
              ∧ s'.phase = GamePhase.GAME_OVER)
          ∧ (s.consecutive_passes + 1 ≥ 2
              ∧ (s.player 0).point_total = (s.player 1).point_total →
            s'.consecutive_passes = 0 ∧ s'.winner = none
              ∧ s'.current_player = other s.current_player)
          ∧ (s.consecutive_passes + 1 < 2 →
            s'.consecutive_passes = s.consecutive_passes + 1 ∧ s'.winner = none
              ∧ s'.current_player = other s.current_player)) := by
  have hexec : execute_move s Move.Pass = execute_pass s := by
    unfold execute_move GameState.is_game_over
    rw [hwin]
    rfl
  constructor
  · rw [hexec]
    unfold execute_pass
    constructor
    · rintro ⟨s', hs'⟩
      split at hs'
      · cases hs'
      · split at hs'
        · cases hs'
        · rename_i hph hdk
          exact ⟨not_not.mp hph, by omega⟩
    · rintro ⟨hph, hdk⟩
      have h1 : ¬ (s.phase ≠ GamePhase.MAIN) := by simp [hph]
      have h2 : ¬ (s.deck.length > 0) := by omega
      rw [if_neg h1, if_neg h2]
      dsimp only
      by_cases hp2 : s.consecutive_passes + 1 ≥ 2
      · rw [if_pos hp2]
        by_cases hgt : (s.player 0).point_total > (s.player 1).point_total
        · rw [if_pos hgt]
          exact ⟨_, rfl⟩
        · rw [if_neg hgt]
          by_cases hgt2 : (s.player 1).point_total > (s.player 0).point_total
          · rw [if_pos hgt2]
            exact ⟨_, rfl⟩
          · rw [if_neg hgt2]
            exact ⟨_, rfl⟩
      · rw [if_neg hp2]
        exact ⟨_, rfl⟩
  · intro s' hs'
    rw [hexec] at hs'
    unfold execute_pass at hs'
    split at hs'
    · cases hs'
    split at hs'
    · cases hs'
    dsimp only at hs'
    split at hs'
    · rename_i h2
      split at hs'
      · rename_i hgt
        simp only [Except.ok.injEq] at hs'
        subst hs'
        refine ⟨fun _ => ?_, fun h => by omega, fun h => by omega, fun h => by omega⟩
        simp [GameState.with_winner]
      · split at hs'
        · rename_i hle hgt
          simp only [Except.ok.injEq] at hs'
          subst hs'
          refine ⟨fun h => by omega, fun _ => ?_, fun h => by omega, fun h => by omega⟩
          simp [GameState.with_winner]
        · rename_i hle1 hle2
          simp only [Except.ok.injEq] at hs'
          subst hs'
          refine ⟨fun h => by omega, fun h => by omega, fun _ => ?_, fun h => by omega⟩
          simp [hwin]
    · rename_i h2
      simp only [Except.ok.injEq] at hs'
      subst hs'
      refine ⟨fun h => by omega, fun h => by omega, fun h => by omega, fun _ => ?_⟩
      simp [hwin]

/-- Instance of C5 at `scuttle_tie_state`: the first Pass increments the
counter, sets no winner, and hands the turn to the other player. -/
theorem pass_semantics_witness :
    passed_state.consecutive_passes = scuttle_tie_state.consecutive_passes + 1
      ∧ passed_state.winner = none
      ∧ passed_state.current_player = other scuttle_tie_state.current_player :=
  ((pass_semantics scuttle_tie_state rfl).2 passed_state rfl).2.2.2 (by decide)

/-! ## State well-formedness lemmas for Claim C7 -/

theorem state_ok_of_main (u : GameState) (h : u.phase = GamePhase.MAIN) :
    state_ok u := by
  refine ⟨fun hp => ?_, fun hp => ?_, fun hp => ?_, fun hp => ?_⟩ <;>
    rw [h] at hp <;> cases hp

theorem state_ok_of_counter_some (u : GameState) (h : u.phase = GamePhase.COUNTER)
    (hc : u.counter_state.isSome) : state_ok u := by
  refine ⟨fun _ => hc, fun hp => ?_, fun hp => ?_, fun hp => ?_⟩ <;>
    rw [h] at hp <;> cases hp

theorem state_ok_of_discard_four (u : GameState)
    (h : u.phase = GamePhase.DISCARD_FOUR)
    (h4 : ∃ fs, u.four_state = some fs ∧ (u.player fs.player).hand ≠ []) :
    state_ok u := by
  refine ⟨fun hp => ?_, fun hp => ?_, fun _ => h4, fun hp => ?_⟩ <;>
    rw [h] at hp <;> cases hp

theorem state_ok_of_seven (u : GameState) (h : u.phase = GamePhase.RESOLVE_SEVEN)
    (h7 : ∃ ss, u.seven_state = some ss ∧ ss.revealed_cards ≠ []) :
    state_ok u := by
  refine ⟨fun hp => ?_, fun _ => h7, fun hp => ?_, fun hp => ?_⟩ <;>
    rw [h] at hp <;> cases hp

theorem state_ok_of_game_over (u : GameState) (h : u.phase = GamePhase.GAME_OVER)
    (hw : u.winner.isSome) : state_ok u := by
  refine ⟨fun hp => ?_, fun hp => ?_, fun hp => ?_, fun _ => hw⟩ <;>
    rw [h] at hp <;> cases hp

/-- `check_win` on a Main-phase state yields a well-formed state. -/
theorem state_ok_check_win_main (u : GameState) (hph : u.phase = GamePhase.MAIN) :
    state_ok (check_win u) := by
  unfold check_win
  split
  · refine ⟨fun hp => ?_, fun hp => ?_, fun hp => ?_, fun _ => ?_⟩
    · simp [GameState.with_winner] at hp
    · simp [GameState.with_winner] at hp
    · simp [GameState.with_winner] at hp
    · simp [GameState.with_winner]
  · exact state_ok_of_main _ hph

/-- Ending the turn preserves well-formedness. -/
theorem state_ok_end_turn (u : GameState) (h : state_ok u) :
    state_ok (end_turn u) := by
  obtain ⟨h1, h2, h3, h4⟩ := h
  refine ⟨fun hp => ?_, fun hp => ?_, fun hp => ?_, fun hp => ?_⟩ <;>
    simp only [end_turn_phase] at hp
  · simpa using h1 hp
  · obtain ⟨ss, hss, hne⟩ := h2 hp
    exact ⟨ss, by simpa using hss, hne⟩
  · obtain ⟨fs, hfs, hne⟩ := h3 hp
    exact ⟨fs, by simpa using hfs, by simpa using hne⟩
  · simpa using h4 hp

/-- The shared Main-return tail produces a well-formed state. -/
theorem state_ok_of_ite (c : Prop) [Decidable c] (u s' : GameState)
    (hph : u.phase = GamePhase.MAIN)
    (h : (if c then Except.ok (check_win u)
          else Except.ok (end_turn (check_win u)) : Except String GameState)
        = Except.ok s') :
    state_ok s' := by
  split at h <;> (simp only [Except.ok.injEq] at h; subst h)
  · exact state_ok_check_win_main _ hph
  · exact state_ok_end_turn _ (state_ok_check_win_main _ hph)

/-- The swapped variant of the shared tail, as `_execute_discard` writes it. -/
theorem state_ok_of_ite_swapped (c : Prop) [Decidable c] (u s' : GameState)
    (hph : u.phase = GamePhase.MAIN)
    (h : (if c then Except.ok (end_turn (check_win u))
          else Except.ok (check_win u) : Except String GameState)
        = Except.ok s') :
    state_ok s' := by
  split at h <;> (simp only [Except.ok.injEq] at h; subst h)
  · exact state_ok_end_turn _ (state_ok_check_win_main _ hph)
  · exact state_ok_check_win_main _ hph

theorem state_ok_permanent_tail (u : GameState) (hph : u.phase = GamePhase.MAIN) :
    state_ok (permanent_tail u) := by
  unfold permanent_tail
  dsimp only
  split
  · exact state_ok_check_win_main _ (by simp [hph])
  · exact state_ok_end_turn _ (state_ok_check_win_main _ (by simp [hph]))

theorem state_ok_decline_tail_counter (u : GameState)
    (hph : u.phase = GamePhase.COUNTER) : state_ok (decline_tail u) := by
  unfold decline_tail
  dsimp only
  rw [if_pos (by simp [hph])]
  split
  · exact state_ok_end_turn _ (state_ok_check_win_main _ (by simp))
  · exact state_ok_check_win_main _ (by simp)

theorem state_ok_seven_tail_main (u : GameState) (hph : u.phase = GamePhase.MAIN) :
    state_ok (seven_tail u) := by
  unfold seven_tail
  rw [if_neg (by simp [hph])]
  dsimp only
  split
  · exact state_ok_end_turn _ (state_ok_check_win_main _ hph)
  · exact state_ok_check_win_main _ hph

theorem state_ok_seven_tail_counter (u : GameState)
    (hph : u.phase = GamePhase.COUNTER) (hc : u.counter_state.isSome) :
    state_ok (seven_tail u) := by
  unfold seven_tail
  rw [if_pos hph]
  exact state_ok_of_counter_some _ hph hc

/-- Every successful step of the executor preserves phase-substate
well-formedness. -/
theorem state_ok_preserved (s : GameState) (m : Move) (s' : GameState)
    (h : execute_move s m = Except.ok s') : state_ok s' := by
  unfold execute_move at h
  split at h
  · cases h
  cases m
  case Draw =>
    dsimp only at h
    unfold execute_draw at h
    dsimp only at h
    split at h
    · cases h
    rename_i hph
    split at h
    · cases h
    simp only [Except.ok.injEq] at h
    subst h
    exact state_ok_end_turn _ (state_ok_of_main _ (by simp [not_not.mp hph]))
  case PlayPoints card =>
    dsimp only at h
    unfold execute_play_points at h
    dsimp only at h
    split at h
    · cases h
    rename_i hph
    split at h
    · cases h
    split at h
    · cases h
    exact state_ok_of_ite _ _ _ (by simp [not_not.mp hph]) h
  case Scuttle card target =>
    dsimp only at h
    unfold execute_scuttle at h
    dsimp only at h
    split at h
    · cases h
    rename_i hph
    split at h
    · cases h
    split at h
    · cases h
    split at h
    · cases h
    split at h
    · simp only [Except.ok.injEq] at h
      subst h
      exact state_ok_end_turn _ (state_ok_of_main _ (by simp [not_not.mp hph]))
    · split at h
      · cases h
      · simp only [Except.ok.injEq] at h
        subst h
        exact state_ok_end_turn _ (state_ok_of_main _ (by simp [not_not.mp hph]))
  case PlayOneOff card effect tc tp =>
    dsimp only at h
    unfold execute_play_one_off at h
    dsimp only at h
    split at h
    · cases h
    split at h
    · cases h
    simp only [Except.ok.injEq] at h
    subst h
    exact state_ok_of_counter_some _ (by simp) (by simp)
  case PlayPermanent card tc =>
    dsimp only at h
    unfold execute_play_permanent at h
    dsimp only at h
    split at h
    · cases h
    rename_i hph
    split at h
    · cases h
    split at h
    · split at h
      · cases h
      split at h
      · cases h
      split at h
      · simp only [Except.ok.injEq] at h
        subst h
        exact state_ok_permanent_tail _ (by simp [not_not.mp hph])
      · split at h
        · cases h
        · simp only [Except.ok.injEq] at h
          subst h
          exact state_ok_permanent_tail _ (by simp [not_not.mp hph])
    · simp only [Except.ok.injEq] at h
      subst h
      exact state_ok_permanent_tail _ (by simp [not_not.mp hph])
  case Counter card =>
    dsimp only at h
    unfold execute_counter at h
    dsimp only at h
    split at h
    · cases h
    rename_i hph
    split at h
    · cases h
    split at h
    · cases h
    split at h
    · cases h
    simp only [Except.ok.injEq] at h
    subst h
    exact state_ok_of_counter_some _ (by simp [not_not.mp hph]) (by simp)
  case DeclineCounter =>
    dsimp only at h
    unfold execute_decline_counter at h
    split at h
    · cases h
    rename_i hph
    have hphc : s.phase = GamePhase.COUNTER := not_not.mp hph
    split at h
    · cases h
    dsimp only at h
    split at h
    · cases h
    rename_i resolved heq
    simp only [Except.ok.injEq] at h
    subst h
    split at heq
    · rcases resolve_one_off_inv heq with ⟨hp, hw, hr, hcur, hcs, hd⟩
      rcases hd with ⟨hph2, _, _⟩ | ⟨hph2, hs7, ⟨fs, hfs, hhand⟩⟩ | ⟨hph2, hf4, ⟨ss, hss, hrev⟩⟩
      · exact state_ok_decline_tail_counter _ (by rw [hph2]; simpa using hphc)
      · have htl : decline_tail resolved = resolved.with_counter_state none := by
          unfold decline_tail
          dsimp only
          rw [if_neg (by simp [hph2])]
        rw [htl]
        refine state_ok_of_discard_four _ (by simp [hph2]) ⟨fs, by simp [hfs], ?_⟩
        simpa using hhand
      · have htl : decline_tail resolved = resolved.with_counter_state none := by
          unfold decline_tail
          dsimp only
          rw [if_neg (by simp [hph2])]
        rw [htl]
        exact state_ok_of_seven _ (by simp [hph2]) ⟨ss, by simp [hss], hrev⟩
    · simp only [Except.ok.injEq] at heq
      subst heq
      exact state_ok_decline_tail_counter _ (by simpa using hphc)
  case ResolveSeven card play_as tc =>
    dsimp only at h
    unfold execute_resolve_seven at h
    split at h
    · cases h
    split at h
    · cases h
    split at h
    · cases h
    dsimp only at h
    split at h
    · simp only [Except.ok.injEq] at h
      subst h
      exact state_ok_seven_tail_main _ (by simp)
    · split at h
      · cases h
      split at h
      · simp only [Except.ok.injEq] at h
        subst h
        exact state_ok_seven_tail_main _ (by simp)
      · cases h
    · simp only [Except.ok.injEq] at h
      subst h
      exact state_ok_seven_tail_counter _ (by simp) (by simp)
    · split at h
      · split at h
        · cases h
        split at h
        · simp only [Except.ok.injEq] at h
          subst h
          exact state_ok_seven_tail_main _ (by simp)
        · cases h
      · simp only [Except.ok.injEq] at h
        subst h
        exact state_ok_seven_tail_main _ (by simp)
    · simp only [Except.ok.injEq] at h
      subst h
      exact state_ok_seven_tail_main _ (by simp)
  case Discard card =>
    dsimp only at h
    unfold execute_discard at h
    split at h
    · cases h
    rename_i hph
    split at h
    · cases h
    dsimp only at h
    split at h
    · cases h
    split at h
    · rename_i hcond
      simp only [Except.ok.injEq] at h
      subst h
      refine state_ok_of_discard_four _ (by simp [not_not.mp hph]) ⟨_, rfl, ?_⟩
      dsimp only
      rw [with_four_player, with_scrap_player, set_player_player_self]
      simpa only [PlayerState.with_hand] using List.length_pos.mp hcond.2
    · exact state_ok_of_ite_swapped _ _ _ (by simp) h
  case Pass =>
    dsimp only at h
    unfold execute_pass at h
    split at h
    · cases h
    rename_i hph
    split at h
    · cases h
    dsimp only at h
    split at h
    · split at h
      · simp only [Except.ok.injEq] at h
        subst h
        exact state_ok_of_game_over _ (by simp [GameState.with_winner])
          (by simp [GameState.with_winner])
      · split at h
        · simp only [Except.ok.injEq] at h
          subst h
          exact state_ok_of_game_over _ (by simp [GameState.with_winner])
            (by simp [GameState.with_winner])
        · simp only [Except.ok.injEq] at h
          subst h
          exact state_ok_end_turn _ (state_ok_of_main _ (by simp [not_not.mp hph]))
    · simp only [Except.ok.injEq] at h
      subst h
      exact state_ok_end_turn _ (state_ok_of_main _ (by simp [not_not.mp hph]))

/-- Dealt initial states are well-formed. -/
theorem state_ok_initial (deck : List Card) : state_ok (create_initial_state deck) := by
  refine ⟨fun hp => ?_, fun hp => ?_, fun hp => ?_, fun hp => ?_⟩ <;> cases hp

/-- Every reachable state is well-formed. -/
theorem state_ok_reachable {s : GameState} (h : Reachable s) : state_ok s := by
  induction h with
  | init deck => exact state_ok_initial deck
  | step _ he _ => exact state_ok_preserved _ _ _ he

/-- C7: confirmed. Every reachable state with no winner has at least one
legal move; moreover the Main phase contains Draw (non-empty deck) or Pass
(empty deck), the Counter phase contains DeclineCounter, a revealed Seven card
with no legal play yields the Discard-tagged fallback, and in the DiscardFour
phase the discarding player's hand is non-empty. -/
theorem legal_moves_nonempty (s : GameState) (hr : Reachable s)
    (hwin : s.winner = none) :
    generate_legal_moves s ≠ []
      ∧ (s.phase = GamePhase.MAIN →
          (s.deck.length > 0 → Move.Draw ∈ generate_legal_moves s)
          ∧ (s.deck.length = 0 → Move.Pass ∈ generate_legal_moves s))
      ∧ (s.phase = GamePhase.COUNTER → Move.DeclineCounter ∈ generate_legal_moves s)
      ∧ (∀ ss, s.phase = GamePhase.RESOLVE_SEVEN → s.seven_state = some ss →
          ∀ c ∈ ss.revealed_cards, seven_card_moves s ss.player c = [] →
            Move.ResolveSeven c MoveType.DISCARD none ∈ generate_legal_moves s)
      ∧ (s.phase = GamePhase.DISCARD_FOUR →
          ∃ fs, s.four_state = some fs ∧ (s.player fs.player).hand ≠ []) := by
  obtain ⟨okc, oks, okf, okg⟩ := state_ok_reachable hr
  have hdraw : s.phase = GamePhase.MAIN → s.deck.length > 0 →
      Move.Draw ∈ generate_legal_moves s := by
    intro hph hd
    unfold generate_legal_moves
    simp only [GameState.is_game_over, hwin, Option.isSome_none, Bool.false_eq_true,
      if_false, hph]
    unfold generate_main_phase_moves
    refine List.mem_append_left _ (List.mem_append_left _ ?_)
    rw [if_pos hd]
    exact List.mem_singleton_self _
  have hpass : s.phase = GamePhase.MAIN → s.deck.length = 0 →
      Move.Pass ∈ generate_legal_moves s := by
    intro hph hd
    unfold generate_legal_moves
    simp only [GameState.is_game_over, hwin, Option.isSome_none, Bool.false_eq_true,
      if_false, hph]
    unfold generate_main_phase_moves
    refine List.mem_append_left _ (List.mem_append_right _ ?_)
    rw [if_pos hd]
    exact List.mem_singleton_self _
  have hdecline : s.phase = GamePhase.COUNTER →
      Move.DeclineCounter ∈ generate_legal_moves s := by
    intro hph
    obtain ⟨cs, hcs⟩ := Option.isSome_iff_exists.mp (okc hph)
    unfold generate_legal_moves
    simp only [GameState.is_game_over, hwin, Option.isSome_none, Bool.false_eq_true,
      if_false, hph]
    unfold generate_counter_phase_moves
    rw [hcs]
    exact List.mem_append_right _ (List.mem_singleton_self _)
  have hfallback : ∀ ss, s.phase = GamePhase.RESOLVE_SEVEN → s.seven_state = some ss →
      ∀ c ∈ ss.revealed_cards, seven_card_moves s ss.player c = [] →
        Move.ResolveSeven c MoveType.DISCARD none ∈ generate_legal_moves s := by
    intro ss hph hss c hc hempty
    unfold generate_legal_moves
    simp only [GameState.is_game_over, hwin, Option.isSome_none, Bool.false_eq_true,
      if_false, hph]
    unfold generate_seven_phase_moves
    rw [hss]
    refine List.mem_flatMap.mpr ⟨c, hc, ?_⟩
    dsimp only
    rw [hempty]
    simp
  refine ⟨?_, fun hph => ⟨hdraw hph, hpass hph⟩, hdecline, hfallback, okf⟩
  cases hph : s.phase with
  | MAIN =>
      by_cases hd : s.deck.length > 0
      · exact List.ne_nil_of_mem (hdraw hph hd)
      · exact List.ne_nil_of_mem (hpass hph (by omega))
  | COUNTER => exact List.ne_nil_of_mem (hdecline hph)
  | RESOLVE_SEVEN =>
      obtain ⟨ss, hss, hrev⟩ := oks hph
      obtain ⟨c, hc⟩ := List.exists_mem_of_ne_nil _ hrev
      by_cases hempty : seven_card_moves s ss.player c = []
      · exact List.ne_nil_of_mem (hfallback ss hph hss c hc hempty)
      · obtain ⟨mv, hmv⟩ := List.exists_mem_of_ne_nil _ hempty
        refine List.ne_nil_of_mem (show mv ∈ _ from ?_)
        unfold generate_legal_moves
        simp only [GameState.is_game_over, hwin, Option.isSome_none,
          Bool.false_eq_true, if_false, hph]
        unfold generate_seven_phase_moves
        rw [hss]
        refine List.mem_flatMap.mpr ⟨c, hc, ?_⟩
        dsimp only
        rw [if_neg (by simpa using hempty)]
        exact hmv
  | DISCARD_FOUR =>
      obtain ⟨fs, hfs, hhand⟩ := okf hph
      obtain ⟨c, hc⟩ := List.exists_mem_of_ne_nil _ hhand
      refine List.ne_nil_of_mem (show Move.Discard c ∈ _ from ?_)
      unfold generate_legal_moves
      simp only [GameState.is_game_over, hwin, Option.isSome_none,
        Bool.false_eq_true, if_false, hph]
      unfold generate_discard_phase_moves
      rw [hfs]
      exact List.mem_map.mpr ⟨c, hc, rfl⟩
  | GAME_OVER =>
      have hsome := okg hph
      rw [hwin] at hsome
      cases hsome

/-- Instance of C7 at a freshly dealt state: the move list is non-empty and
Draw is among the legal moves. -/
theorem legal_moves_nonempty_witness :
    generate_legal_moves dealt_state ≠ []
      ∧ Move.Draw ∈ generate_legal_moves dealt_state :=
  ⟨(legal_moves_nonempty dealt_state (Reachable.init create_deck) rfl).1,
   ((legal_moves_nonempty dealt_state (Reachable.init create_deck) rfl).2.1
     rfl).1 (by decide)⟩

/-! ## Queen-protection lemmas for Claim C4 -/

theorem other_ne : ∀ p : Player, other p ≠ p := by decide

/-- An unprotected card of a Queen-holding player must itself be a Queen. -/
theorem rank12_of_not_protected (p : PlayerState) (t : Card)
    (h : is_card_protected_by_queen p t = false) (hq : 0 < p.queens_count) :
    t.rank = 12 := by
  unfold is_card_protected_by_queen at h
  split at h
  · assumption
  · simp at h
    omega

/-- Every move `generate_one_off_moves` emits is a PlayOneOff. -/
theorem mem_one_off_shape {s : GameState} {card : Card} {m : Move}
    (h : m ∈ generate_one_off_moves s card) :
    ∃ c e t p, m = Move.PlayOneOff c e t p := by
  unfold generate_one_off_moves at h
  split at h
  · cases h
  split at h
  · -- Ace
    dsimp only at h
    split at h
    · rw [List.mem_singleton] at h
      exact ⟨_, _, _, _, h⟩
    · cases h
  · -- Two
    rcases List.mem_append.mp h with h1 | h1 <;>
      · obtain ⟨x, -, rfl⟩ := List.mem_map.mp h1
        exact ⟨_, _, _, _, rfl⟩
  · -- Three
    obtain ⟨x, -, rfl⟩ := List.mem_map.mp h
    exact ⟨_, _, _, _, rfl⟩
  · -- Four
    dsimp only at h
    split at h
    · rw [List.mem_singleton] at h
      exact ⟨_, _, _, _, h⟩
    · cases h
  · -- Five
    dsimp only at h
    split at h
    · rw [List.mem_singleton] at h
      exact ⟨_, _, _, _, h⟩
    · cases h
  · -- Six
    dsimp only at h
    split at h
    · rw [List.mem_singleton] at h
      exact ⟨_, _, _, _, h⟩
    · cases h
  · -- Seven
    dsimp only at h
    split at h
    · rw [List.mem_singleton] at h
      exact ⟨_, _, _, _, h⟩
    · cases h
  · -- Nine
    rcases List.mem_append.mp h with h1 | h1
    · rcases List.mem_append.mp h1 with h2 | h2
      · rcases List.mem_append.mp h2 with h3 | h3 <;>
          · obtain ⟨x, -, rfl⟩ := List.mem_map.mp h3
            exact ⟨_, _, _, _, rfl⟩
      · obtain ⟨x, -, rfl⟩ := List.mem_map.mp h2
        exact ⟨_, _, _, _, rfl⟩
    · obtain ⟨x, -, rfl⟩ := List.mem_map.mp h1
      exact ⟨_, _, _, _, rfl⟩
  · cases h

/-- Every move `generate_permanent_moves` emits is a PlayPermanent. -/
theorem mem_permanent_shape {s : GameState} {card : Card} {m : Move}
    (h : m ∈ generate_permanent_moves s card) :
    ∃ c t, m = Move.PlayPermanent c t := by
  unfold generate_permanent_moves at h
  split at h
  · cases h
  split at h
  · rw [List.mem_singleton] at h
    exact ⟨_, _, h⟩
  · rcases List.mem_append.mp h with h1 | h1 <;>
      · obtain ⟨x, -, rfl⟩ := List.mem_map.mp h1
        exact ⟨_, _, rfl⟩
  · rw [List.mem_singleton] at h
    exact ⟨_, _, h⟩
  · rw [List.mem_singleton] at h
    exact ⟨_, _, h⟩
  · cases h

/-- A targeted one-off against the opponent, emitted while the opponent has a
Queen, must target that Queen. -/
theorem one_off_target_queen {s : GameState} {card c t : Card} {e : OneOffEffect}
    (h : Move.PlayOneOff c e (some t) (some s.opponent)
      ∈ generate_one_off_moves s card)
    (hq : 0 < s.opponent_state.queens_count) : t.rank = 12 := by
  unfold generate_one_off_moves at h
  split at h
  · cases h
  split at h
  · -- Ace
    dsimp only at h
    split at h
    · rw [List.mem_singleton] at h
      cases h
    · cases h
  · -- Two
    rcases List.mem_append.mp h with h1 | h1 <;>
      · obtain ⟨x, hx, heq2⟩ := List.mem_map.mp h1
        obtain ⟨-, hfilt⟩ := List.mem_filter.mp hx
        injection heq2 with h1 h2 h3 h4
        obtain rfl := Option.some.inj h3
        exact rank12_of_not_protected _ _ (by simpa using hfilt) hq
  · -- Three
    obtain ⟨x, -, heq2⟩ := List.mem_map.mp h
    cases heq2
  · -- Four
    dsimp only at h
    split at h
    · rw [List.mem_singleton] at h
      cases h
    · cases h
  · -- Five
    dsimp only at h
    split at h
    · rw [List.mem_singleton] at h
      cases h
    · cases h
  · -- Six
    dsimp only at h
    split at h
    · rw [List.mem_singleton] at h
      cases h
    · cases h
  · -- Seven
    dsimp only at h
    split at h
    · rw [List.mem_singleton] at h
      cases h
    · cases h
  · -- Nine
    rcases List.mem_append.mp h with h1 | h1
    · rcases List.mem_append.mp h1 with h2 | h2
      · rcases List.mem_append.mp h2 with h3 | h3 <;>
          · obtain ⟨x, hx, heq2⟩ := List.mem_map.mp h3
            obtain ⟨-, hfilt⟩ := List.mem_filter.mp hx
            injection heq2 with h1 h2 h3 h4
            obtain rfl := Option.some.inj h3
            exact rank12_of_not_protected _ _ (by simpa using hfilt) hq
      · obtain ⟨x, -, heq2⟩ := List.mem_map.mp h2
        injection heq2 with h1 h2 h3 h4
        exact absurd (Option.some.inj h4) (by unfold GameState.opponent; exact (other_ne _).symm)
    · obtain ⟨x, -, heq2⟩ := List.mem_map.mp h1
      injection heq2 with h1 h2 h3 h4
      exact absurd (Option.some.inj h4) (by unfold GameState.opponent; exact (other_ne _).symm)
  · cases h

/-- A targeted permanent (a Jack steal), emitted while the opponent has a
Queen, must target that Queen. -/
theorem permanent_target_queen {s : GameState} {card c t : Card}
    (h : Move.PlayPermanent c (some t) ∈ generate_permanent_moves s card)
    (hq : 0 < s.opponent_state.queens_count) : t.rank = 12 := by
  unfold generate_permanent_moves at h
  split at h
  · cases h
  split at h
  · rw [List.mem_singleton] at h
    cases h
  · rcases List.mem_append.mp h with h1 | h1 <;>
      · obtain ⟨x, hx, heq2⟩ := List.mem_map.mp h1
        obtain ⟨-, hfilt⟩ := List.mem_filter.mp hx
        injection heq2 with h1 h2
        obtain rfl := Option.some.inj h2
        exact rank12_of_not_protected _ _ (by simpa using hfilt) hq
  · rw [List.mem_singleton] at h
    cases h
  · rw [List.mem_singleton] at h
    cases h
  · cases h

/-- A scuttleable target of a Queen-holding opponent must be a Queen. -/
theorem scuttle_target_queen {opp : PlayerState} {card t : Card}
    (h : t ∈ get_scuttleable_targets opp card) (hq : 0 < opp.queens_count) :
    t.rank = 12 := by
  unfold get_scuttleable_targets at h
  rcases List.mem_append.mp h with h1 | h1 <;>
    · obtain ⟨-, hfilt⟩ := List.mem_filter.mp h1
      simp only [Bool.and_eq_true, Bool.not_eq_true'] at hfilt
      exact rank12_of_not_protected _ _ hfilt.2 hq

/-- Counter-phase moves are Counters or the decline. -/
theorem mem_counter_shape {s : GameState} {m : Move}
    (h : m ∈ generate_counter_phase_moves s) :
    (∃ c, m = Move.Counter c) ∨ m = Move.DeclineCounter := by
  unfold generate_counter_phase_moves at h
  split at h
  · cases h
  · rcases List.mem_append.mp h with h1 | h1
    · obtain ⟨x, -, rfl⟩ := List.mem_map.mp h1
      exact Or.inl ⟨_, rfl⟩
    · rw [List.mem_singleton] at h1
      exact Or.inr h1

/-- Discard-phase moves are Discards. -/
theorem mem_discard_shape {s : GameState} {m : Move}
    (h : m ∈ generate_discard_phase_moves s) : ∃ c, m = Move.Discard c := by
  unfold generate_discard_phase_moves at h
  split at h
  · cases h
  · obtain ⟨x, -, rfl⟩ := List.mem_map.mp h
    exact ⟨_, rfl⟩

/-- Every seven-phase one-off option plays the given card as a one-off. -/
theorem seven_one_off_shape {s : GameState} {card : Card} {p : Player} {m : Move}
    (h : m ∈ generate_seven_one_off_options s card p) :
    ∃ t, m = Move.ResolveSeven card MoveType.PLAY_ONE_OFF t := by
  unfold generate_seven_one_off_options at h
  dsimp only at h
  split at h
  · -- Ace
    split at h
    · rw [List.mem_singleton] at h
      exact ⟨_, h⟩
    · cases h
  · -- Two
    rcases List.mem_append.mp h with h1 | h1 <;>
      · obtain ⟨x, -, rfl⟩ := List.mem_map.mp h1
        exact ⟨_, rfl⟩
  · -- Three
    obtain ⟨x, -, rfl⟩ := List.mem_map.mp h
    exact ⟨_, rfl⟩
  · -- Four
    split at h
    · rw [List.mem_singleton] at h
      exact ⟨_, h⟩
    · cases h
  · -- Five
    split at h
    · rw [List.mem_singleton] at h
      exact ⟨_, h⟩
    · cases h
  · -- Six
    split at h
    · rw [List.mem_singleton] at h
      exact ⟨_, h⟩
    · cases h
  · -- Seven
    split at h
    · rw [List.mem_singleton] at h
      exact ⟨_, h⟩
    · cases h
  · -- Nine
    rcases List.mem_append.mp h with h1 | h1
    · rcases List.mem_append.mp h1 with h2 | h2
      · rcases List.mem_append.mp h2 with h3 | h3 <;>
          · obtain ⟨x, -, rfl⟩ := List.mem_map.mp h3
            exact ⟨_, rfl⟩
      · obtain ⟨x, -, rfl⟩ := List.mem_map.mp h2
        exact ⟨_, rfl⟩
    · obtain ⟨x, -, rfl⟩ := List.mem_map.mp h1
      exact ⟨_, rfl⟩
  · cases h

/-- A targeted seven-phase one-off from a Two targets a Queen of the revealing
player's Queen-holding opponent. -/
theorem seven_two_target_queen {s : GameState} {card : Card} {p : Player}
    {t : Card}
    (h : Move.ResolveSeven card MoveType.PLAY_ONE_OFF (some t)
      ∈ generate_seven_one_off_options s card p)
    (hrank : card.rank = 2)
    (hq : 0 < (s.player (other p)).queens_count) : t.rank = 12 := by
  unfold generate_seven_one_off_options at h
  dsimp only at h
  split at h
  · -- Ace
    omega
  · -- Two
    rcases List.mem_append.mp h with h1 | h1 <;>
      · obtain ⟨x, hx, heq2⟩ := List.mem_map.mp h1
        obtain ⟨-, hfilt⟩ := List.mem_filter.mp hx
        injection heq2 with h1 h2 h3
        obtain rfl := Option.some.inj h3
        exact rank12_of_not_protected _ _ (by simpa using hfilt) hq
  · -- Three
    omega
  · -- Four
    omega
  · -- Five
    omega
  · -- Six
    omega
  · -- Seven
    omega
  · -- Nine
    omega
  · cases h

/-- Every seven-phase permanent option plays the given card as a permanent. -/
theorem seven_permanent_shape {s : GameState} {card : Card} {p : Player}
    {m : Move} (h : m ∈ generate_seven_permanent_options s card p) :
    ∃ t, m = Move.ResolveSeven card MoveType.PLAY_PERMANENT t := by
  unfold generate_seven_permanent_options at h
  dsimp only at h
  split at h
  · rw [List.mem_singleton] at h
    exact ⟨_, h⟩
  · rcases List.mem_append.mp h with h1 | h1 <;>
      · obtain ⟨x, -, rfl⟩ := List.mem_map.mp h1
        exact ⟨_, rfl⟩
  · rw [List.mem_singleton] at h
    exact ⟨_, h⟩
  · rw [List.mem_singleton] at h
    exact ⟨_, h⟩
  · cases h

/-- A targeted seven-phase permanent (a Jack steal) targets a Queen of the
revealing player's Queen-holding opponent. -/
theorem seven_permanent_target_queen {s : GameState} {card : Card} {p : Player}
    {t : Card}
    (h : Move.ResolveSeven card MoveType.PLAY_PERMANENT (some t)
      ∈ generate_seven_permanent_options s card p)
    (hq : 0 < (s.player (other p)).queens_count) : t.rank = 12 := by
  unfold generate_seven_permanent_options at h
  dsimp only at h
  split at h
  · rw [List.mem_singleton] at h
    cases h
  · rcases List.mem_append.mp h with h1 | h1 <;>
      · obtain ⟨x, hx, heq2⟩ := List.mem_map.mp h1
        obtain ⟨-, hfilt⟩ := List.mem_filter.mp hx
        injection heq2 with h1 h2 h3
        obtain rfl := Option.some.inj h3
        exact rank12_of_not_protected _ _ (by simpa using hfilt) hq
  · rw [List.mem_singleton] at h
    cases h
  · rw [List.mem_singleton] at h
    cases h
  · cases h

/-- Every seven-phase move resolves some revealed card. -/
theorem mem_seven_shape {s : GameState} {m : Move}
    (h : m ∈ generate_seven_phase_moves s) :
    ∃ c pa t, m = Move.ResolveSeven c pa t := by
  unfold generate_seven_phase_moves at h
  split at h
  · cases h
  · obtain ⟨card, -, hx⟩ := List.mem_flatMap.mp h
    dsimp only at hx
    split at hx
    · rw [List.mem_singleton] at hx
      exact ⟨_, _, _, hx⟩
    · unfold seven_card_moves at hx
      dsimp only at hx
      rcases List.mem_append.mp hx with h2 | h2
      · rcases List.mem_append.mp h2 with h3 | h3
        · split at h3
          · rcases List.mem_cons.mp h3 with h4 | h4
            · exact ⟨_, _, _, h4⟩
            · obtain ⟨x, -, rfl⟩ := List.mem_map.mp h4
              exact ⟨_, _, _, rfl⟩
          · cases h3
        · split at h3
          · obtain ⟨t, rfl⟩ := seven_one_off_shape h3
            exact ⟨_, _, _, rfl⟩
          · cases h3
      · split at h2
        · obtain ⟨t, rfl⟩ := seven_permanent_shape h2
          exact ⟨_, _, _, rfl⟩
        · cases h2

/-- Main-phase moves are never ResolveSeven moves. -/
theorem mem_main_not_resolve_seven {s : GameState} {m : Move}
    (h : m ∈ generate_main_phase_moves s) :
    ∀ c pa t, m ≠ Move.ResolveSeven c pa t := by
  intro c pa t hm
  subst hm
  unfold generate_main_phase_moves at h
  dsimp only at h
  rcases List.mem_append.mp h with h1 | h1
  · rcases List.mem_append.mp h1 with h2 | h2 <;>
      · split at h2
        · rw [List.mem_singleton] at h2
          cases h2
        · cases h2
  · obtain ⟨x, -, hx⟩ := List.mem_flatMap.mp h1
    rcases List.mem_append.mp hx with h2 | h2
    · rcases List.mem_append.mp h2 with h3 | h3
      · rcases List.mem_append.mp h3 with h4 | h4
        · split at h4
          · rw [List.mem_singleton] at h4
            cases h4
          · cases h4
        · split at h4
          · obtain ⟨y, -, heq⟩ := List.mem_map.mp h4
            cases heq
          · cases h4
      · obtain ⟨cc, e, tt, pp, heq⟩ := mem_one_off_shape h3
        cases heq
    · obtain ⟨cc, tt, heq⟩ := mem_permanent_shape h2
      cases heq

/-- Main-phase targeted moves against a Queen-holding opponent target Queens. -/
theorem main_targets_queen {s : GameState} {m : Move}
    (h : m ∈ generate_main_phase_moves s)
    (hq : 0 < s.opponent_state.queens_count) :
    (∀ c t, m = Move.Scuttle c t → t.rank = 12) ∧
    (∀ c e t, m = Move.PlayOneOff c e (some t) (some s.opponent) →
      t.rank = 12) ∧
    (∀ c t, m = Move.PlayPermanent c (some t) → t.rank = 12) := by
  unfold generate_main_phase_moves at h
  dsimp only at h
  rcases List.mem_append.mp h with h1 | h1
  · rcases List.mem_append.mp h1 with h2 | h2 <;>
      · split at h2
        · rw [List.mem_singleton] at h2
          subst h2
          exact ⟨fun c t he => (nomatch he), fun c e t he => (nomatch he),
            fun c t he => (nomatch he)⟩
        · cases h2
  · obtain ⟨card, -, hx⟩ := List.mem_flatMap.mp h1
    rcases List.mem_append.mp hx with h2 | h2
    · rcases List.mem_append.mp h2 with h3 | h3
      · rcases List.mem_append.mp h3 with h4 | h4
        · split at h4
          · rw [List.mem_singleton] at h4
            subst h4
            exact ⟨fun c t he => (nomatch he), fun c e t he => (nomatch he),
              fun c t he => (nomatch he)⟩
          · cases h4
        · split at h4
          · obtain ⟨x, hmem, rfl⟩ := List.mem_map.mp h4
            refine ⟨fun c t he => ?_, fun c e t he => (nomatch he),
              fun c t he => (nomatch he)⟩
            injection he with he1 he2
            exact he2 ▸ scuttle_target_queen hmem hq
          · cases h4
      · obtain ⟨cc, e, tt, pp, rfl⟩ := mem_one_off_shape h3
        refine ⟨fun c t he => (nomatch he), fun c e t he => ?_,
          fun c t he => (nomatch he)⟩
        exact one_off_target_queen (he ▸ h3) hq
    · obtain ⟨cc, tt, rfl⟩ := mem_permanent_shape h2
      refine ⟨fun c t he => (nomatch he), fun c e t he => (nomatch he),
        fun c t he => ?_⟩
      exact permanent_target_queen (he ▸ h2) hq

/-- Seven-phase targeted moves against the revealing player's Queen-holding
opponent target Queens (scuttles, permanents, and Two one-offs). -/
theorem seven_targets_queen {s : GameState} {ss : SevenState} {m : Move}
    (hss : s.seven_state = some ss)
    (h : m ∈ generate_seven_phase_moves s)
    (hq : 0 < (s.player (other ss.player)).queens_count) :
    (∀ c t, m = Move.ResolveSeven c MoveType.SCUTTLE (some t) →
      t.rank = 12) ∧
    (∀ c t, m = Move.ResolveSeven c MoveType.PLAY_PERMANENT (some t) →
      t.rank = 12) ∧
    (∀ c t, c.rank = 2 →
      m = Move.ResolveSeven c MoveType.PLAY_ONE_OFF (some t) →
      t.rank = 12) := by
  unfold generate_seven_phase_moves at h
  rw [hss] at h
  obtain ⟨card, -, hx⟩ := List.mem_flatMap.mp h
  dsimp only at hx
  split at hx
  · rw [List.mem_singleton] at hx
    subst hx
    exact ⟨fun c t he => (nomatch he), fun c t he => (nomatch he),
      fun c t _ he => (nomatch he)⟩
  · unfold seven_card_moves at hx
    dsimp only at hx
    rcases List.mem_append.mp hx with h2 | h2
    · rcases List.mem_append.mp h2 with h3 | h3
      · split at h3
        · rcases List.mem_cons.mp h3 with h4 | h4
          · subst h4
            exact ⟨fun c t he => (nomatch he), fun c t he => (nomatch he),
              fun c t _ he => (nomatch he)⟩
          · obtain ⟨x, hmem, rfl⟩ := List.mem_map.mp h4
            obtain ⟨-, hfilt⟩ := List.mem_filter.mp hmem
            refine ⟨fun c t he => ?_, fun c t he => (nomatch he),
              fun c t _ he => (nomatch he)⟩
            injection he with he1 he2 he3
            obtain rfl := Option.some.inj he3
            simp only [Bool.and_eq_true, Bool.not_eq_true'] at hfilt
            exact rank12_of_not_protected _ _ hfilt.2 hq
        · cases h3
      · split at h3
        · obtain ⟨tt, rfl⟩ := seven_one_off_shape h3
          refine ⟨fun c t he => (nomatch he), fun c t he => (nomatch he),
            fun c t hr he => ?_⟩
          injection he with he1 he2 he3
          subst he3
          have hcr : card.rank = 2 := by rw [he1]; exact hr
          exact seven_two_target_queen h3 hcr hq
        · cases h3
    · split at h2
      · obtain ⟨tt, rfl⟩ := seven_permanent_shape h2
        refine ⟨fun c t he => (nomatch he), fun c t he => ?_,
          fun c t _ he => (nomatch he)⟩
        injection he with he1 he2 he3
        subst he3
        exact seven_permanent_target_queen h2 hq
      · cases h2

/-- **Claim C4.** While a player holds at least one Queen among their
permanents, every targeted move the generator emits against that player — a
Scuttle target, a Two or opponent-directed Nine one-off target, a Jack-steal
target, and in the seven phase every scuttle target, permanent target, and
Two one-off target — is itself a Queen; Queens remain enumerable as targets,
an opponent Queen always being offered as a Two one-off target. -/
theorem queen_protection (s : GameState) : queen_protected_spec s := by
  refine ⟨?_, ?_, ?_⟩
  · intro hq m hm
    unfold generate_legal_moves at hm
    split at hm
    · cases hm
    · split at hm
      · exact main_targets_queen hm hq
      · rcases mem_counter_shape hm with ⟨c, rfl⟩ | rfl
        · exact ⟨fun c t he => (nomatch he), fun c e t he => (nomatch he),
            fun c t he => (nomatch he)⟩
        · exact ⟨fun c t he => (nomatch he), fun c e t he => (nomatch he),
            fun c t he => (nomatch he)⟩
      · obtain ⟨c, pa, t, rfl⟩ := mem_seven_shape hm
        exact ⟨fun c t he => (nomatch he), fun c e t he => (nomatch he),
          fun c t he => (nomatch he)⟩
      · obtain ⟨c, rfl⟩ := mem_discard_shape hm
        exact ⟨fun c t he => (nomatch he), fun c e t he => (nomatch he),
          fun c t he => (nomatch he)⟩
      · cases hm
  · intro ss hss hq m hm
    unfold generate_legal_moves at hm
    split at hm
    · cases hm
    · split at hm
      · have hns := mem_main_not_resolve_seven hm
        exact ⟨fun c t he => absurd he (hns c _ _),
          fun c t he => absurd he (hns c _ _),
          fun c t _ he => absurd he (hns c _ _)⟩
      · rcases mem_counter_shape hm with ⟨c, rfl⟩ | rfl
        · exact ⟨fun c t he => (nomatch he), fun c t he => (nomatch he),
            fun c t _ he => (nomatch he)⟩
        · exact ⟨fun c t he => (nomatch he), fun c t he => (nomatch he),
            fun c t _ he => (nomatch he)⟩
      · exact seven_targets_queen hss hm hq
      · obtain ⟨c, rfl⟩ := mem_discard_shape hm
        exact ⟨fun c t he => (nomatch he), fun c t he => (nomatch he),
          fun c t _ he => (nomatch he)⟩
      · cases hm
  · intro hph hgo q hqmem hq12 c hcmem hrank
    have hoo : c.can_play_as_one_off = true := by
      simp [Card.can_play_as_one_off, hrank]
    simp only [generate_legal_moves, hgo, hph, Bool.false_eq_true, if_false]
    unfold generate_main_phase_moves
    dsimp only
    refine List.mem_append_right _ (List.mem_flatMap.mpr ⟨c, hcmem, ?_⟩)
    refine List.mem_append_left _ (List.mem_append_right _ ?_)
    unfold generate_one_off_moves
    dsimp only
    rw [if_neg (by simp [hoo])]
    split
    · omega
    · refine List.mem_append_left _ (List.mem_map.mpr ⟨q, ?_, rfl⟩)
      refine List.mem_filter.mpr ⟨hqmem, ?_⟩
      simp [is_card_protected_by_queen, hq12]
    · omega
    · omega
    · omega
    · omega
    · omega
    · omega
    · trivial

theorem queen_protection_witness : queen_protected_spec queen_state :=
  queen_protection queen_state

/-! ## Win-check lemmas for Claim C3 -/

theorem check_winner_with_winner (s : GameState) (w : Option Player)
    (r : Option WinReason) : (s.with_winner w r).check_winner = s.check_winner := rfl

theorem check_winner_end_turn (s : GameState) :
    (end_turn s).check_winner = s.check_winner := rfl

/-- Applying `check_win` to a winnerless state yields a state that satisfies
the win-check post-condition. -/
theorem win_check_applied_check_win (u : GameState) (hwin : u.winner = none) :
    win_check_applied (check_win u) := by
  unfold check_win
  split
  · rename_i w r heq
    refine ⟨?_, fun _ => ?_, fun _ => ?_⟩
    · rw [check_winner_with_winner, heq]
      simp [GameState.with_winner]
    · rw [check_winner_with_winner, heq]
      simp [GameState.with_winner]
    · simp [GameState.with_winner]
  · rename_i r heq
    refine ⟨?_, fun hs => ?_, fun hs => ?_⟩
    · rw [heq, hwin]
    · rw [heq] at hs
      cases hs
    · rw [hwin] at hs
      cases hs

/-- Ending the turn preserves the win-check post-condition. -/
theorem win_check_applied_end_turn (u : GameState) (h : win_check_applied u) :
    win_check_applied (end_turn u) := by
  obtain ⟨h1, h2, h3⟩ := h
  refine ⟨?_, ?_, ?_⟩ <;>
    simp only [check_winner_end_turn, end_turn_winner, end_turn_win_reason,
      end_turn_phase]
  · exact h1
  · exact h2
  · exact h3

theorem win_check_applied_permanent_tail (u : GameState) (hwin : u.winner = none) :
    win_check_applied (permanent_tail u) := by
  unfold permanent_tail
  dsimp only
  split
  · exact win_check_applied_check_win _ (by simp [hwin])
  · exact win_check_applied_end_turn _ (win_check_applied_check_win _ (by simp [hwin]))

theorem win_check_applied_seven_tail (u : GameState) (hwin : u.winner = none)
    (hph : u.phase ≠ GamePhase.COUNTER) : win_check_applied (seven_tail u) := by
  unfold seven_tail
  dsimp only
  split
  · exact absurd (by assumption) hph
  · split
    · exact win_check_applied_end_turn _ (win_check_applied_check_win _ hwin)
    · exact win_check_applied_check_win _ hwin

theorem win_check_applied_decline_tail (u : GameState) (hwin : u.winner = none)
    (hph : u.phase = GamePhase.COUNTER) : win_check_applied (decline_tail u) := by
  unfold decline_tail
  dsimp only
  split
  · split
    · exact win_check_applied_end_turn _ (win_check_applied_check_win _ (by simp [hwin]))
    · exact win_check_applied_check_win _ (by simp [hwin])
  · rename_i hne
    exact absurd (by simpa using hph) hne

/-- The executor's shared win-check-then-end-turn tail. -/
theorem win_check_applied_of_ite (c : Prop) [Decidable c] (u s' : GameState)
    (hwin : u.winner = none)
    (h : (if c then Except.ok (check_win u)
          else Except.ok (end_turn (check_win u)) : Except String GameState)
        = Except.ok s') :
    win_check_applied s' := by
  split at h <;> (simp only [Except.ok.injEq] at h; subst h)
  · exact win_check_applied_check_win _ hwin
  · exact win_check_applied_end_turn _ (win_check_applied_check_win _ hwin)

/-- The same tail with the branches swapped, as `_execute_discard` writes it. -/
theorem win_check_applied_of_ite_swapped (c : Prop) [Decidable c] (u s' : GameState)
    (hwin : u.winner = none)
    (h : (if c then Except.ok (end_turn (check_win u))
          else Except.ok (check_win u) : Except String GameState)
        = Except.ok s') :
    win_check_applied s' := by
  split at h <;> (simp only [Except.ok.injEq] at h; subst h)
  · exact win_check_applied_end_turn _ (win_check_applied_check_win _ hwin)
  · exact win_check_applied_check_win _ hwin

/-- C3 as amended: the win check (player 0's threshold before player 1's,
then the empty-deck rules, with a set winner forcing GAME_OVER) is applied
after every successful PlayPoints and PlayPermanent, after a DeclineCounter
that does not enter the DiscardFour or ResolveSeven phase, after the final
Discard, and after a non-one-off ResolveSeven — but not after Scuttle, which
ends the turn without any win check. -/
theorem win_check_after_checked_moves (s : GameState) (m : Move) (s' : GameState)
    (h : execute_move s m = Except.ok s')
    (hm : (∃ c, m = Move.PlayPoints c) ∨ (∃ c tc, m = Move.PlayPermanent c tc)
        ∨ (m = Move.DeclineCounter ∧ s'.phase ≠ GamePhase.DISCARD_FOUR
            ∧ s'.phase ≠ GamePhase.RESOLVE_SEVEN)
        ∨ ((∃ c, m = Move.Discard c) ∧ s'.phase ≠ GamePhase.DISCARD_FOUR)
        ∨ ((∃ c pa tc, m = Move.ResolveSeven c pa tc)
            ∧ s'.phase ≠ GamePhase.COUNTER)) :
    win_check_applied s' := by
  unfold execute_move at h
  split at h
  · cases h
  rename_i hngo
  have hwin : s.winner = none := by
    cases hw : s.winner with
    | none => rfl
    | some w => exact absurd (by simp [GameState.is_game_over, hw]) hngo
  cases m
  case PlayPoints card =>
    dsimp only at h
    unfold execute_play_points at h
    dsimp only at h
    split at h
    · cases h
    split at h
    · cases h
    split at h
    · cases h
    exact win_check_applied_of_ite _ _ _ (by simp [hwin]) h
  case PlayPermanent card tc =>
    dsimp only at h
    unfold execute_play_permanent at h
    dsimp only at h
    split at h
    · cases h
    split at h
    · cases h
    split at h
    · split at h
      · cases h
      split at h
      · cases h
      split at h
      · simp only [Except.ok.injEq] at h
        subst h
        exact win_check_applied_permanent_tail _ (by simp [hwin])
      · split at h
        · cases h
        · simp only [Except.ok.injEq] at h
          subst h
          exact win_check_applied_permanent_tail _ (by simp [hwin])
    · simp only [Except.ok.injEq] at h
      subst h
      exact win_check_applied_permanent_tail _ (by simp [hwin])
  case DeclineCounter =>
    dsimp only at h
    rcases hm with ⟨c, hc⟩ | ⟨c, tc, hc⟩ | ⟨_, hm1, hm2⟩ | ⟨⟨c, hc⟩, _⟩ | ⟨⟨c, pa, tc, hc⟩, _⟩
    · cases hc
    · cases hc
    · unfold execute_decline_counter at h
      split at h
      · cases h
      rename_i hph
      have hphc : s.phase = GamePhase.COUNTER := not_not.mp hph
      split at h
      · cases h
      dsimp only at h
      split at h
      · cases h
      rename_i resolved heq
      simp only [Except.ok.injEq] at h
      subst h
      split at heq
      · rcases resolve_one_off_inv heq with ⟨hp, hw, hr, hcur, hcs, hd⟩
        rcases hd with ⟨hph2, _, _⟩ | ⟨hph2, _, _⟩ | ⟨hph2, _, _⟩
        · apply win_check_applied_decline_tail
          · rw [hw]
            simp [hwin]
          · rw [hph2]
            simpa using hphc
        · exfalso
          apply hm1
          unfold decline_tail
          dsimp only
          rw [if_neg (by simp [hph2])]
          simp [hph2]
        · exfalso
          apply hm2
          unfold decline_tail
          dsimp only
          rw [if_neg (by simp [hph2])]
          simp [hph2]
      · simp only [Except.ok.injEq] at heq
        subst heq
        apply win_check_applied_decline_tail
        · simp [hwin]
        · simpa using hphc
    · cases hc
    · cases hc
  case Discard card =>
    dsimp only at h
    rcases hm with ⟨c, hc⟩ | ⟨c, tc, hc⟩ | ⟨hc, _, _⟩ | ⟨⟨c, hc⟩, hm1⟩ | ⟨⟨c, pa, tc, hc⟩, _⟩
    · cases hc
    · cases hc
    · cases hc
    · unfold execute_discard at h
      split at h
      · cases h
      rename_i hph
      have hphd : s.phase = GamePhase.DISCARD_FOUR := not_not.mp hph
      split at h
      · cases h
      dsimp only at h
      split at h
      · cases h
      split at h
      · simp only [Except.ok.injEq] at h
        subst h
        exact absurd (by simp [hphd]) hm1
      · exact win_check_applied_of_ite_swapped _ _ _ (by simp [hwin]) h
    · cases hc
  case ResolveSeven card play_as tc =>
    dsimp only at h
    rcases hm with ⟨c, hc⟩ | ⟨c, tc2, hc⟩ | ⟨hc, _, _⟩ | ⟨⟨c, hc⟩, _⟩ | ⟨_, hm1⟩
    · cases hc
    · cases hc
    · cases hc
    · cases hc
    · unfold execute_resolve_seven at h
      split at h
      · cases h
      split at h
      · cases h
      split at h
      · cases h
      dsimp only at h
      split at h
      · simp only [Except.ok.injEq] at h
        subst h
        exact win_check_applied_seven_tail _ (by simp [hwin]) (by simp)
      · split at h
        · cases h
        split at h
        · simp only [Except.ok.injEq] at h
          subst h
          exact win_check_applied_seven_tail _ (by simp [hwin]) (by simp)
        · cases h
      · simp only [Except.ok.injEq] at h
        subst h
        exact absurd (by simp [seven_tail]) hm1
      · split at h
        · split at h
          · cases h
          split at h
          · simp only [Except.ok.injEq] at h
            subst h
            exact win_check_applied_seven_tail _ (by simp [hwin]) (by simp)
          · cases h
        · simp only [Except.ok.injEq] at h
          subst h
          exact win_check_applied_seven_tail _ (by simp [hwin]) (by simp)
      · simp only [Except.ok.injEq] at h
        subst h
        exact win_check_applied_seven_tail _ (by simp [hwin]) (by simp)
  all_goals
    rcases hm with ⟨c, hc⟩ | ⟨c, tc2, hc⟩ | ⟨hc, _, _⟩ | ⟨⟨c, hc⟩, _⟩ | ⟨⟨c, pa, tc2, hc⟩, _⟩ <;>
      cases hc

/-- Instance of the amended C3: the winning King play at `king_win_state`
produces a state with the win check applied (winner 0, reason Points,
GAME_OVER). -/
theorem win_check_after_checked_moves_witness : win_check_applied king_win_result :=
  win_check_after_checked_moves king_win_state king_win_move king_win_result rfl
    (Or.inr (Or.inl ⟨⟨13, 3⟩, none, rfl⟩))

/-! ## Claim C6 counterexample -/

/-- C6: refuted for DeclineCounter. From a Counter-phase state with
`consecutive_passes = 1`, DeclineCounter is generated and succeeds but leaves
the pass counter at 1 instead of resetting it to 0. -/
theorem decline_counter_keeps_passes :
    Move.DeclineCounter ∈ generate_legal_moves counter_pass_state
      ∧ (execute_move counter_pass_state Move.DeclineCounter).toOption.map
          (fun s => s.consecutive_passes) = some 1 := by
  decide

/-- C6 as amended: a successful Main-phase move (Draw, PlayPoints, Scuttle,
PlayOneOff, PlayPermanent) leaves the successor with `consecutive_passes = 0`,
but Counter, DeclineCounter, ResolveSeven and Discard do not reset the
counter: they leave it exactly as it was. -/
theorem non_pass_moves_pass_counter (s : GameState) (m : Move) (s' : GameState)
    (h : execute_move s m = Except.ok s') :
    ((m = Move.Draw ∨ (∃ c, m = Move.PlayPoints c) ∨ (∃ c t, m = Move.Scuttle c t)
        ∨ (∃ c e tc tp, m = Move.PlayOneOff c e tc tp)
        ∨ (∃ c tc, m = Move.PlayPermanent c tc))
      → s'.consecutive_passes = 0)
    ∧ (((∃ c, m = Move.Counter c) ∨ m = Move.DeclineCounter
        ∨ (∃ c pa tc, m = Move.ResolveSeven c pa tc) ∨ (∃ c, m = Move.Discard c))
      → s'.consecutive_passes = s.consecutive_passes) := by
  unfold execute_move at h
  split at h
  · cases h
  cases m
  case Draw =>
    dsimp only at h
    refine ⟨fun _ => ?_, ?_⟩
    · unfold execute_draw at h
      dsimp only at h
      repeat' (first | split at h | dsimp only at h)
      all_goals
        first
          | (simp only [Except.ok.injEq] at h; subst h; simp)
          | cases h
    · rintro (⟨c, hc⟩ | hc | ⟨c, pa, tc, hc⟩ | ⟨c, hc⟩) <;> cases hc
  case PlayPoints card =>
    dsimp only at h
    refine ⟨fun _ => ?_, ?_⟩
    · unfold execute_play_points at h
      dsimp only at h
      repeat' (first | split at h | dsimp only at h)
      all_goals
        first
          | (simp only [Except.ok.injEq] at h; subst h; simp)
          | cases h
    · rintro (⟨c, hc⟩ | hc | ⟨c, pa, tc, hc⟩ | ⟨c, hc⟩) <;> cases hc
  case Scuttle card target =>
    dsimp only at h
    refine ⟨fun _ => ?_, ?_⟩
    · unfold execute_scuttle at h
      dsimp only at h
      repeat' (first | split at h | dsimp only at h)
      all_goals
        first
          | (simp only [Except.ok.injEq] at h; subst h; simp)
          | cases h
    · rintro (⟨c, hc⟩ | hc | ⟨c, pa, tc, hc⟩ | ⟨c, hc⟩) <;> cases hc
  case PlayOneOff card effect tc tp =>
    dsimp only at h
    refine ⟨fun _ => ?_, ?_⟩
    · unfold execute_play_one_off at h
      dsimp only at h
      repeat' (first | split at h | dsimp only at h)
      all_goals
        first
          | (simp only [Except.ok.injEq] at h; subst h; simp)
          | cases h
    · rintro (⟨c, hc⟩ | hc | ⟨c, pa, tc2, hc⟩ | ⟨c, hc⟩) <;> cases hc
  case PlayPermanent card tc =>
    dsimp only at h
    refine ⟨fun _ => ?_, ?_⟩
    · unfold execute_play_permanent at h
      dsimp only at h
      repeat' (first | split at h | dsimp only at h)
      all_goals
        first
          | (simp only [Except.ok.injEq] at h; subst h; simp)
          | cases h
    · rintro (⟨c, hc⟩ | hc | ⟨c, pa, tc2, hc⟩ | ⟨c, hc⟩) <;> cases hc
  case Counter card =>
    dsimp only at h
    refine ⟨?_, fun _ => ?_⟩
    · rintro (hc | ⟨c, hc⟩ | ⟨c, t, hc⟩ | ⟨c, e, tc2, tp, hc⟩ | ⟨c, tc2, hc⟩) <;> cases hc
    · unfold execute_counter at h
      dsimp only at h
      repeat' (first | split at h | dsimp only at h)
      all_goals
        first
          | (simp only [Except.ok.injEq] at h; subst h; simp)
          | cases h
  case DeclineCounter =>
    dsimp only at h
    refine ⟨?_, fun _ => ?_⟩
    · rintro (hc | ⟨c, hc⟩ | ⟨c, t, hc⟩ | ⟨c, e, tc2, tp, hc⟩ | ⟨c, tc2, hc⟩) <;> cases hc
    · unfold execute_decline_counter at h
      split at h
      · cases h
      split at h
      · cases h
      dsimp only at h
      split at h
      · cases h
      · rename_i resolved heq
        simp only [Except.ok.injEq] at h
        subst h
        rw [decline_tail_passes]
        split at heq
        · simpa using (resolve_one_off_inv heq).1
        · simp only [Except.ok.injEq] at heq
          subst heq
          simp
  case ResolveSeven card play_as tc =>
    dsimp only at h
    refine ⟨?_, fun _ => ?_⟩
    · rintro (hc | ⟨c, hc⟩ | ⟨c, t, hc⟩ | ⟨c, e, tc2, tp, hc⟩ | ⟨c, tc2, hc⟩) <;> cases hc
    · unfold execute_resolve_seven at h
      dsimp only at h
      repeat' (first | split at h | dsimp only at h)
      all_goals
        first
          | (simp only [Except.ok.injEq] at h; subst h; simp)
          | cases h
  case Discard card =>
    dsimp only at h
    refine ⟨?_, fun _ => ?_⟩
    · rintro (hc | ⟨c, hc⟩ | ⟨c, t, hc⟩ | ⟨c, e, tc2, tp, hc⟩ | ⟨c, tc2, hc⟩) <;> cases hc
    · unfold execute_discard at h
      dsimp only at h
      repeat' (first | split at h | dsimp only at h)
      all_goals
        first
          | (simp only [Except.ok.injEq] at h; subst h; simp)
          | cases h
  case Pass =>
    refine ⟨?_, ?_⟩
    · rintro (hc | ⟨c, hc⟩ | ⟨c, t, hc⟩ | ⟨c, e, tc2, tp, hc⟩ | ⟨c, tc2, hc⟩) <;> cases hc
    · rintro (⟨c, hc⟩ | hc | ⟨c, pa, tc2, hc⟩ | ⟨c, hc⟩) <;> cases hc

/-- Instance of the amended C6: the DeclineCounter at `counter_pass_state`
leaves the counter at its prior value. -/
theorem non_pass_moves_pass_counter_witness :
    ((Move.DeclineCounter = Move.Draw
        ∨ (∃ c, Move.DeclineCounter = Move.PlayPoints c)
        ∨ (∃ c t, Move.DeclineCounter = Move.Scuttle c t)
        ∨ (∃ c e tc tp, Move.DeclineCounter = Move.PlayOneOff c e tc tp)
        ∨ (∃ c tc, Move.DeclineCounter = Move.PlayPermanent c tc))
      → (decline_result_state).consecutive_passes = 0)
    ∧ (((∃ c, Move.DeclineCounter = Move.Counter c) ∨ Move.DeclineCounter = Move.DeclineCounter
        ∨ (∃ c pa tc, Move.DeclineCounter = Move.ResolveSeven c pa tc)
        ∨ (∃ c, Move.DeclineCounter = Move.Discard c))
      → (decline_result_state).consecutive_passes
          = counter_pass_state.consecutive_passes) :=
  non_pass_moves_pass_counter counter_pass_state Move.DeclineCounter
    decline_result_state rfl

/-! ## Claim C8 counterexample -/

/-- C8: refuted for a winning King play. Both moves are generated; the King
play immediately wins with reason Points and the Jack steal does not win, yet
the heuristic scores the King play 600 and the Jack steal 750. -/
theorem winning_king_scores_below_jack_steal :
    king_win_move ∈ generate_legal_moves king_win_state
      ∧ jack_steal_move ∈ generate_legal_moves king_win_state
      ∧ (execute_move king_win_state king_win_move).toOption.map
          (fun s => (s.winner, s.win_reason))
        = some (some 0, some WinReason.POINTS)
      ∧ (execute_move king_win_state jack_steal_move).toOption.map
          (fun s => s.winner) = some none
      ∧ score king_win_state king_win_move = 600
      ∧ score king_win_state jack_steal_move = 750 := by
  decide

/-! ## Claim C8 amended: a winning points play outscores every other move -/

/-- A card is worth at most 10 points. -/
theorem point_value_le (c : Card) : c.point_value ≤ 10 := by
  unfold Card.point_value
  split <;> omega

/-- The best-revive fold never exceeds 600. -/
theorem best_revive_aux (l : List Card) : ∀ acc : Int, acc ≤ 600 →
    List.foldl
      (fun acc c =>
        if c.rank = 11 then max acc 600
        else if c.rank = 10 then max acc 550
        else if c.rank = 13 then max acc 500
        else if c.point_value ≥ 8 then max acc (400 + (c.point_value : Int) * 10)
        else if c.point_value ≥ 7 then max acc 300
        else acc)
      acc l ≤ 600 := by
  induction l with
  | nil => intro acc h; simpa using h
  | cons c rest ih =>
      intro acc h
      rw [List.foldl_cons]
      apply ih
      have hpv : c.point_value ≤ 10 := point_value_le c
      repeat' split
      all_goals omega

/-- The Three-revive base score is bounded by a Jack revive. -/
theorem best_revive_score_le (scrap : List Card) :
    best_revive_score scrap ≤ 600 := by
  unfold best_revive_score
  exact best_revive_aux scrap 0 (by norm_num)

/-- Every non-winning move scores at most 5000. -/
theorem score_nonwinning_le (s : GameState) (m : Move)
    (h : ¬ winning_points_play s m) : score s m ≤ 5000 := by
  unfold winning_points_play at h
  unfold score score_move
  cases m with
  | PlayPoints c =>
      dsimp only at h ⊢
      rw [if_neg h]
      have hpv : c.point_value ≤ 10 := point_value_le c
      repeat' split
      all_goals omega
  | Scuttle c t =>
      dsimp only
      have h1 : c.point_value ≤ 10 := point_value_le c
      have h2 : t.point_value ≤ 10 := point_value_le t
      repeat' split
      all_goals omega
  | PlayPermanent c t =>
      dsimp only
      have h1 : (t.getD ⟨0, 0⟩).point_value ≤ 10 := point_value_le _
      repeat' split
      all_goals omega
  | PlayOneOff c e t p =>
      dsimp only
      have h1 := best_revive_score_le s.scrap
      cases e <;> dsimp only
      all_goals repeat' split
      all_goals omega
  | Counter c =>
      dsimp only
      split
      · repeat' split
        all_goals omega
      · omega
  | DeclineCounter =>
      dsimp only
      split
      · repeat' split
        all_goals omega
      · omega
  | Draw => dsimp only; omega
  | Pass => dsimp only; omega
  | Discard c =>
      dsimp only
      have h1 : c.point_value ≤ 10 := point_value_le c
      omega
  | ResolveSeven c pa t =>
      dsimp only at h ⊢
      have h1 : c.point_value ≤ 10 := point_value_le c
      have h2 : (t.getD ⟨0, 0⟩).point_value ≤ 10 := point_value_le _
      split
      · repeat' split
        all_goals omega
      · split
        · rename_i hno hpa
          split
          · rename_i hcond
            exact absurd ⟨hpa, hcond⟩ h
          · omega
        · split
          · cases t with
            | none => dsimp only; omega
            | some u =>
                dsimp only
                have h3 : u.point_value ≤ 10 := point_value_le u
                omega
          · repeat' split
            all_goals omega

/-- A winning points play scores exactly 10000. -/
theorem score_winning_eq (s : GameState) (m : Move)
    (h : winning_points_play s m) : score s m = 10000 := by
  unfold winning_points_play at h
  unfold score score_move
  cases m with
  | PlayPoints c =>
      dsimp only at h ⊢
      exact if_pos h
  | Scuttle c t => exact (h : False).elim
  | PlayPermanent c t => exact (h : False).elim
  | PlayOneOff c e t p => exact (h : False).elim
  | Counter c => exact (h : False).elim
  | DeclineCounter => exact (h : False).elim
  | Draw => exact (h : False).elim
  | Pass => exact (h : False).elim
  | Discard c => exact (h : False).elim
  | ResolveSeven c pa t =>
      dsimp only at h ⊢
      obtain ⟨hpa, hwin⟩ := h
      subst hpa
      rw [if_neg (by decide : ¬ (MoveType.PLAY_POINTS = MoveType.PLAY_ONE_OFF)),
        if_pos rfl, if_pos hwin]

/-- **Claim C8 (amended).** A move the scorer recognises as an immediately
winning points play (a PlayPoints or seven-phase points play reaching the
acting player's threshold) scores strictly higher than every move that is not
such a play; the original claim fails for winning King plays and winning Jack
steals, which the scorer does not recognise (see the counterexample). -/
theorem winning_points_play_scores_highest (s : GameState) (m1 m2 : Move)
    (h1 : winning_points_play s m1) (h2 : ¬ winning_points_play s m2) :
    score s m2 < score s m1 := by
  have e1 : score s m1 = 10000 := score_winning_eq s m1 h1
  have e2 : score s m2 ≤ 5000 := score_nonwinning_le s m2 h2
  omega

theorem winning_points_play_scores_highest_witness :
    winning_points_play king_win_state (Move.PlayPoints ⟨10, 0⟩)
      ∧ ¬ winning_points_play king_win_state Move.Pass
      ∧ score king_win_state Move.Pass
          < score king_win_state (Move.PlayPoints ⟨10, 0⟩) := by
  have h1 : winning_points_play king_win_state (Move.PlayPoints ⟨10, 0⟩) := by
    unfold winning_points_play
    decide
  have h2 : ¬ winning_points_play king_win_state Move.Pass := by
    unfold winning_points_play
    decide
  exact ⟨h1, h2, winning_points_play_scores_highest _ _ _ h1 h2⟩

/-! ## Claim C10 -/

/-- C10: confirmed. In a non-terminal Main-phase state, a Nine in the current
player's hand yields a NINE_RETURN_PERMANENT PlayOneOff with
`target_player = current_player` for every own permanent and for every Jack of
the current player's jack pairs; no hypothesis on the current player's Queens
is needed, so these own-side targets are never Queen-filtered. -/
theorem nine_enumerates_own_board_targets (s : GameState) (nine t j stolen : Card)
    (hwin : s.winner = none) (hphase : s.phase = GamePhase.MAIN)
    (hhand : nine ∈ (s.player s.current_player).hand) (hrank : nine.rank = 9) :
    (t ∈ (s.player s.current_player).permanents →
      Move.PlayOneOff nine OneOffEffect.NINE_RETURN_PERMANENT (some t)
        (some s.current_player) ∈ generate_legal_moves s)
    ∧ ((j, stolen) ∈ (s.player s.current_player).jacks →
      Move.PlayOneOff nine OneOffEffect.NINE_RETURN_PERMANENT (some j)
        (some s.current_player) ∈ generate_legal_moves s) := by
  have hlegal : generate_legal_moves s = generate_main_phase_moves s := by
    unfold generate_legal_moves GameState.is_game_over
    rw [hwin, hphase]
    simp
  have hmem : ∀ mv : Move, mv ∈ generate_one_off_moves s nine →
      mv ∈ generate_legal_moves s := by
    intro mv hmv
    rw [hlegal]
    unfold generate_main_phase_moves
    refine List.mem_append_right _ ?_
    exact List.mem_flatMap.mpr ⟨nine, hhand,
      List.mem_append_left _ (List.mem_append_right _ hmv)⟩
  have h9 : nine.can_play_as_one_off = true := by
    simp [Card.can_play_as_one_off, hrank]
  constructor
  · intro ht
    apply hmem
    unfold generate_one_off_moves
    simp only [h9, hrank, not_true_eq_false, if_false]
    refine List.mem_append_left _ (List.mem_append_right _ ?_)
    exact List.mem_map.mpr ⟨t, ht, rfl⟩
  · intro hj
    apply hmem
    unfold generate_one_off_moves
    simp only [h9, hrank, not_true_eq_false, if_false]
    refine List.mem_append_right _ ?_
    exact List.mem_map.mpr ⟨j, List.mem_map.mpr ⟨(j, stolen), hj, rfl⟩, rfl⟩

/-- Instance of C10 at `nine_own_state`: the Nine of Clubs targets the own
Eight of Spades and the own Jack of Clubs even though the player has a Queen. -/
theorem nine_enumerates_own_board_targets_witness :
    Move.PlayOneOff ⟨9, 0⟩ OneOffEffect.NINE_RETURN_PERMANENT (some ⟨8, 3⟩)
        (some 0) ∈ generate_legal_moves nine_own_state
      ∧ Move.PlayOneOff ⟨9, 0⟩ OneOffEffect.NINE_RETURN_PERMANENT (some ⟨11, 0⟩)
        (some 0) ∈ generate_legal_moves nine_own_state :=
  ⟨(nine_enumerates_own_board_targets nine_own_state ⟨9, 0⟩ ⟨8, 3⟩ ⟨11, 0⟩ ⟨5, 2⟩
      rfl rfl (by decide) rfl).1 (by decide),
   (nine_enumerates_own_board_targets nine_own_state ⟨9, 0⟩ ⟨8, 3⟩ ⟨11, 0⟩ ⟨5, 2⟩
      rfl rfl (by decide) rfl).2 (by decide)⟩

/-! ## Claim C9 counterexample -/

/-- C9: refuted at the root. Backpropagating a win over a two-node path whose
last element is the root (its `player_just_moved` is `none`) increments the
non-root node's visit count from 3 to 4 but leaves the root's visit count at
10: the root is not visited at all, contradicting the claimed increment. -/
theorem root_visits_not_incremented :
    (backprop (some 1)
        [⟨3, 1, some 0⟩, ⟨10, 5, none⟩]).map (fun n => n.visits) = [4, 10] := by
  decide

/-- Backpropagation over a path ending in the root rewrites the strict
ancestors with `updated_path` and leaves the root untouched. -/
theorem backprop_eq_updated_path (r : Option Rat) (pre : List NodeStats)
    (root : NodeStats) (hroot : root.player_just_moved = none)
    (hpre : ∀ n ∈ pre, n.player_just_moved.isSome = true) :
    backprop r (pre ++ [root]) = updated_path r pre ++ [root] := by
  revert hpre
  induction pre generalizing r with
  | nil =>
      intro _
      simp [backprop, updated_path, hroot]
  | cons n t ih =>
      intro hpre
      have hn : n.player_just_moved.isSome = true := hpre n (by simp)
      have ht : ∀ x ∈ t, x.player_just_moved.isSome = true :=
        fun x hx => hpre x (by simp [hx])
      simp only [List.cons_append, backprop, updated_path, hn, if_true, List.append_eq]
      rw [ih _ ht]

/-- Each node rewritten by `updated_path` has its visit count incremented by
exactly one. -/
theorem updated_path_visits (r : Option Rat) (pre : List NodeStats) :
    (updated_path r pre).map (fun n => n.visits)
      = pre.map (fun n => n.visits + 1) := by
  induction pre generalizing r with
  | nil => simp [updated_path]
  | cons n t ih => simp [updated_path, NodeStats.update, ih]

/-- C9 as amended: on a backpropagation pass over the path from the expansion
node (head) to the root (last element, the only node with no
`player_just_moved`), every non-root node is updated — visits incremented by
exactly one and the running win credit added, the credit flipping at each
level (the content of `updated_path`) — while the root receives neither a
visit increment nor any win sum: it is left entirely untouched. -/
theorem backprop_updates_ancestors_root_untouched (r : Option Rat)
    (pre : List NodeStats) (root : NodeStats)
    (hroot : root.player_just_moved = none)
    (hpre : ∀ n ∈ pre, n.player_just_moved.isSome = true) :
    backprop r (pre ++ [root]) = updated_path r pre ++ [root]
      ∧ (updated_path r pre).map (fun n => n.visits)
          = pre.map (fun n => n.visits + 1) :=
  ⟨backprop_eq_updated_path r pre root hroot hpre, updated_path_visits r pre⟩

/-- Instance of the amended C9 on a concrete three-node path. -/
theorem backprop_updates_ancestors_root_untouched_witness :
    backprop (some 1)
        (([⟨3, 1, some 0⟩, ⟨7, 2, some 1⟩] : List NodeStats) ++ [⟨10, 5, none⟩])
        = updated_path (some 1) [⟨3, 1, some 0⟩, ⟨7, 2, some 1⟩] ++ [⟨10, 5, none⟩]
      ∧ (updated_path (some 1)
            ([⟨3, 1, some 0⟩, ⟨7, 2, some 1⟩] : List NodeStats)).map (fun n => n.visits)
          = ([⟨3, 1, some 0⟩, ⟨7, 2, some 1⟩] : List NodeStats).map
              (fun n => n.visits + 1) :=
  backprop_updates_ancestors_root_untouched (some 1)
    [⟨3, 1, some 0⟩, ⟨7, 2, some 1⟩] ⟨10, 5, none⟩ rfl (by decide)

end Cuttle
